import Mathlib

/-!
# NAS security mode control procedure (MME side)

A shallow embedding of `SRC/NAS/EMM/SecurityModeControl.c`.

* C `int` values are `Int`; `unsigned int` values are `Nat`, reduced modulo
  `2 ^ 32` where the code does arithmetic on them.
* The global `_emm_data` is the record `emm_data_t`: the configured preference
  arrays and the store of UE contexts, indexed by UE identifier.  A pointer to
  a UE context is the identifier under which the store holds it.
* A `security_data_t *` is an address into `NasState.heap`; `NULL` is `none`.
* Calls to the collaborators (SAP, timer facility, allocator, key derivation,
  common-procedure registry) are recorded in `NasState.trace`, oldest first.
* A failed assertion or the dereference of a null or dangling pointer ends the
  run: the operations in which that can happen return `Except Fatal`.
* `emm_sap_send` and the other collaborators do not write the UE contexts, the
  Procedure States or the registry behind the back of this file; what they
  answer is a parameter (`Collaborators`).
-/

namespace SecurityModeControl

/-! ## Constants of headers outside this file -/

/-- Modelled from the spec: `RETURNok` of `commonDef.h`, the success signal. -/
def RETURNok : Int := 0

/-- Modelled from the spec: `RETURNerror` of `commonDef.h`, the error signal. -/
def RETURNerror : Int := -1

/-- Modelled from the spec: the sentinel "inactive" timer handle of `nas_timer.h`. -/
def NAS_TIMER_INACTIVE_ID : Int := -1

/-- Modelled from the spec: algorithm id 0, the null integrity algorithm. -/
def NAS_SECURITY_ALGORITHMS_EIA0 : Int := 0

/-- Modelled from the spec: algorithm id 0, the null ciphering algorithm. -/
def NAS_SECURITY_ALGORITHMS_EEA0 : Int := 0

/-- Modelled from the spec: size in bytes of the NAS integrity key buffer (`secu_defs.h`). -/
def AUTH_KNAS_INT_SIZE : Nat := 16

/-- Modelled from the spec: size in bytes of the NAS ciphering key buffer (`secu_defs.h`). -/
def AUTH_KNAS_ENC_SIZE : Nat := 16

/-- The retransmission bound, `#define SECURITY_COUNTER_MAX 5`. -/
def SECURITY_COUNTER_MAX : Nat := 5

/-! ## Data model -/

/-- Modelled from the spec: `context_state`, the enumeration {NoContext, NativeContext}
    (`emm_ksi_t` of `emmData.h`). -/
inductive emm_ksi_t where
  | EMM_KSI_NOT_AVAILABLE
  | EMM_KSI_NATIVE
  deriving DecidableEq, Repr

/-- The algorithm purpose tag handed to `derive_key_nas`. -/
inductive nas_alg_type_t where
  | NAS_ENC_ALG
  | NAS_INT_ALG
  deriving DecidableEq, Repr

/-- An `OctetString`: a length and a buffer pointer (`none` is `NULL`). -/
structure OctetString where
  length : Nat
  value : Option (List Nat)
  deriving DecidableEq, Repr

/-- The downlink NAS counter. -/
structure count_t where
  overflow : Nat
  seq_num : Nat
  deriving DecidableEq, Repr

/-- The pair of algorithms in force. -/
structure selected_algorithms_t where
  encryption : Int
  integrity : Int
  deriving DecidableEq, Repr

/-- The persistent EPS security context (fields this file reads or writes). -/
structure emm_security_context_t where
  type : emm_ksi_t
  eksi : Int
  dl_count : count_t
  kasme : OctetString
  knas_enc : OctetString
  knas_int : OctetString
  selected_algorithms : selected_algorithms_t
  deriving DecidableEq, Repr

/-- The retransmission timer of a UE context: handle and configured duration. -/
structure nas_timer_t where
  id : Int
  sec : Nat
  deriving DecidableEq, Repr

/-- The authentication vector (only `kasme`, an array of 32 bytes, is read here). -/
structure auth_vector_t where
  kasme : List Nat
  deriving DecidableEq, Repr

/-- The UE context (fields this file reads or writes). -/
structure emm_data_context_t where
  is_attached : Int
  security : Option emm_security_context_t
  vector : auth_vector_t
  T3460 : nas_timer_t
  deriving DecidableEq, Repr

/-- The MME configuration: the two ranked preference arrays, 8 entries each. -/
structure emm_conf_t where
  prefered_integrity_algorithm : Fin 8 → Nat
  prefered_ciphering_algorithm : Fin 8 → Nat

/-- The global `_emm_data`: configuration and UE context store. -/
structure emm_data_t where
  conf : emm_conf_t
  ctx : Nat → Option emm_data_context_t

/-- Internal data of the procedure, `security_data_t`. -/
structure security_data_t where
  ue_id : Nat
  retransmission_count : Nat
  ksi : Int
  eea : Int
  eia : Int
  ucs2 : Int
  uea : Int
  uia : Int
  gea : Int
  umts_present : Int
  gprs_present : Int
  selected_eea : Int
  selected_eia : Int
  notify_failure : Bool
  deriving DecidableEq, Repr

/-- Modelled from the spec: the security-context snapshot of an outgoing command
    (`emm_as_set_security_data` is outside this file): the context it was built
    from and the two flags it was built with. -/
structure emm_as_security_data_t where
  security : Option emm_security_context_t
  is_new : Bool
  is_ciphered : Bool
  deriving DecidableEq, Repr

/-- The `EMMAS_SECURITY_REQ` payload (`msg_type` is always `EMM_AS_MSG_TYPE_SMC`,
    `guti` always `NULL`). -/
structure emm_as_security_t where
  ue_id : Nat
  ksi : Int
  eea : Int
  eia : Int
  ucs2 : Int
  uea : Int
  uia : Int
  gea : Int
  umts_present : Int
  gprs_present : Int
  selected_eea : Int
  selected_eia : Int
  sctx : emm_as_security_data_t
  deriving DecidableEq, Repr

/-- A primitive handed to `emm_sap_send`.  `ctx` is the context pointer placed in
    the primitive: the UE identifier the store holds it under, or `none` for `NULL`. -/
inductive emm_sap_t where
  | EMMREG_COMMON_PROC_REQ (ue_id : Nat) (ctx : Option Nat)
  | EMMREG_COMMON_PROC_CNF (ue_id : Nat) (ctx : Option Nat) (is_attached : Int)
  | EMMREG_COMMON_PROC_REJ (ue_id : Nat) (ctx : Option Nat)
  | EMMAS_SECURITY_REQ (msg : emm_as_security_t)
  deriving DecidableEq, Repr

/-- A call to a collaborator, as recorded in the trace. -/
inductive Event where
  | emm_sap_send (sap : emm_sap_t) (rc : Int)
  | derive_key_nas (tag : nas_alg_type_t) (alg : Int) (kasme : List Nat)
  | MALLOC_CHECK (p : Option Nat)
  | FREE_CHECK (p : Nat)
  | emm_proc_common_initialize (ue_id : Nat) (args : Nat) (rc : Int)
  | nas_timer_start (sec : Nat) (args : Nat) (id : Int)
  | nas_timer_restart (old id : Int)
  | nas_timer_stop (id : Int)
  deriving DecidableEq, Repr

/-- One cell of the allocator that holds `security_data_t` records. -/
inductive HeapCell where
  | unallocated
  | live (d : security_data_t)
  | freed
  deriving DecidableEq, Repr

/-- The ways a run ends without returning. -/
inductive Fatal where
  | null_dereference
  | dangling_pointer
  | assertion_failed
  deriving DecidableEq, Repr

/-- The state the procedure works on. -/
structure NasState where
  emm_data : emm_data_t
  heap : Nat → HeapCell
  next_ptr : Nat
  common_args : Nat → Option Nat
  timer_next : Nat
  trace : List Event

/-- The collaborators whose answers the procedure branches on or stores.  Each
    answer may depend on the calls made so far. -/
structure Collaborators where
  malloc_ok : List Event → Bool
  common_initialize_rc : List Event → Nat → Int
  emm_sap_send_rc : List Event → emm_sap_t → Int
  derive_key_nas : nas_alg_type_t → Int → List Nat → List Nat

/-! ## Algorithm selection -/

/-- The test of the selection loops: `ue & (0x80 >> id)`, as a C truth value.
    The shift count is a configured algorithm id; C leaves a count of 32 or
    more undefined, and the shift yields 0 here. -/
def capability_bit (ue : Int) (id : Nat) : Bool :=
  decide (Int.land ue (((0x80 >>> id : Nat) : Int)) ≠ 0)

/-- One selection loop of `_security_select_algorithms`, entered at
    `preference_index = 8 - fuel` with the output holding `out`. -/
def select_loop (ue : Int) (preference : Fin 8 → Nat) (out : Int) : Nat → Int
  | 0 => out
  | fuel + 1 =>
    if h : 8 - (fuel + 1) < 8 then
      if capability_bit ue (preference ⟨8 - (fuel + 1), h⟩) then
        (preference ⟨8 - (fuel + 1), h⟩ : Int)
      else
        select_loop ue preference out fuel
    else out

/-- `_security_select_algorithms`: returns `(rc, *mme_eiaP, *mme_eeaP)`. -/
def _security_select_algorithms (conf : emm_conf_t) (ue_eiaP ue_eeaP : Int) :
    Int × Int × Int :=
  let mme_eia := select_loop ue_eiaP conf.prefered_integrity_algorithm
    NAS_SECURITY_ALGORITHMS_EIA0 8
  let mme_eea := select_loop ue_eeaP conf.prefered_ciphering_algorithm
    NAS_SECURITY_ALGORITHMS_EEA0 8
  (RETURNok, mme_eia, mme_eea)

/-! ## Collaborators -/

/-- Appends a collaborator call to the trace. -/
def record (s : NasState) (e : Event) : NasState :=
  { s with trace := s.trace ++ [e] }

/-- `emm_data_context_get (&_emm_data, ue_id)`. -/
def emm_data_context_get (d : emm_data_t) (ue_id : Nat) : Option emm_data_context_t :=
  d.ctx ue_id

/-- A write through the context pointer of `ue_id`. -/
def set_ctx (s : NasState) (ue_id : Nat) (c : emm_data_context_t) : NasState :=
  { s with emm_data := { s.emm_data with ctx := Function.update s.emm_data.ctx ue_id (some c) } }

/-- A write through a `security_data_t` pointer. -/
def set_data (s : NasState) (p : Nat) (d : security_data_t) : NasState :=
  { s with heap := Function.update s.heap p (HeapCell.live d) }

/-- Modelled from the spec: `emm_sap_send`, the outbound event channel (§6): the
    primitive is emitted and the collaborator answers with a return code. -/
def emm_sap_send (env : Collaborators) (s : NasState) (sap : emm_sap_t) : Int × NasState :=
  (env.emm_sap_send_rc s.trace sap,
    record s (Event.emm_sap_send sap (env.emm_sap_send_rc s.trace sap)))

/-- Modelled from the spec: `nas_timer_start` (§4.3), which always produces a
    fresh non-sentinel handle. -/
def nas_timer_start (s : NasState) (sec args : Nat) : Int × NasState :=
  ((s.timer_next : Int),
    record { s with timer_next := s.timer_next + 1 }
      (Event.nas_timer_start sec args (s.timer_next : Int)))

/-- Modelled from the spec: `nas_timer_restart` (§4.3), cancel-and-rearm with the
    same duration; the armed handle stays in use. -/
def nas_timer_restart (s : NasState) (id : Int) : Int × NasState :=
  (id, record s (Event.nas_timer_restart id id))

/-- Modelled from the spec: `nas_timer_stop` (§5), idempotent, answers with the
    sentinel handle. -/
def nas_timer_stop (s : NasState) (id : Int) : Int × NasState :=
  (NAS_TIMER_INACTIVE_ID, record s (Event.nas_timer_stop id))

/-- The content of a `security_data_t` fresh from the allocator; every field is
    written before it is read. -/
def fresh_data : security_data_t :=
  { ue_id := 0, retransmission_count := 0, ksi := 0, eea := 0, eia := 0, ucs2 := 0,
    uea := 0, uia := 0, gea := 0, umts_present := 0, gprs_present := 0,
    selected_eea := 0, selected_eia := 0, notify_failure := false }

/-- `MALLOC_CHECK (sizeof (security_data_t))`: a fresh address, or `NULL`. -/
def MALLOC_CHECK (env : Collaborators) (s : NasState) : Option Nat × NasState :=
  if env.malloc_ok s.trace then
    (some s.next_ptr,
      record { s with heap := Function.update s.heap s.next_ptr (HeapCell.live fresh_data),
                      next_ptr := s.next_ptr + 1 }
        (Event.MALLOC_CHECK (some s.next_ptr)))
  else
    (none, record s (Event.MALLOC_CHECK none))

/-- `FREE_CHECK (data)`. -/
def FREE_CHECK (s : NasState) (p : Nat) : NasState :=
  record { s with heap := Function.update s.heap p HeapCell.freed } (Event.FREE_CHECK p)

/-- Modelled from the spec: `emm_proc_common_initialize` (§4.2 step 4): on success
    the callbacks and the abort handler are registered against `ue_id` together
    with `args`; on failure nothing is registered. -/
def emm_proc_common_initialize (env : Collaborators) (s : NasState) (ue_id args : Nat) :
    Int × NasState :=
  if env.common_initialize_rc s.trace ue_id = RETURNok then
    (RETURNok,
      record { s with common_args := Function.update s.common_args ue_id (some args) }
        (Event.emm_proc_common_initialize ue_id args RETURNok))
  else
    (env.common_initialize_rc s.trace ue_id,
      record s (Event.emm_proc_common_initialize ue_id args
        (env.common_initialize_rc s.trace ue_id)))

/-- Modelled from the spec: `emm_proc_common_get_args`, the Procedure State
    registered against `ue_id`, or `NULL`. -/
def emm_proc_common_get_args (s : NasState) (ue_id : Nat) : Option Nat :=
  s.common_args ue_id

/-- `derive_key_nas (tag, alg, kasme, out)`: the bytes written to `out`. -/
def derive_key_nas (env : Collaborators) (s : NasState) (tag : nas_alg_type_t) (alg : Int)
    (kasme : List Nat) : List Nat × NasState :=
  (env.derive_key_nas tag alg kasme, record s (Event.derive_key_nas tag alg kasme))

/-- What a signed 1-bit bit-field holds after the assignment of an `int`. -/
def bitfield1 (x : Int) : Int :=
  if x % 2 = 0 then 0 else -1

/-! ## The procedure -/

/-- The `EMMAS_SECURITY_REQ` primitive `_security_request` builds from the
    Procedure State and the security context of the subscriber. -/
def security_command (d : security_data_t) (security : Option emm_security_context_t)
    (is_new : Bool) : emm_sap_t :=
  emm_sap_t.EMMAS_SECURITY_REQ
    { ue_id := d.ue_id, ksi := d.ksi, eea := d.eea, eia := d.eia, ucs2 := d.ucs2,
      uea := d.uea, uia := d.uia, gea := d.gea, umts_present := d.umts_present,
      gprs_present := d.gprs_present, selected_eea := d.selected_eea,
      selected_eia := d.selected_eia,
      sctx := { security := security, is_new := is_new, is_ciphered := false } }

/-- `_security_request`: sends SECURITY MODE COMMAND and starts or restarts T3460. -/
def _security_request (env : Collaborators) (s : NasState) (data : Nat) (is_new : Bool) :
    Except Fatal (Int × NasState) :=
  match s.heap data with
  | HeapCell.live d =>
    match (if d.ue_id > 0 then emm_data_context_get s.emm_data d.ue_id else none) with
    | none => Except.error Fatal.null_dereference
    | some emm_ctx =>
      let r := emm_sap_send env s (security_command d emm_ctx.security is_new)
      if r.1 ≠ RETURNerror then
        if emm_ctx.T3460.id ≠ NAS_TIMER_INACTIVE_ID then
          let t := nas_timer_restart r.2 emm_ctx.T3460.id
          if t.1 = NAS_TIMER_INACTIVE_ID then Except.error Fatal.assertion_failed
          else Except.ok (r.1,
            set_ctx t.2 d.ue_id { emm_ctx with T3460 := { emm_ctx.T3460 with id := t.1 } })
        else
          let t := nas_timer_start r.2 emm_ctx.T3460.sec data
          if t.1 = NAS_TIMER_INACTIVE_ID then Except.error Fatal.assertion_failed
          else Except.ok (r.1,
            set_ctx t.2 d.ue_id { emm_ctx with T3460 := { emm_ctx.T3460 with id := t.1 } })
      else Except.ok (r.1, r.2)
  | _ => Except.error Fatal.dangling_pointer

/-- `_security_abort`: stops T3460, releases the Procedure State and notifies the
    failure when `notify_failure` is set. -/
def _security_abort (env : Collaborators) (s : NasState) (args : Option Nat) :
    Except Fatal (Int × NasState) :=
  match args with
  | none => Except.ok (RETURNerror, s)
  | some data =>
    match s.heap data with
    | HeapCell.live d =>
      match (if d.ue_id > 0 then emm_data_context_get s.emm_data d.ue_id else none) with
      | none => Except.error Fatal.null_dereference
      | some emm_ctx =>
        let s1 :=
          if emm_ctx.T3460.id ≠ NAS_TIMER_INACTIVE_ID then
            set_ctx (nas_timer_stop s emm_ctx.T3460.id).2 d.ue_id
              { emm_ctx with
                T3460 := { emm_ctx.T3460 with id := (nas_timer_stop s emm_ctx.T3460.id).1 } }
          else s
        let s2 := FREE_CHECK s1 data
        if d.notify_failure then
          Except.ok (emm_sap_send env s2 (emm_sap_t.EMMREG_COMMON_PROC_REJ d.ue_id none))
        else Except.ok (RETURNok, s2)
    | _ => Except.error Fatal.dangling_pointer

/-- `_security_t3460_handler`: one expiry of T3460 for the Procedure State `args`. -/
def _security_t3460_handler (env : Collaborators) (s : NasState) (args : Nat) :
    Except Fatal NasState :=
  match s.heap args with
  | HeapCell.live d =>
    let d1 := { d with retransmission_count := (d.retransmission_count + 1) % 4294967296 }
    if d1.retransmission_count < SECURITY_COUNTER_MAX then
      match _security_request env (set_data s args d1) args false with
      | Except.ok r => Except.ok r.2
      | Except.error e => Except.error e
    else
      match _security_abort env (set_data s args { d1 with notify_failure := true })
          (some args) with
      | Except.ok r => Except.ok r.2
      | Except.error e => Except.error e
  | _ => Except.error Fatal.dangling_pointer

/-- How the first part of `emm_proc_security_mode_control` (the branch on the
    security context) ends: with a `return`, or by falling through to the
    allocation of the Procedure State with the current `rc` and
    `security_context_is_new`. -/
inductive Activation where
  | returned (rc : Int) (s : NasState)
  | proceed (rc : Int) (security_context_is_new : Bool) (s : NasState)

/-- The first-time activation branch of `emm_proc_security_mode_control`,
    taken when `emm_ctx->security->type == EMM_KSI_NOT_AVAILABLE`. -/
def activate (env : Collaborators) (s : NasState) (ue_id : Nat) (ksi eea eia : Int)
    (emm_ctx : emm_data_context_t) (sec : emm_security_context_t) : Activation :=
  let sel := _security_select_algorithms s.emm_data.conf eia eea
  let sec1 : emm_security_context_t :=
    { sec with
      type := emm_ksi_t.EMM_KSI_NATIVE,
      eksi := ksi,
      dl_count := { overflow := 0, seq_num := 0 },
      kasme := { length := 32, value := some (emm_ctx.vector.kasme.take 32) },
      selected_algorithms := { encryption := sel.2.2, integrity := sel.2.1 } }
  let s1 := set_ctx s ue_id { emm_ctx with security := some sec1 }
  if sel.1 = RETURNerror then Activation.returned RETURNerror s1
  else
    match sec1.knas_int.value with
    | some _ => Activation.returned RETURNerror s1
    | none =>
      let k_int := derive_key_nas env s1 nas_alg_type_t.NAS_INT_ALG
        sec1.selected_algorithms.integrity emm_ctx.vector.kasme
      let sec2 : emm_security_context_t :=
        { sec1 with knas_int := { length := AUTH_KNAS_INT_SIZE, value := some k_int.1 } }
      let s2 := set_ctx k_int.2 ue_id { emm_ctx with security := some sec2 }
      match sec2.knas_enc.value with
      | some _ => Activation.returned RETURNerror s2
      | none =>
        let k_enc := derive_key_nas env s2 nas_alg_type_t.NAS_ENC_ALG
          sec2.selected_algorithms.encryption emm_ctx.vector.kasme
        let sec3 : emm_security_context_t :=
          { sec2 with knas_enc := { length := AUTH_KNAS_ENC_SIZE, value := some k_enc.1 } }
        Activation.proceed sel.1 true
          (set_ctx k_enc.2 ue_id { emm_ctx with security := some sec3 })

/-- Lines 210 to 272 of `emm_proc_security_mode_control`: context lookup and the
    branch on the security context. -/
def security_mode_control_begin (env : Collaborators) (s : NasState) (ue_id : Nat)
    (ksi eea eia : Int) : Activation :=
  match (if ue_id > 0 then emm_data_context_get s.emm_data ue_id else none) with
  | none => Activation.returned RETURNerror s
  | some emm_ctx =>
    match emm_ctx.security with
    | none => Activation.returned RETURNerror s
    | some sec =>
      if sec.type = emm_ksi_t.EMM_KSI_NOT_AVAILABLE then
        activate env s ue_id ksi eea eia emm_ctx sec
      else Activation.proceed RETURNerror false s

/-- Lines 294 to 337 of `emm_proc_security_mode_control`: the Procedure State as
    set up from the arguments and the security context of the subscriber. -/
def new_security_data (ue_id : Nat)
    (ksi eea eia ucs2 uea uia gea umts_present gprs_present : Int)
    (sec : emm_security_context_t) : security_data_t :=
  { ue_id := ue_id, retransmission_count := 0, ksi := ksi, eea := eea, eia := eia,
    ucs2 := ucs2, uea := uea, uia := uia, gea := gea,
    umts_present := bitfield1 umts_present, gprs_present := bitfield1 gprs_present,
    selected_eea := sec.selected_algorithms.encryption,
    selected_eia := sec.selected_algorithms.integrity,
    notify_failure := false }

/-- Lines 277 to 357 of `emm_proc_security_mode_control`: allocation and set-up
    of the Procedure State, the first command, the notification to EMM. -/
def security_mode_control_end (env : Collaborators) (s : NasState) (rc : Int)
    (security_context_is_new : Bool) (ue_id : Nat)
    (ksi eea eia ucs2 uea uia gea umts_present gprs_present : Int) :
    Except Fatal (Int × NasState) :=
  match MALLOC_CHECK env s with
  | (none, s1) => Except.ok (rc, s1)
  | (some data, s1) =>
    let i := emm_proc_common_initialize env s1 ue_id data
    if i.1 ≠ RETURNok then Except.ok (RETURNerror, FREE_CHECK i.2 data)
    else
      match Option.bind (emm_data_context_get i.2.emm_data ue_id) (fun c => c.security) with
      | none => Except.error Fatal.null_dereference
      | some sec =>
        let d := new_security_data ue_id ksi eea eia ucs2 uea uia gea umts_present
          gprs_present sec
        match _security_request env (set_data i.2 data d) data security_context_is_new with
        | Except.error e => Except.error e
        | Except.ok r =>
          if r.1 ≠ RETURNerror then
            Except.ok (emm_sap_send env r.2
              (emm_sap_t.EMMREG_COMMON_PROC_REQ ue_id (some ue_id)))
          else Except.ok (r.1, r.2)

/-- `emm_proc_security_mode_control`: initiates the security mode control
    procedure.  The three callbacks are only handed on to the registry. -/
def emm_proc_security_mode_control (env : Collaborators) (s : NasState) (ue_id : Nat)
    (ksi eea eia ucs2 uea uia gea umts_present gprs_present : Int) :
    Except Fatal (Int × NasState) :=
  match security_mode_control_begin env s ue_id ksi eea eia with
  | Activation.returned rc s1 => Except.ok (rc, s1)
  | Activation.proceed rc security_context_is_new s1 =>
    security_mode_control_end env s1 rc security_context_is_new ue_id
      ksi eea eia ucs2 uea uia gea umts_present gprs_present

/-- The block "Stop timer T3460" of `emm_proc_security_mode_complete` and
    `emm_proc_security_mode_reject`: the context after the stop and the state
    holding it. -/
def stop_T3460 (s : NasState) (ue_id : Nat) (emm_ctx : emm_data_context_t) :
    emm_data_context_t × NasState :=
  ({ emm_ctx with T3460 := { emm_ctx.T3460 with id := (nas_timer_stop s emm_ctx.T3460.id).1 } },
    set_ctx (nas_timer_stop s emm_ctx.T3460.id).2 ue_id
      { emm_ctx with
        T3460 := { emm_ctx.T3460 with id := (nas_timer_stop s emm_ctx.T3460.id).1 } })

/-- The block "Release retransmission timer parameters" of the same two
    functions: the registered Procedure State, if any, is freed. -/
def release_args (s : NasState) (ue_id : Nat) : NasState :=
  match emm_proc_common_get_args s ue_id with
  | some data => FREE_CHECK s data
  | none => s

/-- `emm_proc_security_mode_complete`. -/
def emm_proc_security_mode_complete (env : Collaborators) (s : NasState) (ue_id : Nat) :
    Int × NasState :=
  match (if ue_id > 0 then emm_data_context_get s.emm_data ue_id else none) with
  | some emm_ctx =>
    let s2 := release_args (stop_T3460 s ue_id emm_ctx).2 ue_id
    match emm_ctx.security with
    | some _ =>
      emm_sap_send env s2
        (emm_sap_t.EMMREG_COMMON_PROC_CNF ue_id (some ue_id) emm_ctx.is_attached)
    | none => emm_sap_send env s2 (emm_sap_t.EMMREG_COMMON_PROC_REJ ue_id (some ue_id))
  | none =>
    emm_sap_send env (release_args s ue_id) (emm_sap_t.EMMREG_COMMON_PROC_REJ ue_id none)

/-- `emm_proc_security_mode_reject`.  `DevAssert (emm_ctx)` ends the run when
    `ue_id > 0` and the store holds no context for it. -/
def emm_proc_security_mode_reject (env : Collaborators) (s : NasState) (ue_id : Nat) :
    Except Fatal (Int × NasState) :=
  if ue_id > 0 then
    match emm_data_context_get s.emm_data ue_id with
    | none => Except.error Fatal.assertion_failed
    | some emm_ctx =>
      let c1 := (stop_T3460 s ue_id emm_ctx).1
      let s2 := release_args (stop_T3460 s ue_id emm_ctx).2 ue_id
      match c1.security with
      | some sec =>
        Except.ok (emm_sap_send env
          (set_ctx s2 ue_id
            { c1 with security := some { sec with type := emm_ksi_t.EMM_KSI_NOT_AVAILABLE } })
          (emm_sap_t.EMMREG_COMMON_PROC_REJ ue_id (some ue_id)))
      | none =>
        Except.ok (emm_sap_send env s2 (emm_sap_t.EMMREG_COMMON_PROC_REJ ue_id (some ue_id)))
  else
    Except.ok (emm_sap_send env (release_args s ue_id)
      (emm_sap_t.EMMREG_COMMON_PROC_REJ ue_id none))

/-! ## Timer expiries -/

/-- The state after `n` consecutive expiries of T3460 for the Procedure State `args`. -/
def expiries (env : Collaborators) (s : NasState) (args : Nat) : Nat → Except Fatal NasState
  | 0 => Except.ok s
  | n + 1 =>
    match expiries env s args n with
    | Except.ok s1 => _security_t3460_handler env s1 args
    | Except.error e => Except.error e

/-! ## Observations -/

/-- The persistent security context of a subscriber, if any. -/
def security_of (s : NasState) (ue_id : Nat) : Option emm_security_context_t :=
  Option.bind (s.emm_data.ctx ue_id) (fun c => c.security)

/-- The number of calls to `derive_key_nas` with the given purpose tag in a trace. -/
def key_derivations (tag : nas_alg_type_t) (tr : List Event) : Nat :=
  tr.countP (fun e =>
    match e with
    | Event.derive_key_nas t _ _ => decide (t = tag)
    | _ => false)

/-- The number of `EMMAS_SECURITY_REQ` primitives handed to `emm_sap_send` in a trace. -/
def commands_sent (tr : List Event) : Nat :=
  tr.countP (fun e =>
    match e with
    | Event.emm_sap_send (emm_sap_t.EMMAS_SECURITY_REQ _) _ => true
    | _ => false)

/-- The primitives handed to `emm_sap_send` in a trace, oldest first. -/
def emitted (tr : List Event) : List emm_sap_t :=
  tr.filterMap (fun e =>
    match e with
    | Event.emm_sap_send sap _ => some sap
    | _ => none)

/-- The number of calls `FREE_CHECK (p)` in a trace. -/
def releases (p : Nat) (tr : List Event) : Nat :=
  tr.countP (fun e =>
    match e with
    | Event.FREE_CHECK q => decide (q = p)
    | _ => false)

/-- A Procedure State exists for the subscriber: some allocated, not yet
    released `security_data_t` carries its identifier. -/
def procedure_state_exists (s : NasState) (ue_id : Nat) : Prop :=
  ∃ p d, s.heap p = HeapCell.live d ∧ d.ue_id = ue_id

/-- The T3460 handle of the subscriber differs from `NAS_TIMER_INACTIVE_ID`. -/
def timer_armed (s : NasState) (ue_id : Nat) : Prop :=
  ∃ c, s.emm_data.ctx ue_id = some c ∧ c.T3460.id ≠ NAS_TIMER_INACTIVE_ID

/-! ## Sequences of events -/

/-- An event delivered to the procedure: a start call (with `ue_id`, `ksi`, `eea`,
    `eia`; the legacy capability arguments are 0), a complete, a reject, or an
    expiry of T3460 for the Procedure State at `args`. -/
inductive Input where
  | start (ue_id : Nat) (ksi eea eia : Int)
  | complete (ue_id : Nat)
  | reject (ue_id : Nat)
  | expiry (args : Nat)
  deriving DecidableEq, Repr

/-- The state after one event. -/
def step (env : Collaborators) (s : NasState) : Input → Except Fatal NasState
  | Input.start ue_id ksi eea eia =>
    match emm_proc_security_mode_control env s ue_id ksi eea eia 0 0 0 0 0 0 with
    | Except.ok r => Except.ok r.2
    | Except.error e => Except.error e
  | Input.complete ue_id => Except.ok (emm_proc_security_mode_complete env s ue_id).2
  | Input.reject ue_id =>
    match emm_proc_security_mode_reject env s ue_id with
    | Except.ok r => Except.ok r.2
    | Except.error e => Except.error e
  | Input.expiry args => _security_t3460_handler env s args

/-- The state after a sequence of events, delivered one at a time. -/
def run (env : Collaborators) (s : NasState) : List Input → Except Fatal NasState
  | [] => Except.ok s
  | i :: rest =>
    match step env s i with
    | Except.ok s1 => run env s1 rest
    | Except.error e => Except.error e

/-- The state a sequence of events leads to, or the starting state when the run
    ends on the way. -/
def state_after (env : Collaborators) (s : NasState) (inputs : List Input) : NasState :=
  match run env s inputs with
  | Except.ok s1 => s1
  | Except.error _ => s

/-! ## Example configuration -/

/-- A configuration that ranks integrity algorithms 2, 1, 0, 3, ... and ciphering
    algorithms 0, 1, 2, 3, ... -/
def example_conf : emm_conf_t :=
  { prefered_integrity_algorithm := fun i => [2, 1, 0, 3, 4, 5, 6, 7].getD i.val 0,
    prefered_ciphering_algorithm := fun i => i.val }

/-- A security context of the given state that holds no key material yet. -/
def example_security (type : emm_ksi_t) : emm_security_context_t :=
  { type := type, eksi := 7, dl_count := { overflow := 3, seq_num := 9 },
    kasme := { length := 0, value := none },
    knas_enc := { length := 0, value := none },
    knas_int := { length := 0, value := none },
    selected_algorithms := { encryption := 1, integrity := 1 } }

/-- A security context of the given state whose key buffers are allocated, as a
    first-time activation leaves them. -/
def example_security_with_keys (type : emm_ksi_t) : emm_security_context_t :=
  { type := type, eksi := 7, dl_count := { overflow := 3, seq_num := 9 },
    kasme := { length := 32, value := some (List.replicate 32 5) },
    knas_enc := { length := 16, value := some (List.replicate 16 1) },
    knas_int := { length := 16, value := some (List.replicate 16 1) },
    selected_algorithms := { encryption := 1, integrity := 1 } }

/-- A UE context with an inactive T3460 of 6 seconds and a 32-byte `kasme`. -/
def example_context (security : Option emm_security_context_t) : emm_data_context_t :=
  { is_attached := 0, security := security,
    vector := { kasme := List.replicate 32 5 },
    T3460 := { id := NAS_TIMER_INACTIVE_ID, sec := 6 } }

/-- A store with four subscribers: 1 has a NoContext security context without
    key buffers, 2 has a context without security context, 3 has a Native
    security context, 4 has a NoContext security context whose key buffers are
    allocated; no Procedure State exists. -/
def example_state : NasState :=
  { emm_data :=
      { conf := example_conf,
        ctx := fun ue_id =>
          if ue_id = 1 then
            some (example_context (some (example_security emm_ksi_t.EMM_KSI_NOT_AVAILABLE)))
          else if ue_id = 2 then some (example_context none)
          else if ue_id = 3 then
            some (example_context (some (example_security emm_ksi_t.EMM_KSI_NATIVE)))
          else if ue_id = 4 then
            some (example_context
              (some (example_security_with_keys emm_ksi_t.EMM_KSI_NOT_AVAILABLE)))
          else none },
    heap := fun _ => HeapCell.unallocated,
    next_ptr := 0,
    common_args := fun _ => none,
    timer_next := 0,
    trace := [] }

/-- Collaborators that always succeed; the derived key is 16 bytes, each the
    selected algorithm id. -/
def example_env : Collaborators :=
  { malloc_ok := fun _ => true,
    common_initialize_rc := fun _ _ => RETURNok,
    emm_sap_send_rc := fun _ _ => RETURNok,
    derive_key_nas := fun _ alg _ => List.replicate 16 alg.toNat }

/-- Collaborators that succeed except that the lower layer refuses every
    Security Mode Command. -/
def refusing_env : Collaborators :=
  { example_env with
    emm_sap_send_rc := fun _ sap =>
      match sap with
      | emm_sap_t.EMMAS_SECURITY_REQ _ => RETURNerror
      | _ => RETURNok }

/-- Collaborators that succeed except that the `EMMREG_COMMON_PROC_REQ`
    notification is answered with an error. -/
def unconfirmed_env : Collaborators :=
  { example_env with
    emm_sap_send_rc := fun _ sap =>
      match sap with
      | emm_sap_t.EMMREG_COMMON_PROC_REQ _ _ => RETURNerror
      | _ => RETURNok }

/-- Collaborators that succeed except that `MALLOC_CHECK` returns `NULL`. -/
def no_memory_env : Collaborators :=
  { example_env with malloc_ok := fun _ => false }

/-- The example store after a first start for subscriber 1. -/
def example_pending : NasState :=
  match emm_proc_security_mode_control example_env example_state 1 5 0x40 0x60 0 0 0 0 0 0 with
  | Except.ok r => r.2
  | Except.error _ => example_state

/-- The Procedure State that start created in `example_pending`. -/
def example_data : security_data_t :=
  { ue_id := 1, retransmission_count := 0, ksi := 5, eea := 0x40, eia := 0x60, ucs2 := 0,
    uea := 0, uia := 0, gea := 0, umts_present := 0, gprs_present := 0,
    selected_eea := 1, selected_eia := 2, notify_failure := false }

/-- The context of subscriber 1 in `example_pending`: activated, T3460 armed
    with handle 0. -/
def example_pending_context : emm_data_context_t :=
  { is_attached := 0,
    security := some
      { type := emm_ksi_t.EMM_KSI_NATIVE, eksi := 5,
        dl_count := { overflow := 0, seq_num := 0 },
        kasme := { length := 32, value := some (List.replicate 32 5) },
        knas_enc := { length := 16, value := some (List.replicate 16 1) },
        knas_int := { length := 16, value := some (List.replicate 16 2) },
        selected_algorithms := { encryption := 1, integrity := 2 } },
    vector := { kasme := List.replicate 32 5 },
    T3460 := { id := 0, sec := 6 } }

/-- The example configuration with another ciphering ranking: 7, 6, 5, ... -/
def example_conf_other : emm_conf_t :=
  { prefered_integrity_algorithm := example_conf.prefered_integrity_algorithm,
    prefered_ciphering_algorithm := fun i => 7 - i.val }

/-- The store `example_pending` with the retransmission counter of its Procedure
    State at 4: the next expiry is the fifth. -/
def example_pending_at_four : NasState :=
  set_data example_pending 0 { example_data with retransmission_count := 4 }

theorem select_loop_no_match (ue : Int) (preference : Fin 8 → Nat) (out : Int)
    (h : ∀ i : Fin 8, capability_bit ue (preference i) = false) (fuel : Nat) :
    select_loop ue preference out fuel = out := by
  induction fuel with
  | zero => rfl
  | succ n ih =>
    unfold select_loop
    split
    · rw [h, ih]; simp
    · rfl

theorem select_loop_first_match (ue : Int) (preference : Fin 8 → Nat) (out : Int) (i : Fin 8)
    (hi : capability_bit ue (preference i) = true)
    (hmin : ∀ j : Fin 8, j < i → capability_bit ue (preference j) = false) (fuel : Nat)
    (hfuel : fuel ≤ 8) (hstart : 8 - fuel ≤ i.val) :
    select_loop ue preference out fuel = (preference i : Int) := by
  induction fuel with
  | zero => exact absurd hstart (by have := i.isLt; omega)
  | succ n ih =>
    unfold select_loop
    have hlt : 8 - (n + 1) < 8 := by omega
    rw [dif_pos hlt]
    by_cases heq : 8 - (n + 1) = i.val
    · have hfin : (⟨8 - (n + 1), hlt⟩ : Fin 8) = i := Fin.ext heq
      rw [hfin, hi]; simp
    · have hj : (⟨8 - (n + 1), hlt⟩ : Fin 8) < i := by
        apply Fin.mk_lt_of_lt_val
        omega
      rw [hmin _ hj]
      simp only [Bool.false_eq_true, if_false]
      exact ih (by omega) (by omega)

theorem capability_bit_eq_true (ue : Int) (id : Nat) :
    capability_bit ue id = true ↔ Int.land ue (((0x80 >>> id : Nat) : Int)) ≠ 0 := by
  simp [capability_bit]

theorem capability_bit_eq_false (ue : Int) (id : Nat) :
    capability_bit ue id = false ↔ Int.land ue (((0x80 >>> id : Nat) : Int)) = 0 := by
  simp [capability_bit]

/-! ## Algorithm selection: claims -/

/-- C1: whenever some entry of a preference list has its bit set in the UE
    capability mask, `_security_select_algorithms` returns the entry at the
    smallest index whose test `mask & (0x80 >> preference[i])` is non-zero, for
    integrity and for ciphering alike; in particular entry 0 is returned as soon
    as its bit is set. -/
theorem select_returns_first_supported_preference (conf : emm_conf_t) (ue_eia ue_eea : Int) :
    (∀ i : Fin 8,
      Int.land ue_eia (((0x80 >>> conf.prefered_integrity_algorithm i : Nat) : Int)) ≠ 0 →
      (∀ j : Fin 8, j < i →
        Int.land ue_eia (((0x80 >>> conf.prefered_integrity_algorithm j : Nat) : Int)) = 0) →
      (_security_select_algorithms conf ue_eia ue_eea).2.1
        = (conf.prefered_integrity_algorithm i : Int)) ∧
    (∀ i : Fin 8,
      Int.land ue_eea (((0x80 >>> conf.prefered_ciphering_algorithm i : Nat) : Int)) ≠ 0 →
      (∀ j : Fin 8, j < i →
        Int.land ue_eea (((0x80 >>> conf.prefered_ciphering_algorithm j : Nat) : Int)) = 0) →
      (_security_select_algorithms conf ue_eia ue_eea).2.2
        = (conf.prefered_ciphering_algorithm i : Int)) ∧
    (Int.land ue_eia (((0x80 >>> conf.prefered_integrity_algorithm 0 : Nat) : Int)) ≠ 0 →
      (_security_select_algorithms conf ue_eia ue_eea).2.1
        = (conf.prefered_integrity_algorithm 0 : Int)) ∧
    (Int.land ue_eea (((0x80 >>> conf.prefered_ciphering_algorithm 0 : Nat) : Int)) ≠ 0 →
      (_security_select_algorithms conf ue_eia ue_eea).2.2
        = (conf.prefered_ciphering_algorithm 0 : Int)) := by
  refine ⟨?_, ?_, ?_, ?_⟩
  · intro i hi hmin
    exact select_loop_first_match ue_eia _ _ i ((capability_bit_eq_true _ _).2 hi)
      (fun j hj => (capability_bit_eq_false _ _).2 (hmin j hj)) 8 (le_refl 8) (Nat.zero_le _)
  · intro i hi hmin
    exact select_loop_first_match ue_eea _ _ i ((capability_bit_eq_true _ _).2 hi)
      (fun j hj => (capability_bit_eq_false _ _).2 (hmin j hj)) 8 (le_refl 8) (Nat.zero_le _)
  · intro h0
    exact select_loop_first_match ue_eia _ _ 0 ((capability_bit_eq_true _ _).2 h0)
      (fun j hj => absurd hj (Fin.not_lt_zero j)) 8 (le_refl 8) (Nat.zero_le _)
  · intro h0
    exact select_loop_first_match ue_eea _ _ 0 ((capability_bit_eq_true _ _).2 h0)
      (fun j hj => absurd hj (Fin.not_lt_zero j)) 8 (le_refl 8) (Nat.zero_le _)

/-- C1 at a concrete input: with integrity ranking 2, 1, 0, ... and mask 0x60 (bits
    of ids 1 and 2) the selector returns 2; with ciphering ranking 0, 1, 2, ...
    and mask 0x20 (bit of id 2 only) it returns 2, the entry at index 2. -/
theorem select_returns_first_supported_preference_witness :
    (_security_select_algorithms example_conf 0x60 0x20).2.1 = 2 ∧
    (_security_select_algorithms example_conf 0x60 0x20).2.2 = 2 :=
  ⟨(select_returns_first_supported_preference example_conf 0x60 0x20).2.2.1 (by decide),
   (select_returns_first_supported_preference example_conf 0x60 0x20).2.1 2 (by decide)
     (by decide)⟩

/-- C2: when no entry of the integrity preference list has its bit set in the UE
    integrity mask the selected integrity algorithm is 0 (EIA0), and when no entry
    of the ciphering preference list has its bit set in the UE ciphering mask the
    selected ciphering algorithm is 0 (EEA0), each whatever the other mask is. -/
theorem select_falls_back_to_null_algorithm (conf : emm_conf_t) (ue_eia ue_eea : Int) :
    ((∀ i : Fin 8,
        Int.land ue_eia (((0x80 >>> conf.prefered_integrity_algorithm i : Nat) : Int)) = 0) →
      (_security_select_algorithms conf ue_eia ue_eea).2.1 = 0) ∧
    ((∀ i : Fin 8,
        Int.land ue_eea (((0x80 >>> conf.prefered_ciphering_algorithm i : Nat) : Int)) = 0) →
      (_security_select_algorithms conf ue_eia ue_eea).2.2 = 0) := by
  constructor
  · intro h
    exact select_loop_no_match ue_eia _ _ (fun i => (capability_bit_eq_false _ _).2 (h i)) 8
  · intro h
    exact select_loop_no_match ue_eea _ _ (fun i => (capability_bit_eq_false _ _).2 (h i)) 8

/-- C2 at a concrete input: with an empty integrity mask and a full ciphering mask
    the integrity output is 0; with a full integrity mask and an empty ciphering
    mask the ciphering output is 0. -/
theorem select_falls_back_to_null_algorithm_witness :
    (_security_select_algorithms example_conf 0 0xff).2.1 = 0 ∧
    (_security_select_algorithms example_conf 0xff 0).2.2 = 0 :=
  ⟨(select_falls_back_to_null_algorithm example_conf 0 0xff).1 (by decide),
   (select_falls_back_to_null_algorithm example_conf 0xff 0).2 (by decide)⟩

/-! ## Symbolic execution of the helpers -/

theorem request_refused (env : Collaborators) (s : NasState) (p : Nat) (is_new : Bool)
    (d : security_data_t) (c : emm_data_context_t)
    (hp : s.heap p = HeapCell.live d) (hue : 0 < d.ue_id)
    (hc : s.emm_data.ctx d.ue_id = some c)
    (hrc : env.emm_sap_send_rc s.trace (security_command d c.security is_new) = RETURNerror) :
    _security_request env s p is_new = Except.ok (RETURNerror,
      record s (Event.emm_sap_send (security_command d c.security is_new) RETURNerror)) := by
  unfold _security_request
  simp [hp, hue, emm_data_context_get, hc, emm_sap_send, hrc]

theorem request_accepted_restart (env : Collaborators) (s : NasState) (p : Nat) (is_new : Bool)
    (d : security_data_t) (c : emm_data_context_t)
    (hp : s.heap p = HeapCell.live d) (hue : 0 < d.ue_id)
    (hc : s.emm_data.ctx d.ue_id = some c)
    (hrc : env.emm_sap_send_rc s.trace (security_command d c.security is_new) ≠ RETURNerror)
    (harmed : c.T3460.id ≠ NAS_TIMER_INACTIVE_ID) :
    _security_request env s p is_new = Except.ok
      (env.emm_sap_send_rc s.trace (security_command d c.security is_new),
       set_ctx (record (record s (Event.emm_sap_send (security_command d c.security is_new)
          (env.emm_sap_send_rc s.trace (security_command d c.security is_new))))
          (Event.nas_timer_restart c.T3460.id c.T3460.id)) d.ue_id c) := by
  unfold _security_request
  simp [hp, hue, emm_data_context_get, hc, emm_sap_send, hrc, harmed, nas_timer_restart]

theorem request_accepted_start (env : Collaborators) (s : NasState) (p : Nat) (is_new : Bool)
    (d : security_data_t) (c : emm_data_context_t)
    (hp : s.heap p = HeapCell.live d) (hue : 0 < d.ue_id)
    (hc : s.emm_data.ctx d.ue_id = some c)
    (hrc : env.emm_sap_send_rc s.trace (security_command d c.security is_new) ≠ RETURNerror)
    (hidle : c.T3460.id = NAS_TIMER_INACTIVE_ID) :
    _security_request env s p is_new = Except.ok
      (env.emm_sap_send_rc s.trace (security_command d c.security is_new),
       set_ctx (record
          { record s (Event.emm_sap_send (security_command d c.security is_new)
              (env.emm_sap_send_rc s.trace (security_command d c.security is_new))) with
            timer_next := s.timer_next + 1 }
          (Event.nas_timer_start c.T3460.sec p (s.timer_next : Int))) d.ue_id
          { c with T3460 := { c.T3460 with id := (s.timer_next : Int) } }) := by
  unfold _security_request
  simp [hp, hue, emm_data_context_get, hc, emm_sap_send, hrc, hidle, nas_timer_start, record,
    NAS_TIMER_INACTIVE_ID]


theorem key_derivations_append (tag : nas_alg_type_t) (a b : List Event) :
    key_derivations tag (a ++ b) = key_derivations tag a + key_derivations tag b := by
  simp [key_derivations, List.countP_append]

theorem request_frame (env : Collaborators) (s : NasState) (p : Nat) (is_new : Bool)
    (d : security_data_t) (c : emm_data_context_t)
    (hp : s.heap p = HeapCell.live d) (hue : 0 < d.ue_id)
    (hc : s.emm_data.ctx d.ue_id = some c) :
    ∃ rc s', _security_request env s p is_new = Except.ok (rc, s') ∧
      (∀ u, security_of s' u = security_of s u) ∧ s'.heap = s.heap ∧
      s'.common_args = s.common_args ∧
      ∀ tag, key_derivations tag s'.trace = key_derivations tag s.trace := by
  by_cases hrc : env.emm_sap_send_rc s.trace (security_command d c.security is_new) = RETURNerror
  · refine ⟨_, _, request_refused env s p is_new d c hp hue hc hrc, fun u => rfl, rfl, rfl, ?_⟩
    intro tag
    simp [record, key_derivations_append, key_derivations]
  · by_cases harmed : c.T3460.id = NAS_TIMER_INACTIVE_ID
    · refine ⟨_, _, request_accepted_start env s p is_new d c hp hue hc hrc harmed, ?_, rfl, rfl,
        ?_⟩
      · intro u
        by_cases hu : u = d.ue_id
        · subst hu; simp [security_of, set_ctx, record, hc]
        · simp [security_of, set_ctx, record, Function.update, hu]
      · intro tag
        simp [set_ctx, record, key_derivations_append, key_derivations]
    · refine ⟨_, _, request_accepted_restart env s p is_new d c hp hue hc hrc harmed, ?_, rfl,
        rfl, ?_⟩
      · intro u
        by_cases hu : u = d.ue_id
        · subst hu; simp [security_of, set_ctx, record, hc]
        · simp [security_of, set_ctx, record, Function.update, hu]
      · intro tag
        simp [set_ctx, record, key_derivations_append, key_derivations]

theorem end_frame (env : Collaborators) (s : NasState) (rc : Int) (is_new : Bool) (ue_id : Nat)
    (ksi eea eia ucs2 uea uia gea umts_present gprs_present : Int)
    (hue : 0 < ue_id) (sec : emm_security_context_t) (hsec : security_of s ue_id = some sec) :
    ∃ rc1 s1, security_mode_control_end env s rc is_new ue_id ksi eea eia ucs2 uea uia gea
        umts_present gprs_present = Except.ok (rc1, s1) ∧
      (∀ u, security_of s1 u = security_of s u) ∧
      ∀ tag, key_derivations tag s1.trace = key_derivations tag s.trace := by
  obtain ⟨c, hc, hcs⟩ : ∃ c, s.emm_data.ctx ue_id = some c ∧ c.security = some sec := by
    unfold security_of at hsec
    cases hctx : s.emm_data.ctx ue_id with
    | none => simp [hctx] at hsec
    | some c => exact ⟨c, rfl, by simpa [hctx] using hsec⟩
  unfold security_mode_control_end MALLOC_CHECK
  by_cases hm : env.malloc_ok s.trace = true
  · simp only [hm, if_true]
    unfold emm_proc_common_initialize
    by_cases hi : env.common_initialize_rc
        (record
          { s with heap := Function.update s.heap s.next_ptr (HeapCell.live fresh_data),
                   next_ptr := s.next_ptr + 1 }
          (Event.MALLOC_CHECK (some s.next_ptr))).trace ue_id = RETURNok
    · simp only [hi, if_true, ne_eq, not_true_eq_false, if_false]
      simp only [record, emm_data_context_get, hc, Option.bind, hcs]
      obtain ⟨r1, s', hreq, hsecs, -, -, hder⟩ := request_frame env
        (set_data
          { emm_data := s.emm_data,
            heap := Function.update s.heap s.next_ptr (HeapCell.live fresh_data),
            next_ptr := s.next_ptr + 1,
            common_args := Function.update s.common_args ue_id (some s.next_ptr),
            timer_next := s.timer_next,
            trace := s.trace ++ [Event.MALLOC_CHECK (some s.next_ptr)] ++
              [Event.emm_proc_common_initialize ue_id s.next_ptr RETURNok] }
          s.next_ptr
          (new_security_data ue_id ksi eea eia ucs2 uea uia gea umts_present gprs_present sec))
        s.next_ptr is_new
        (new_security_data ue_id ksi eea eia ucs2 uea uia gea umts_present gprs_present sec) c
        (by simp [set_data]) hue (by simpa [set_data, new_security_data] using hc)
      rw [hreq]
      have hder' : ∀ tag, key_derivations tag s'.trace = key_derivations tag s.trace := by
        intro tag
        rw [hder tag]
        simp [set_data, key_derivations_append, key_derivations]
      by_cases hr : r1 = RETURNerror
      · simp only [hr, not_true_eq_false, if_false]
        exact ⟨_, _, rfl, hsecs, hder'⟩
      · simp only [hr, not_false_eq_true, if_true]
        refine ⟨_, _, rfl, hsecs, ?_⟩
        intro tag
        simp [emm_sap_send, record, key_derivations_append, hder']
        simp [key_derivations]
    · simp only [hi, if_false, ne_eq, not_false_eq_true, if_true]
      refine ⟨_, _, rfl, fun u => rfl, ?_⟩
      intro tag
      simp [FREE_CHECK, record, key_derivations_append, key_derivations]
  · simp only [hm]
    refine ⟨_, _, rfl, fun u => rfl, ?_⟩
    intro tag
    simp [record, key_derivations_append, key_derivations]

/-! ## Start of the procedure -/

/-- C3: when the subscriber id is 0, or the store holds no context for it, or
    its context has no security context, `emm_proc_security_mode_control`
    returns `RETURNerror` and leaves the whole state as it was: no context field
    is written, nothing is allocated or registered, the timer is not touched and
    no call to a collaborator is made. -/
theorem start_without_security_context_changes_nothing (env : Collaborators) (s : NasState)
    (ue_id : Nat) (ksi eea eia ucs2 uea uia gea umts_present gprs_present : Int)
    (h : ue_id = 0 ∨ s.emm_data.ctx ue_id = none ∨
      ∃ c, s.emm_data.ctx ue_id = some c ∧ c.security = none) :
    emm_proc_security_mode_control env s ue_id ksi eea eia ucs2 uea uia gea
      umts_present gprs_present = Except.ok (RETURNerror, s) := by
  unfold emm_proc_security_mode_control security_mode_control_begin emm_data_context_get
  rcases h with h | h | ⟨c, hc, hsec⟩
  · simp [h]
  · simp [h]
  · by_cases h0 : ue_id > 0
    · simp [h0, hc, hsec]
    · simp [h0]

/-- C3 at concrete inputs: subscriber 2 (context without security context),
    subscriber 9 (no context) and subscriber 0. -/
theorem start_without_security_context_changes_nothing_witness :
    emm_proc_security_mode_control example_env example_state 2 0 0 0 0 0 0 0 0 0
      = Except.ok (RETURNerror, example_state) ∧
    emm_proc_security_mode_control example_env example_state 9 0 0 0 0 0 0 0 0 0
      = Except.ok (RETURNerror, example_state) ∧
    emm_proc_security_mode_control example_env example_state 0 0 0 0 0 0 0 0 0 0
      = Except.ok (RETURNerror, example_state) :=
  ⟨start_without_security_context_changes_nothing example_env example_state 2 0 0 0 0 0 0 0 0 0
     (Or.inr (Or.inr ⟨example_context none, rfl, rfl⟩)),
   start_without_security_context_changes_nothing example_env example_state 9 0 0 0 0 0 0 0 0 0
     (Or.inr (Or.inl rfl)),
   start_without_security_context_changes_nothing example_env example_state 0 0 0 0 0 0 0 0 0 0
     (Or.inl rfl)⟩

theorem begin_native (env : Collaborators) (s : NasState) (ue_id : Nat) (ksi eea eia : Int)
    (c : emm_data_context_t) (sec : emm_security_context_t) (hue : 0 < ue_id)
    (hc : s.emm_data.ctx ue_id = some c) (hs : c.security = some sec)
    (ht : sec.type = emm_ksi_t.EMM_KSI_NATIVE) :
    security_mode_control_begin env s ue_id ksi eea eia
      = Activation.proceed RETURNerror false s := by
  unfold security_mode_control_begin
  simp [hue, emm_data_context_get, hc, hs, ht]

theorem security_of_eq (s : NasState) (ue_id : Nat) (c : emm_data_context_t)
    (sec : emm_security_context_t) (hc : s.emm_data.ctx ue_id = some c)
    (hs : c.security = some sec) : security_of s ue_id = some sec := by
  simp [security_of, hc, hs]

theorem begin_first_activation (env : Collaborators) (s : NasState) (ue_id : Nat)
    (ksi eea eia : Int) (c : emm_data_context_t) (sec : emm_security_context_t)
    (hue : 0 < ue_id) (hc : s.emm_data.ctx ue_id = some c) (hs : c.security = some sec)
    (ht : sec.type = emm_ksi_t.EMM_KSI_NOT_AVAILABLE)
    (hki : sec.knas_int.value = none) (hke : sec.knas_enc.value = none) :
    ∃ s1, security_mode_control_begin env s ue_id ksi eea eia
        = Activation.proceed RETURNok true s1 ∧
      security_of s1 ue_id = some
        { type := emm_ksi_t.EMM_KSI_NATIVE, eksi := ksi,
          dl_count := { overflow := 0, seq_num := 0 },
          kasme := { length := 32, value := some (c.vector.kasme.take 32) },
          knas_enc := { length := AUTH_KNAS_ENC_SIZE,
                        value := some (env.derive_key_nas nas_alg_type_t.NAS_ENC_ALG
                          (_security_select_algorithms s.emm_data.conf eia eea).2.2
                          c.vector.kasme) },
          knas_int := { length := AUTH_KNAS_INT_SIZE,
                        value := some (env.derive_key_nas nas_alg_type_t.NAS_INT_ALG
                          (_security_select_algorithms s.emm_data.conf eia eea).2.1
                          c.vector.kasme) },
          selected_algorithms :=
            { encryption := (_security_select_algorithms s.emm_data.conf eia eea).2.2,
              integrity := (_security_select_algorithms s.emm_data.conf eia eea).2.1 } } ∧
      s1.trace = s.trace ++
        [Event.derive_key_nas nas_alg_type_t.NAS_INT_ALG
           (_security_select_algorithms s.emm_data.conf eia eea).2.1 c.vector.kasme,
         Event.derive_key_nas nas_alg_type_t.NAS_ENC_ALG
           (_security_select_algorithms s.emm_data.conf eia eea).2.2 c.vector.kasme] ∧
      s1.heap = s.heap ∧ s1.common_args = s.common_args ∧ s1.next_ptr = s.next_ptr ∧
      s1.emm_data.conf = s.emm_data.conf ∧
      s1.emm_data.ctx ue_id = some { c with security := security_of s1 ue_id } := by
  unfold security_mode_control_begin activate
  have hsel : (_security_select_algorithms s.emm_data.conf eia eea).1 ≠ RETURNerror := by
    simp [_security_select_algorithms, RETURNok, RETURNerror]
  simp only [hue, emm_data_context_get, hc, hs, ht, if_true, hsel, if_false, hki, hke]
  refine ⟨_, rfl, ?_, ?_, rfl, rfl, rfl, rfl, ?_⟩
  · simp [security_of, set_ctx, derive_key_nas, record]
  · simp [set_ctx, derive_key_nas, record]
  · simp [security_of, set_ctx, derive_key_nas, record]

/-- C4: a start call on a subscriber whose security context is NoContext and
    holds no integrity or cipher key buffer returns, and afterwards the context
    has type `EMM_KSI_NATIVE`, `eksi` equal to the `ksi` argument, a zero
    downlink count, `kasme` equal to the 32 bytes of the vector's `kasme` with
    length 32, and `selected_algorithms` equal to the pair that
    `_security_select_algorithms` returns on the `eia` and `eea` arguments. -/
theorem first_activation_installs_context (env : Collaborators) (s : NasState) (ue_id : Nat)
    (ksi eea eia ucs2 uea uia gea umts_present gprs_present : Int)
    (c : emm_data_context_t) (sec : emm_security_context_t)
    (hue : 0 < ue_id) (hc : s.emm_data.ctx ue_id = some c) (hs : c.security = some sec)
    (ht : sec.type = emm_ksi_t.EMM_KSI_NOT_AVAILABLE)
    (hki : sec.knas_int.value = none) (hke : sec.knas_enc.value = none) :
    ∃ rc s1 sec1,
      emm_proc_security_mode_control env s ue_id ksi eea eia ucs2 uea uia gea
        umts_present gprs_present = Except.ok (rc, s1) ∧
      security_of s1 ue_id = some sec1 ∧
      sec1.type = emm_ksi_t.EMM_KSI_NATIVE ∧
      sec1.eksi = ksi ∧
      sec1.dl_count.overflow = 0 ∧ sec1.dl_count.seq_num = 0 ∧
      sec1.kasme.value = some (c.vector.kasme.take 32) ∧ sec1.kasme.length = 32 ∧
      sec1.selected_algorithms.integrity
        = (_security_select_algorithms s.emm_data.conf eia eea).2.1 ∧
      sec1.selected_algorithms.encryption
        = (_security_select_algorithms s.emm_data.conf eia eea).2.2 := by
  obtain ⟨s0, hbegin, hsec0, -⟩ :=
    begin_first_activation env s ue_id ksi eea eia c sec hue hc hs ht hki hke
  obtain ⟨rc, s1, hend, hframe, -⟩ := end_frame env s0 RETURNok true ue_id ksi eea eia ucs2 uea
    uia gea umts_present gprs_present hue _ hsec0
  refine ⟨rc, s1, _, ?_, (hframe ue_id).trans hsec0, rfl, rfl, rfl, rfl, rfl, rfl, rfl, rfl⟩
  unfold emm_proc_security_mode_control
  rw [hbegin]
  exact hend

/-- C4 at a concrete input: subscriber 1 of the example store, `ksi` 5, UE
    ciphering mask 0x40 and integrity mask 0x60. -/
theorem first_activation_installs_context_witness :
    ∃ rc s1 sec1,
      emm_proc_security_mode_control example_env example_state 1 5 0x40 0x60 0 0 0 0 0 0
        = Except.ok (rc, s1) ∧
      security_of s1 1 = some sec1 ∧
      sec1.type = emm_ksi_t.EMM_KSI_NATIVE ∧
      sec1.eksi = 5 ∧
      sec1.dl_count.overflow = 0 ∧ sec1.dl_count.seq_num = 0 ∧
      sec1.kasme.value = some ((List.replicate 32 5).take 32) ∧ sec1.kasme.length = 32 ∧
      sec1.selected_algorithms.integrity
        = (_security_select_algorithms example_conf 0x60 0x40).2.1 ∧
      sec1.selected_algorithms.encryption
        = (_security_select_algorithms example_conf 0x60 0x40).2.2 :=
  first_activation_installs_context example_env example_state 1 5 0x40 0x60 0 0 0 0 0 0
    (example_context (some (example_security emm_ksi_t.EMM_KSI_NOT_AVAILABLE)))
    (example_security emm_ksi_t.EMM_KSI_NOT_AVAILABLE) (by decide) rfl rfl rfl rfl rfl

theorem security_of_some (s : NasState) (ue_id : Nat) (sec : emm_security_context_t)
    (h : security_of s ue_id = some sec) :
    ∃ c, s.emm_data.ctx ue_id = some c ∧ c.security = some sec := by
  unfold security_of at h
  cases hctx : s.emm_data.ctx ue_id with
  | none => simp [hctx] at h
  | some c => exact ⟨c, rfl, by simpa [hctx] using h⟩

theorem start_integrity_buffer_present (env : Collaborators) (s : NasState) (ue_id : Nat)
    (ksi eea eia ucs2 uea uia gea umts_present gprs_present : Int)
    (c : emm_data_context_t) (sec : emm_security_context_t)
    (v : List Nat) (hue : 0 < ue_id) (hc : s.emm_data.ctx ue_id = some c)
    (hs : c.security = some sec) (ht : sec.type = emm_ksi_t.EMM_KSI_NOT_AVAILABLE)
    (hki : sec.knas_int.value = some v) :
    ∃ s1 sec1,
      emm_proc_security_mode_control env s ue_id ksi eea eia ucs2 uea uia gea
        umts_present gprs_present = Except.ok (RETURNerror, s1) ∧
      security_of s1 ue_id = some sec1 ∧
      sec1.type = emm_ksi_t.EMM_KSI_NATIVE ∧ sec1.eksi = ksi ∧
      sec1.dl_count = { overflow := 0, seq_num := 0 } ∧
      sec1.knas_int = sec.knas_int ∧ sec1.knas_enc = sec.knas_enc ∧
      s1.trace = s.trace ∧ s1.heap = s.heap ∧ s1.common_args = s.common_args ∧
      s1.emm_data.ctx ue_id = some { c with security := some sec1 } ∧
      s1.next_ptr = s.next_ptr := by
  unfold emm_proc_security_mode_control security_mode_control_begin activate
  have hsel : (_security_select_algorithms s.emm_data.conf eia eea).1 ≠ RETURNerror := by
    simp [_security_select_algorithms, RETURNok, RETURNerror]
  simp only [hue, emm_data_context_get, hc, hs, ht, if_true, hsel, if_false, hki]
  refine ⟨_,
    { sec with
      type := emm_ksi_t.EMM_KSI_NATIVE, eksi := ksi,
      dl_count := { overflow := 0, seq_num := 0 },
      kasme := { length := 32, value := some (c.vector.kasme.take 32) },
      selected_algorithms :=
        { encryption := (_security_select_algorithms s.emm_data.conf eia eea).2.2,
          integrity := (_security_select_algorithms s.emm_data.conf eia eea).2.1 } },
    rfl, ?_, rfl, rfl, rfl, rfl, rfl, rfl, rfl, rfl, ?_, rfl⟩
  · simp [security_of, set_ctx]
  · simp [set_ctx]

theorem start_native_frame (env : Collaborators) (s : NasState) (ue_id : Nat)
    (ksi eea eia ucs2 uea uia gea umts_present gprs_present : Int)
    (sec : emm_security_context_t) (hue : 0 < ue_id)
    (hsec : security_of s ue_id = some sec) (ht : sec.type = emm_ksi_t.EMM_KSI_NATIVE) :
    ∃ rc s1,
      emm_proc_security_mode_control env s ue_id ksi eea eia ucs2 uea uia gea
        umts_present gprs_present = Except.ok (rc, s1) ∧
      (∀ u, security_of s1 u = security_of s u) ∧
      ∀ tag, key_derivations tag s1.trace = key_derivations tag s.trace := by
  obtain ⟨c, hc, hs⟩ := security_of_some s ue_id sec hsec
  obtain ⟨rc, s1, hend, hframe, hder⟩ := end_frame env s RETURNerror false ue_id ksi eea eia
    ucs2 uea uia gea umts_present gprs_present hue sec hsec
  refine ⟨rc, s1, ?_, hframe, hder⟩
  unfold emm_proc_security_mode_control
  rw [begin_native env s ue_id ksi eea eia c sec hue hc hs ht]
  exact hend

/-- C5 as stated fails: subscriber 4 of the example store is NoContext before
    the first of two successive start calls, its key buffers being allocated;
    neither call derives a key, so the buffers are set zero times, not once. -/
theorem two_starts_with_key_buffers_derive_no_key :
    (∃ sec, security_of example_state 4 = some sec ∧
      sec.type = emm_ksi_t.EMM_KSI_NOT_AVAILABLE) ∧
    ∃ rc1 s1 rc2 s2,
      emm_proc_security_mode_control example_env example_state 4 5 0x40 0x60 0 0 0 0 0 0
        = Except.ok (rc1, s1) ∧
      emm_proc_security_mode_control example_env s1 4 5 0x40 0x60 0 0 0 0 0 0
        = Except.ok (rc2, s2) ∧
      key_derivations nas_alg_type_t.NAS_INT_ALG s2.trace = 0 ∧
      key_derivations nas_alg_type_t.NAS_ENC_ALG s2.trace = 0 ∧
      ¬ (key_derivations nas_alg_type_t.NAS_INT_ALG s2.trace
          = key_derivations nas_alg_type_t.NAS_INT_ALG example_state.trace + 1) := by
  refine ⟨⟨_, rfl, rfl⟩, ?_⟩
  obtain ⟨s1, sec1, h1, hsec1, ht1, -, -, -, -, htr1, -⟩ :=
    start_integrity_buffer_present example_env example_state 4 5 0x40 0x60 0 0 0 0 0 0
      (example_context (some (example_security_with_keys emm_ksi_t.EMM_KSI_NOT_AVAILABLE)))
      (example_security_with_keys emm_ksi_t.EMM_KSI_NOT_AVAILABLE) (List.replicate 16 1)
      (by decide) rfl rfl rfl rfl
  obtain ⟨rc2, s2, h2, -, hder⟩ := start_native_frame example_env s1 4 5 0x40 0x60 0 0 0 0 0 0
    sec1 (by decide) hsec1 ht1
  refine ⟨RETURNerror, s1, rc2, s2, h1, h2, ?_, ?_, ?_⟩
  · rw [hder, htr1]; rfl
  · rw [hder, htr1]; rfl
  · rw [hder, htr1]; decide

/-- C5 (amended): a start call on a subscriber whose security context is already
    `EMM_KSI_NATIVE` returns, derives no key and leaves the persistent security
    context as it was, whatever the arguments; and for two successive start
    calls on a context that was NoContext and held no key buffer before the
    first, each of the two keys is derived exactly once, the second call leaving
    the security context as the first left it. -/
theorem native_start_keeps_context_and_keys_are_derived_once (env env2 : Collaborators)
    (s : NasState) (ue_id : Nat)
    (ksi eea eia ucs2 uea uia gea umts_present gprs_present : Int)
    (ksi2 eea2 eia2 ucs2b uea2 uia2 gea2 umts_present2 gprs_present2 : Int)
    (sec : emm_security_context_t) (hue : 0 < ue_id)
    (hsec : security_of s ue_id = some sec) :
    (sec.type = emm_ksi_t.EMM_KSI_NATIVE →
      ∃ rc s1,
        emm_proc_security_mode_control env s ue_id ksi eea eia ucs2 uea uia gea
          umts_present gprs_present = Except.ok (rc, s1) ∧
        security_of s1 ue_id = some sec ∧
        ∀ tag, key_derivations tag s1.trace = key_derivations tag s.trace) ∧
    (sec.type = emm_ksi_t.EMM_KSI_NOT_AVAILABLE →
      sec.knas_int.value = none → sec.knas_enc.value = none →
      ∃ rc1 s1 rc2 s2,
        emm_proc_security_mode_control env s ue_id ksi eea eia ucs2 uea uia gea
          umts_present gprs_present = Except.ok (rc1, s1) ∧
        emm_proc_security_mode_control env2 s1 ue_id ksi2 eea2 eia2 ucs2b uea2 uia2 gea2
          umts_present2 gprs_present2 = Except.ok (rc2, s2) ∧
        key_derivations nas_alg_type_t.NAS_INT_ALG s2.trace
          = key_derivations nas_alg_type_t.NAS_INT_ALG s.trace + 1 ∧
        key_derivations nas_alg_type_t.NAS_ENC_ALG s2.trace
          = key_derivations nas_alg_type_t.NAS_ENC_ALG s.trace + 1 ∧
        (∀ tag, key_derivations tag s2.trace = key_derivations tag s1.trace) ∧
        security_of s2 ue_id = security_of s1 ue_id) := by
  constructor
  · intro ht
    obtain ⟨rc, s1, h1, hframe, hder⟩ := start_native_frame env s ue_id ksi eea eia ucs2 uea uia
      gea umts_present gprs_present sec hue hsec ht
    exact ⟨rc, s1, h1, (hframe ue_id).trans hsec, hder⟩
  · intro ht hki hke
    obtain ⟨c, hc, hs⟩ := security_of_some s ue_id sec hsec
    obtain ⟨s0, hbegin, hsec0, htr0, -⟩ :=
      begin_first_activation env s ue_id ksi eea eia c sec hue hc hs ht hki hke
    obtain ⟨rc1, s1, hend, hframe1, hder1⟩ := end_frame env s0 RETURNok true ue_id ksi eea eia
      ucs2 uea uia gea umts_present gprs_present hue _ hsec0
    have hstart1 : emm_proc_security_mode_control env s ue_id ksi eea eia ucs2 uea uia gea
        umts_present gprs_present = Except.ok (rc1, s1) := by
      unfold emm_proc_security_mode_control
      rw [hbegin]
      exact hend
    obtain ⟨rc2, s2, h2, hframe2, hder2⟩ := start_native_frame env2 s1 ue_id ksi2 eea2 eia2 ucs2b
      uea2 uia2 gea2 umts_present2 gprs_present2 _ hue ((hframe1 ue_id).trans hsec0) rfl
    refine ⟨rc1, s1, rc2, s2, hstart1, h2, ?_, ?_, hder2, hframe2 ue_id⟩
    · rw [hder2, hder1, htr0, key_derivations_append]
      simp [key_derivations]
    · rw [hder2, hder1, htr0, key_derivations_append]
      simp [key_derivations]

/-- C5 (amended) at concrete inputs: subscriber 3 of the example store (Native)
    and subscriber 1 (NoContext, no key buffer). -/
theorem native_start_keeps_context_and_keys_are_derived_once_witness :
    (∃ rc s1,
      emm_proc_security_mode_control example_env example_state 3 5 0x40 0x60 0 0 0 0 0 0
        = Except.ok (rc, s1) ∧
      security_of s1 3 = some (example_security emm_ksi_t.EMM_KSI_NATIVE) ∧
      ∀ tag, key_derivations tag s1.trace = key_derivations tag example_state.trace) ∧
    (∃ rc1 s1 rc2 s2,
      emm_proc_security_mode_control example_env example_state 1 5 0x40 0x60 0 0 0 0 0 0
        = Except.ok (rc1, s1) ∧
      emm_proc_security_mode_control example_env s1 1 6 0x80 0x80 1 1 1 1 1 1
        = Except.ok (rc2, s2) ∧
      key_derivations nas_alg_type_t.NAS_INT_ALG s2.trace
        = key_derivations nas_alg_type_t.NAS_INT_ALG example_state.trace + 1 ∧
      key_derivations nas_alg_type_t.NAS_ENC_ALG s2.trace
        = key_derivations nas_alg_type_t.NAS_ENC_ALG example_state.trace + 1 ∧
      (∀ tag, key_derivations tag s2.trace = key_derivations tag s1.trace) ∧
      security_of s2 1 = security_of s1 1) :=
  ⟨(native_start_keeps_context_and_keys_are_derived_once example_env example_env
      example_state 3 5 0x40 0x60 0 0 0 0 0 0 6 0x80 0x80 1 1 1 1 1 1
      (example_security emm_ksi_t.EMM_KSI_NATIVE) (by decide) rfl).1 rfl,
   (native_start_keeps_context_and_keys_are_derived_once example_env example_env
      example_state 1 5 0x40 0x60 0 0 0 0 0 0 6 0x80 0x80 1 1 1 1 1 1
      (example_security emm_ksi_t.EMM_KSI_NOT_AVAILABLE) (by decide) rfl).2 rfl rfl rfl⟩

theorem end_success (env : Collaborators) (s : NasState) (rc : Int) (is_new : Bool)
    (ue_id : Nat) (ksi eea eia ucs2 uea uia gea umts_present gprs_present : Int)
    (c : emm_data_context_t) (sec : emm_security_context_t)
    (hue : 0 < ue_id) (hc : s.emm_data.ctx ue_id = some c) (hs : c.security = some sec)
    (hm : env.malloc_ok s.trace = true)
    (hi : env.common_initialize_rc (s.trace ++ [Event.MALLOC_CHECK (some s.next_ptr)]) ue_id
      = RETURNok)
    (hsend : env.emm_sap_send_rc
      (s.trace ++ [Event.MALLOC_CHECK (some s.next_ptr)] ++
        [Event.emm_proc_common_initialize ue_id s.next_ptr RETURNok])
      (security_command (new_security_data ue_id ksi eea eia ucs2 uea uia gea umts_present
        gprs_present sec) (some sec) is_new) ≠ RETURNerror) :
    ∃ rc1 s1 rc_cmd tev id,
      security_mode_control_end env s rc is_new ue_id ksi eea eia ucs2 uea uia gea
        umts_present gprs_present = Except.ok (rc1, s1) ∧
      s1.trace = s.trace ++
        [Event.MALLOC_CHECK (some s.next_ptr),
         Event.emm_proc_common_initialize ue_id s.next_ptr RETURNok,
         Event.emm_sap_send (security_command (new_security_data ue_id ksi eea eia ucs2 uea
           uia gea umts_present gprs_present sec) (some sec) is_new) rc_cmd,
         tev,
         Event.emm_sap_send (emm_sap_t.EMMREG_COMMON_PROC_REQ ue_id (some ue_id)) rc1] ∧
      rc_cmd ≠ RETURNerror ∧
      (tev = Event.nas_timer_start c.T3460.sec s.next_ptr id ∨
        tev = Event.nas_timer_restart c.T3460.id id) ∧
      id ≠ NAS_TIMER_INACTIVE_ID ∧
      s1.emm_data.ctx ue_id = some { c with T3460 := { c.T3460 with id := id } } ∧
      s1.heap s.next_ptr = HeapCell.live (new_security_data ue_id ksi eea eia ucs2 uea uia gea
        umts_present gprs_present sec) ∧
      s1.common_args ue_id = some s.next_ptr ∧
      rc1 = env.emm_sap_send_rc (s1.trace.dropLast)
        (emm_sap_t.EMMREG_COMMON_PROC_REQ ue_id (some ue_id)) := by
  unfold security_mode_control_end MALLOC_CHECK emm_proc_common_initialize
  simp only [hm, if_true, record, hi, ne_eq, not_true_eq_false, if_false, emm_data_context_get,
    hc, Option.bind, hs]
  by_cases hidle : c.T3460.id = NAS_TIMER_INACTIVE_ID
  · rw [request_accepted_start env _ s.next_ptr is_new
      (new_security_data ue_id ksi eea eia ucs2 uea uia gea umts_present gprs_present sec) c
      (by simp [set_data]) hue (by simpa [set_data, new_security_data] using hc)
      (by simpa [set_data, hs] using hsend) hidle]
    simp only [set_data, hs]
    rw [if_pos hsend]
    refine ⟨_, _, _, _, (s.timer_next : Int), rfl, ?_, hsend, Or.inl rfl, ?_, ?_, ?_, ?_, ?_⟩
    · simp [emm_sap_send, record, set_ctx]
    · simp [NAS_TIMER_INACTIVE_ID]
    · simp [emm_sap_send, record, set_ctx, new_security_data]
    · simp [emm_sap_send, record, set_ctx]
    · simp [emm_sap_send, record, set_ctx, new_security_data]
    · simp [emm_sap_send, record, set_ctx, List.dropLast_concat]
  · rw [request_accepted_restart env _ s.next_ptr is_new
      (new_security_data ue_id ksi eea eia ucs2 uea uia gea umts_present gprs_present sec) c
      (by simp [set_data]) hue (by simpa [set_data, new_security_data] using hc)
      (by simpa [set_data, hs] using hsend) hidle]
    simp only [set_data, hs]
    rw [if_pos hsend]
    refine ⟨_, _, _, _, c.T3460.id, rfl, ?_, hsend, Or.inr rfl, hidle, ?_, ?_, ?_, ?_⟩
    · simp [emm_sap_send, record, set_ctx]
    · simp only [emm_sap_send, record, set_ctx, new_security_data, Function.update_same]
      rw [← hs]
    · simp [emm_sap_send, record, set_ctx]
    · simp [emm_sap_send, record, set_ctx, new_security_data]
    · simp [emm_sap_send, record, set_ctx, List.dropLast_concat]

/-- C6 as stated fails: subscriber 3 of the example store has a Native security
    context, and with collaborators that succeed a start call returns
    `RETURNok`, not `RETURNerror`, registers a new Procedure State, sends one
    Security Mode Command and arms T3460. -/
theorem native_start_is_not_a_failing_noop :
    security_of example_state 3 = some (example_security emm_ksi_t.EMM_KSI_NATIVE) ∧
    ∃ s1 c1,
      emm_proc_security_mode_control example_env example_state 3 5 0x40 0x60 0 0 0 0 0 0
        = Except.ok (RETURNok, s1) ∧
      RETURNok ≠ RETURNerror ∧
      s1.heap 0 = HeapCell.live (new_security_data 3 5 0x40 0x60 0 0 0 0 0 0
        (example_security emm_ksi_t.EMM_KSI_NATIVE)) ∧
      s1.common_args 3 = some 0 ∧
      commands_sent s1.trace = commands_sent example_state.trace + 1 ∧
      s1.emm_data.ctx 3 = some c1 ∧ c1.T3460.id ≠ NAS_TIMER_INACTIVE_ID := by
  refine ⟨rfl, ?_⟩
  obtain ⟨rc1, s1, rc_cmd, tev, id, hend, htr, -, htev, hid, hctx, hheap, hargs, hrc⟩ :=
    end_success example_env example_state RETURNerror false 3 5 0x40 0x60 0 0 0 0 0 0
      (example_context (some (example_security emm_ksi_t.EMM_KSI_NATIVE)))
      (example_security emm_ksi_t.EMM_KSI_NATIVE) (by decide) rfl rfl rfl rfl (by decide)
  have hrc1 : rc1 = RETURNok := hrc
  subst hrc1
  refine ⟨s1, _, ?_, by decide, hheap, hargs, ?_, hctx, hid⟩
  · unfold emm_proc_security_mode_control
    rw [begin_native example_env example_state 3 5 0x40 0x60
      (example_context (some (example_security emm_ksi_t.EMM_KSI_NATIVE)))
      (example_security emm_ksi_t.EMM_KSI_NATIVE) (by decide) rfl rfl rfl]
    exact hend
  · rw [htr]
    rcases htev with h | h <;> subst h <;>
      simp [commands_sent, List.countP_append, List.countP_cons, security_command]

/-- C6 (amended): for a subscriber whose security context is already Native, a
    start call derives no key and leaves the security context as it was, but it
    is not a no-op: when allocation and registration succeed and the command is
    accepted, it creates and registers a new Procedure State, sends one Security
    Mode Command flagged `is_new = false`, arms T3460 and returns the result of
    the `EMMREG_COMMON_PROC_REQ` send. -/
theorem native_start_creates_procedure_state (env : Collaborators) (s : NasState)
    (ue_id : Nat) (ksi eea eia ucs2 uea uia gea umts_present gprs_present : Int)
    (c : emm_data_context_t) (sec : emm_security_context_t)
    (hue : 0 < ue_id) (hc : s.emm_data.ctx ue_id = some c) (hs : c.security = some sec)
    (ht : sec.type = emm_ksi_t.EMM_KSI_NATIVE)
    (hm : ∀ tr, env.malloc_ok tr = true)
    (hi : ∀ tr, env.common_initialize_rc tr ue_id = RETURNok)
    (hcmd : ∀ tr m, env.emm_sap_send_rc tr (emm_sap_t.EMMAS_SECURITY_REQ m) ≠ RETURNerror) :
    ∃ rc s1 rc_cmd tev id,
      emm_proc_security_mode_control env s ue_id ksi eea eia ucs2 uea uia gea
        umts_present gprs_present = Except.ok (rc, s1) ∧
      security_of s1 ue_id = some sec ∧
      (∀ tag, key_derivations tag s1.trace = key_derivations tag s.trace) ∧
      s1.trace = s.trace ++
        [Event.MALLOC_CHECK (some s.next_ptr),
         Event.emm_proc_common_initialize ue_id s.next_ptr RETURNok,
         Event.emm_sap_send (security_command (new_security_data ue_id ksi eea eia ucs2 uea
           uia gea umts_present gprs_present sec) (some sec) false) rc_cmd,
         tev,
         Event.emm_sap_send (emm_sap_t.EMMREG_COMMON_PROC_REQ ue_id (some ue_id)) rc] ∧
      (tev = Event.nas_timer_start c.T3460.sec s.next_ptr id ∨
        tev = Event.nas_timer_restart c.T3460.id id) ∧
      id ≠ NAS_TIMER_INACTIVE_ID ∧
      s1.emm_data.ctx ue_id = some { c with T3460 := { c.T3460 with id := id } } ∧
      s1.heap s.next_ptr = HeapCell.live (new_security_data ue_id ksi eea eia ucs2 uea uia gea
        umts_present gprs_present sec) ∧
      s1.common_args ue_id = some s.next_ptr := by
  obtain ⟨rc1, s1, rc_cmd, tev, id, hend, htr, -, htev, hid, hctx, hheap, hargs, -⟩ :=
    end_success env s RETURNerror false ue_id ksi eea eia ucs2 uea uia gea umts_present
      gprs_present c sec hue hc hs (hm _) (hi _) (hcmd _ _)
  have hstart : emm_proc_security_mode_control env s ue_id ksi eea eia ucs2 uea uia gea
      umts_present gprs_present = Except.ok (rc1, s1) := by
    unfold emm_proc_security_mode_control
    rw [begin_native env s ue_id ksi eea eia c sec hue hc hs ht]
    exact hend
  obtain ⟨rc2, s2, h2, hframe, hder⟩ := start_native_frame env s ue_id ksi eea eia ucs2 uea uia
    gea umts_present gprs_present sec hue (security_of_eq s ue_id c sec hc hs) ht
  rw [hstart] at h2
  injection h2 with h2
  injection h2 with hrc hst
  subst hrc hst
  exact ⟨rc1, s1, rc_cmd, tev, id, hstart,
    (hframe ue_id).trans (security_of_eq s ue_id c sec hc hs), hder, htr, htev, hid, hctx,
    hheap, hargs⟩

/-- C6 (amended) at a concrete input: subscriber 3 of the example store. -/
theorem native_start_creates_procedure_state_witness :
    ∃ rc s1 rc_cmd tev id,
      emm_proc_security_mode_control example_env example_state 3 5 0x40 0x60 0 0 0 0 0 0
        = Except.ok (rc, s1) ∧
      security_of s1 3 = some (example_security emm_ksi_t.EMM_KSI_NATIVE) ∧
      (∀ tag, key_derivations tag s1.trace = key_derivations tag example_state.trace) ∧
      s1.trace = example_state.trace ++
        [Event.MALLOC_CHECK (some example_state.next_ptr),
         Event.emm_proc_common_initialize 3 example_state.next_ptr RETURNok,
         Event.emm_sap_send (security_command (new_security_data 3 5 0x40 0x60 0 0 0 0 0 0
           (example_security emm_ksi_t.EMM_KSI_NATIVE))
           (some (example_security emm_ksi_t.EMM_KSI_NATIVE)) false) rc_cmd,
         tev,
         Event.emm_sap_send (emm_sap_t.EMMREG_COMMON_PROC_REQ 3 (some 3)) rc] ∧
      (tev = Event.nas_timer_start
          (example_context (some (example_security emm_ksi_t.EMM_KSI_NATIVE))).T3460.sec
          example_state.next_ptr id ∨
        tev = Event.nas_timer_restart
          (example_context (some (example_security emm_ksi_t.EMM_KSI_NATIVE))).T3460.id id) ∧
      id ≠ NAS_TIMER_INACTIVE_ID ∧
      s1.heap example_state.next_ptr = HeapCell.live (new_security_data 3 5 0x40 0x60 0 0 0 0
        0 0 (example_security emm_ksi_t.EMM_KSI_NATIVE)) ∧
      s1.common_args 3 = some example_state.next_ptr := by
  obtain ⟨rc, s1, rc_cmd, tev, id, h1, h2, h3, h4, h5, h6, -, h8, h9⟩ :=
    native_start_creates_procedure_state example_env example_state 3 5 0x40 0x60 0 0 0 0 0 0
      (example_context (some (example_security emm_ksi_t.EMM_KSI_NATIVE)))
      (example_security emm_ksi_t.EMM_KSI_NATIVE) (by decide) rfl rfl rfl
      (fun _ => rfl) (fun _ => rfl) (fun _ _ => (by decide : RETURNok ≠ RETURNerror))
  exact ⟨rc, s1, rc_cmd, tev, id, h1, h2, h3, h4, h5, h6, h8, h9⟩

theorem commands_sent_append (a b : List Event) :
    commands_sent (a ++ b) = commands_sent a + commands_sent b := by
  simp [commands_sent, List.countP_append]

theorem release_args_emm_data (s : NasState) (ue_id : Nat) :
    (release_args s ue_id).emm_data = s.emm_data := by
  unfold release_args
  split <;> rfl

theorem release_args_key_derivations (s : NasState) (ue_id : Nat) (tag : nas_alg_type_t) :
    key_derivations tag (release_args s ue_id).trace = key_derivations tag s.trace := by
  unfold release_args
  split
  · simp [FREE_CHECK, record, key_derivations_append]
    simp [key_derivations]
  · rfl

theorem release_args_commands_sent (s : NasState) (ue_id : Nat) :
    commands_sent (release_args s ue_id).trace = commands_sent s.trace := by
  unfold release_args
  split
  · simp [FREE_CHECK, record, commands_sent_append]
    simp [commands_sent]
  · rfl

theorem reject_with_security_context (env : Collaborators) (s : NasState) (ue_id : Nat)
    (c : emm_data_context_t) (sec : emm_security_context_t) (hue : 0 < ue_id)
    (hc : s.emm_data.ctx ue_id = some c) (hs : c.security = some sec) :
    ∃ rc s1, emm_proc_security_mode_reject env s ue_id = Except.ok (rc, s1) ∧
      security_of s1 ue_id = some { sec with type := emm_ksi_t.EMM_KSI_NOT_AVAILABLE } ∧
      (∀ tag, key_derivations tag s1.trace = key_derivations tag s.trace) ∧
      commands_sent s1.trace = commands_sent s.trace := by
  unfold emm_proc_security_mode_reject
  simp only [hue, if_true, emm_data_context_get, hc, stop_T3460, hs]
  refine ⟨_, _, rfl, ?_, ?_, ?_⟩
  · simp [security_of, emm_sap_send, record, set_ctx]
  · intro tag
    simp only [emm_sap_send, record, set_ctx, key_derivations_append,
      release_args_key_derivations, nas_timer_stop]
    simp [key_derivations]
  · simp only [emm_sap_send, record, set_ctx, commands_sent_append,
      release_args_commands_sent, nas_timer_stop]
    simp [commands_sent]

theorem start_after_reject_is_refused (env1 env2 env3 : Collaborators) (s : NasState)
    (ue_id : Nat) (ksi eea eia ucs2 uea uia gea umts_present gprs_present : Int)
    (c : emm_data_context_t) (sec : emm_security_context_t)
    (hue : 0 < ue_id) (hc : s.emm_data.ctx ue_id = some c) (hs : c.security = some sec)
    (ht : sec.type = emm_ksi_t.EMM_KSI_NOT_AVAILABLE)
    (hki : sec.knas_int.value = none) (hke : sec.knas_enc.value = none) :
    ∃ rc1 s1 rc2 s2 sec2 s3,
      emm_proc_security_mode_control env1 s ue_id ksi eea eia ucs2 uea uia gea
        umts_present gprs_present = Except.ok (rc1, s1) ∧
      emm_proc_security_mode_reject env2 s1 ue_id = Except.ok (rc2, s2) ∧
      security_of s2 ue_id = some sec2 ∧
      sec2.type = emm_ksi_t.EMM_KSI_NOT_AVAILABLE ∧
      emm_proc_security_mode_control env3 s2 ue_id ksi eea eia ucs2 uea uia gea
        umts_present gprs_present = Except.ok (RETURNerror, s3) ∧
      s3.trace = s2.trace ∧
      (∀ tag, key_derivations tag s3.trace = key_derivations tag s1.trace) ∧
      commands_sent s3.trace = commands_sent s1.trace ∧
      s3.heap = s2.heap ∧ s3.common_args = s2.common_args := by
  obtain ⟨s0, hbegin, hsec0, -⟩ :=
    begin_first_activation env1 s ue_id ksi eea eia c sec hue hc hs ht hki hke
  obtain ⟨rc1, s1, hend, hframe1, -⟩ := end_frame env1 s0 RETURNok true ue_id ksi eea eia
    ucs2 uea uia gea umts_present gprs_present hue _ hsec0
  have hstart1 : emm_proc_security_mode_control env1 s ue_id ksi eea eia ucs2 uea uia gea
      umts_present gprs_present = Except.ok (rc1, s1) := by
    unfold emm_proc_security_mode_control
    rw [hbegin]
    exact hend
  obtain ⟨c1, hc1, hs1⟩ := security_of_some s1 ue_id _ ((hframe1 ue_id).trans hsec0)
  obtain ⟨rc2, s2, hrej, hsec2, hder2, hcmd2⟩ :=
    reject_with_security_context env2 s1 ue_id c1 _ hue hc1 hs1
  obtain ⟨c2, hc2, hs2⟩ := security_of_some s2 ue_id _ hsec2
  obtain ⟨s3, sec3, hstart3, -, -, -, -, -, -, htr3, hheap3, hargs3, -⟩ :=
    start_integrity_buffer_present env3 s2 ue_id ksi eea eia ucs2 uea uia gea umts_present
      gprs_present c2 _ _ hue hc2 hs2 rfl rfl
  exact ⟨rc1, s1, rc2, s2, _, s3, hstart1, hrej, hsec2, rfl, hstart3, htr3,
    fun tag => by rw [htr3, hder2], by rw [htr3, hcmd2], hheap3, hargs3⟩

theorem first_start_success (env : Collaborators) (s : NasState) (ue_id : Nat)
    (ksi eea eia ucs2 uea uia gea umts_present gprs_present : Int)
    (c : emm_data_context_t) (sec : emm_security_context_t)
    (hue : 0 < ue_id) (hc : s.emm_data.ctx ue_id = some c) (hs : c.security = some sec)
    (ht : sec.type = emm_ksi_t.EMM_KSI_NOT_AVAILABLE)
    (hki : sec.knas_int.value = none) (hke : sec.knas_enc.value = none)
    (hm : ∀ tr, env.malloc_ok tr = true)
    (hi : ∀ tr, env.common_initialize_rc tr ue_id = RETURNok)
    (hcmd : ∀ tr m, env.emm_sap_send_rc tr (emm_sap_t.EMMAS_SECURITY_REQ m) ≠ RETURNerror) :
    ∃ rc s1 rc_cmd tev id sec1 c1,
      emm_proc_security_mode_control env s ue_id ksi eea eia ucs2 uea uia gea
        umts_present gprs_present = Except.ok (rc, s1) ∧
      s1.trace = s.trace ++
        [Event.derive_key_nas nas_alg_type_t.NAS_INT_ALG
           (_security_select_algorithms s.emm_data.conf eia eea).2.1 c.vector.kasme,
         Event.derive_key_nas nas_alg_type_t.NAS_ENC_ALG
           (_security_select_algorithms s.emm_data.conf eia eea).2.2 c.vector.kasme,
         Event.MALLOC_CHECK (some s.next_ptr),
         Event.emm_proc_common_initialize ue_id s.next_ptr RETURNok,
         Event.emm_sap_send (security_command (new_security_data ue_id ksi eea eia ucs2 uea
           uia gea umts_present gprs_present sec1) (some sec1) true) rc_cmd,
         tev,
         Event.emm_sap_send (emm_sap_t.EMMREG_COMMON_PROC_REQ ue_id (some ue_id)) rc] ∧
      rc = env.emm_sap_send_rc (s1.trace.dropLast)
        (emm_sap_t.EMMREG_COMMON_PROC_REQ ue_id (some ue_id)) ∧
      rc_cmd ≠ RETURNerror ∧
      (tev = Event.nas_timer_start c.T3460.sec s.next_ptr id ∨
        tev = Event.nas_timer_restart c.T3460.id id) ∧
      id ≠ NAS_TIMER_INACTIVE_ID ∧
      s1.emm_data.ctx ue_id = some c1 ∧ c1.security = some sec1 ∧ c1.T3460.id = id ∧
      c1.T3460.sec = c.T3460.sec ∧
      sec1.type = emm_ksi_t.EMM_KSI_NATIVE ∧
      sec1.selected_algorithms.integrity
        = (_security_select_algorithms s.emm_data.conf eia eea).2.1 ∧
      sec1.selected_algorithms.encryption
        = (_security_select_algorithms s.emm_data.conf eia eea).2.2 ∧
      s1.heap s.next_ptr = HeapCell.live (new_security_data ue_id ksi eea eia ucs2 uea uia gea
        umts_present gprs_present sec1) ∧
      s1.common_args ue_id = some s.next_ptr ∧
      c1.is_attached = c.is_attached := by
  obtain ⟨s0, hbegin, hsec0, htr0, hheap0, hargs0, hnext0, -, hc0⟩ :=
    begin_first_activation env s ue_id ksi eea eia c sec hue hc hs ht hki hke
  rw [hsec0] at hc0
  obtain ⟨rc1, s1, rc_cmd, tev, id, hend, htr, hrc_cmd, htev, hid, hctx, hheap, hargs, hrc⟩ :=
    end_success env s0 RETURNok true ue_id ksi eea eia ucs2 uea uia gea umts_present
      gprs_present _ _ hue hc0 rfl (hm _) (hi _) (hcmd _ _)
  rw [hnext0] at htr htev hheap hargs
  refine ⟨rc1, s1, rc_cmd, tev, id, _, _, ?_, ?_, hrc, hrc_cmd, htev, hid, hctx, rfl, rfl, rfl,
    rfl, rfl, rfl, hheap, hargs, rfl⟩
  · unfold emm_proc_security_mode_control
    rw [hbegin]
    exact hend
  · rw [htr, htr0]
    simp

/-- C7, the code at the failing input: subscriber 1 of the example store is
    NoContext without key buffers and every collaborator succeeds.  The first
    start returns `RETURNok`; the reject that follows leaves the context type
    `EMM_KSI_NOT_AVAILABLE`; the next start returns `RETURNerror` without a call
    to any collaborator, so that each key has been derived once, not twice, and
    one command has been sent, not two. -/
theorem start_after_reject_returns_error :
    ∃ s1 rc2 s2 sec2 s3,
      emm_proc_security_mode_control example_env example_state 1 5 0x40 0x60 0 0 0 0 0 0
        = Except.ok (RETURNok, s1) ∧
      emm_proc_security_mode_reject example_env s1 1 = Except.ok (rc2, s2) ∧
      security_of s2 1 = some sec2 ∧
      sec2.type = emm_ksi_t.EMM_KSI_NOT_AVAILABLE ∧
      emm_proc_security_mode_control example_env s2 1 5 0x40 0x60 0 0 0 0 0 0
        = Except.ok (RETURNerror, s3) ∧
      s3.trace = s2.trace ∧
      key_derivations nas_alg_type_t.NAS_INT_ALG s3.trace = 1 ∧
      key_derivations nas_alg_type_t.NAS_ENC_ALG s3.trace = 1 ∧
      commands_sent s3.trace = 1 := by
  obtain ⟨rc1, s1, rc2, s2, sec2, s3, h1, h2, hsec2, ht2, h3, htr3, hder3, hcmd3, -⟩ :=
    start_after_reject_is_refused example_env example_env example_env example_state 1
      5 0x40 0x60 0 0 0 0 0 0
      (example_context (some (example_security emm_ksi_t.EMM_KSI_NOT_AVAILABLE)))
      (example_security emm_ksi_t.EMM_KSI_NOT_AVAILABLE) (by decide) rfl rfl rfl rfl rfl
  obtain ⟨rc, t1, rc_cmd, tev, id, sec1, c1, g1, gtr, grc, -, gtev, -⟩ :=
    first_start_success example_env example_state 1 5 0x40 0x60 0 0 0 0 0 0
      (example_context (some (example_security emm_ksi_t.EMM_KSI_NOT_AVAILABLE)))
      (example_security emm_ksi_t.EMM_KSI_NOT_AVAILABLE) (by decide) rfl rfl rfl rfl rfl
      (fun _ => rfl) (fun _ => rfl) (fun _ _ => (by decide : RETURNok ≠ RETURNerror))
  rw [h1] at g1
  injection g1 with g1
  injection g1 with hrc hst
  subst hrc hst
  have hrc1 : rc1 = RETURNok := grc
  subst hrc1
  refine ⟨s1, rc2, s2, sec2, s3, h1, h2, hsec2, ht2, h3, htr3, ?_, ?_, ?_⟩
  · rw [hder3, gtr]
    rcases gtev with h | h <;> subst h <;>
      simp [key_derivations, List.countP_cons, example_state]
  · rw [hder3, gtr]
    rcases gtev with h | h <;> subst h <;>
      simp [key_derivations, List.countP_cons, example_state]
  · rw [hcmd3, gtr]
    rcases gtev with h | h <;> subst h <;>
      simp [commands_sent, List.countP_cons, example_state, security_command]

theorem end_command_refused (env : Collaborators) (s : NasState) (rc : Int) (is_new : Bool)
    (ue_id : Nat) (ksi eea eia ucs2 uea uia gea umts_present gprs_present : Int)
    (c : emm_data_context_t) (sec : emm_security_context_t)
    (hue : 0 < ue_id) (hc : s.emm_data.ctx ue_id = some c) (hs : c.security = some sec)
    (hm : env.malloc_ok s.trace = true)
    (hi : env.common_initialize_rc (s.trace ++ [Event.MALLOC_CHECK (some s.next_ptr)]) ue_id
      = RETURNok)
    (hsend : env.emm_sap_send_rc
      (s.trace ++ [Event.MALLOC_CHECK (some s.next_ptr)] ++
        [Event.emm_proc_common_initialize ue_id s.next_ptr RETURNok])
      (security_command (new_security_data ue_id ksi eea eia ucs2 uea uia gea umts_present
        gprs_present sec) (some sec) is_new) = RETURNerror) :
    ∃ s1,
      security_mode_control_end env s rc is_new ue_id ksi eea eia ucs2 uea uia gea
        umts_present gprs_present = Except.ok (RETURNerror, s1) ∧
      s1.trace = s.trace ++
        [Event.MALLOC_CHECK (some s.next_ptr),
         Event.emm_proc_common_initialize ue_id s.next_ptr RETURNok,
         Event.emm_sap_send (security_command (new_security_data ue_id ksi eea eia ucs2 uea
           uia gea umts_present gprs_present sec) (some sec) is_new) RETURNerror] ∧
      s1.emm_data = s.emm_data ∧
      s1.heap s.next_ptr = HeapCell.live (new_security_data ue_id ksi eea eia ucs2 uea uia gea
        umts_present gprs_present sec) ∧
      s1.common_args ue_id = some s.next_ptr := by
  unfold security_mode_control_end MALLOC_CHECK emm_proc_common_initialize
  simp only [hm, if_true, record, hi, ne_eq, not_true_eq_false, if_false, emm_data_context_get,
    hc, Option.bind, hs]
  rw [request_refused env _ s.next_ptr is_new
    (new_security_data ue_id ksi eea eia ucs2 uea uia gea umts_present gprs_present sec) c
    (by simp [set_data]) hue (by simpa [set_data, new_security_data] using hc)
    (by simpa [set_data, hs] using hsend)]
  simp only [not_true_eq_false, if_false]
  refine ⟨_, rfl, ?_, rfl, ?_, ?_⟩
  · simp [record, set_data, hs]
  · simp [record, set_data]
  · simp [record, set_data]

theorem end_malloc_failed (env : Collaborators) (s : NasState) (rc : Int) (is_new : Bool)
    (ue_id : Nat) (ksi eea eia ucs2 uea uia gea umts_present gprs_present : Int)
    (hm : env.malloc_ok s.trace = false) :
    security_mode_control_end env s rc is_new ue_id ksi eea eia ucs2 uea uia gea
      umts_present gprs_present = Except.ok (rc, record s (Event.MALLOC_CHECK none)) := by
  unfold security_mode_control_end MALLOC_CHECK
  simp [hm]

/-- C8, the code at two failing inputs.  Subscriber 3 of the example store has a
    Native context, an inactive T3460 and no Procedure State.  When the lower
    layer refuses the Security Mode Command, start returns `RETURNerror` and the
    Procedure State it allocated stays live and registered, never freed.  When
    the command is accepted and the `EMMREG_COMMON_PROC_REQ` notification is
    answered with an error, start returns `RETURNerror` with the Procedure State
    live and registered and T3460 armed. -/
theorem failed_start_leaves_procedure_state :
    example_state.common_args 3 = none ∧
    (∃ s1,
      emm_proc_security_mode_control refusing_env example_state 3 5 0x40 0x60 0 0 0 0 0 0
        = Except.ok (RETURNerror, s1) ∧
      s1.heap 0 = HeapCell.live (new_security_data 3 5 0x40 0x60 0 0 0 0 0 0
        (example_security emm_ksi_t.EMM_KSI_NATIVE)) ∧
      s1.common_args 3 = some 0 ∧
      Event.FREE_CHECK 0 ∉ s1.trace) ∧
    (∃ s1 c1,
      emm_proc_security_mode_control unconfirmed_env example_state 3 5 0x40 0x60 0 0 0 0 0 0
        = Except.ok (RETURNerror, s1) ∧
      s1.heap 0 = HeapCell.live (new_security_data 3 5 0x40 0x60 0 0 0 0 0 0
        (example_security emm_ksi_t.EMM_KSI_NATIVE)) ∧
      s1.common_args 3 = some 0 ∧
      Event.FREE_CHECK 0 ∉ s1.trace ∧
      s1.emm_data.ctx 3 = some c1 ∧ c1.T3460.id ≠ NAS_TIMER_INACTIVE_ID) := by
  refine ⟨rfl, ?_, ?_⟩
  · obtain ⟨s1, hend, htr, -, hheap, hargs⟩ :=
      end_command_refused refusing_env example_state RETURNerror false 3 5 0x40 0x60 0 0 0 0 0 0
        (example_context (some (example_security emm_ksi_t.EMM_KSI_NATIVE)))
        (example_security emm_ksi_t.EMM_KSI_NATIVE) (by decide) rfl rfl rfl rfl rfl
    refine ⟨s1, ?_, hheap, hargs, ?_⟩
    · unfold emm_proc_security_mode_control
      rw [begin_native refusing_env example_state 3 5 0x40 0x60
        (example_context (some (example_security emm_ksi_t.EMM_KSI_NATIVE)))
        (example_security emm_ksi_t.EMM_KSI_NATIVE) (by decide) rfl rfl rfl]
      exact hend
    · rw [htr]
      simp [example_state, security_command]
  · obtain ⟨rc1, s1, rc_cmd, tev, id, hend, htr, -, htev, hid, hctx, hheap, hargs, hrc⟩ :=
      end_success unconfirmed_env example_state RETURNerror false 3 5 0x40 0x60 0 0 0 0 0 0
        (example_context (some (example_security emm_ksi_t.EMM_KSI_NATIVE)))
        (example_security emm_ksi_t.EMM_KSI_NATIVE) (by decide) rfl rfl rfl rfl (by decide)
    have hrc1 : rc1 = RETURNerror := hrc
    subst hrc1
    refine ⟨s1, _, ?_, hheap, hargs, ?_, hctx, hid⟩
    · unfold emm_proc_security_mode_control
      rw [begin_native unconfirmed_env example_state 3 5 0x40 0x60
        (example_context (some (example_security emm_ksi_t.EMM_KSI_NATIVE)))
        (example_security emm_ksi_t.EMM_KSI_NATIVE) (by decide) rfl rfl rfl]
      exact hend
    · rw [htr]
      rcases htev with h | h <;> subst h <;> simp [example_state, security_command]

/-- C9, the code at the failing input: subscriber 1 of the example store is
    NoContext without key buffers and `MALLOC_CHECK` returns `NULL`.  The
    first-time activation runs and start returns `RETURNok`, the value
    `_security_select_algorithms` left in `rc`, although no Procedure State
    exists and no command was sent.  On subscriber 3, whose context is already
    Native, the same failure returns `RETURNerror`. -/
theorem allocation_failure_after_activation_returns_ok :
    (∃ s1,
      emm_proc_security_mode_control no_memory_env example_state 1 5 0x40 0x60 0 0 0 0 0 0
        = Except.ok (RETURNok, s1) ∧
      RETURNok ≠ RETURNerror ∧
      s1.heap = example_state.heap ∧ s1.common_args = example_state.common_args ∧
      commands_sent s1.trace = 0 ∧
      s1.trace.getLast? = some (Event.MALLOC_CHECK none)) ∧
    emm_proc_security_mode_control no_memory_env example_state 3 5 0x40 0x60 0 0 0 0 0 0
      = Except.ok (RETURNerror, record example_state (Event.MALLOC_CHECK none)) := by
  constructor
  · obtain ⟨s0, hbegin, -, htr0, hheap0, hargs0, -⟩ :=
      begin_first_activation no_memory_env example_state 1 5 0x40 0x60
        (example_context (some (example_security emm_ksi_t.EMM_KSI_NOT_AVAILABLE)))
        (example_security emm_ksi_t.EMM_KSI_NOT_AVAILABLE) (by decide) rfl rfl rfl rfl rfl
    refine ⟨record s0 (Event.MALLOC_CHECK none), ?_, by decide, hheap0, hargs0, ?_, ?_⟩
    · unfold emm_proc_security_mode_control
      rw [hbegin]
      exact end_malloc_failed no_memory_env s0 RETURNok true 1 5 0x40 0x60 0 0 0 0 0 0 rfl
    · simp [record, htr0, commands_sent, example_state]
    · simp [record]
  · unfold emm_proc_security_mode_control
    rw [begin_native no_memory_env example_state 3 5 0x40 0x60
      (example_context (some (example_security emm_ksi_t.EMM_KSI_NATIVE)))
      (example_security emm_ksi_t.EMM_KSI_NATIVE) (by decide) rfl rfl rfl]
    exact end_malloc_failed no_memory_env example_state RETURNerror false 3 5 0x40 0x60
      0 0 0 0 0 0 rfl

/-! ## Retransmission -/

theorem abort_armed (env : Collaborators) (s : NasState) (p : Nat)
    (d : security_data_t) (c : emm_data_context_t)
    (hp : s.heap p = HeapCell.live d) (hue : 0 < d.ue_id)
    (hc : s.emm_data.ctx d.ue_id = some c) (harmed : c.T3460.id ≠ NAS_TIMER_INACTIVE_ID)
    (hn : d.notify_failure = true) :
    ∃ rc s1, _security_abort env s (some p) = Except.ok (rc, s1) ∧
      s1.trace = s.trace ++
        [Event.nas_timer_stop c.T3460.id, Event.FREE_CHECK p,
         Event.emm_sap_send (emm_sap_t.EMMREG_COMMON_PROC_REJ d.ue_id none) rc] ∧
      s1.heap p = HeapCell.freed ∧
      s1.emm_data.ctx d.ue_id
        = some { c with T3460 := { c.T3460 with id := NAS_TIMER_INACTIVE_ID } } ∧
      (∀ u, security_of s1 u = security_of s u) := by
  unfold _security_abort
  simp only [hp, hue, if_true, emm_data_context_get, hc, harmed, ne_eq, not_false_eq_true, hn]
  refine ⟨_, _, rfl, ?_, ?_, ?_, ?_⟩
  · simp [emm_sap_send, FREE_CHECK, record, set_ctx, nas_timer_stop]
  · simp [emm_sap_send, FREE_CHECK, record, set_ctx, nas_timer_stop]
  · simp [emm_sap_send, FREE_CHECK, record, set_ctx, nas_timer_stop]
  · intro u
    by_cases hu : u = d.ue_id
    · subst hu; simp [security_of, emm_sap_send, FREE_CHECK, record, set_ctx, nas_timer_stop, hc]
    · simp [security_of, emm_sap_send, FREE_CHECK, record, set_ctx, nas_timer_stop,
        Function.update, hu]

theorem handler_retransmits (env : Collaborators) (s : NasState) (p : Nat)
    (d : security_data_t) (c : emm_data_context_t)
    (hp : s.heap p = HeapCell.live d) (hue : 0 < d.ue_id)
    (hc : s.emm_data.ctx d.ue_id = some c) (harmed : c.T3460.id ≠ NAS_TIMER_INACTIVE_ID)
    (hcount : d.retransmission_count + 1 < SECURITY_COUNTER_MAX)
    (hcmd : ∀ tr m, env.emm_sap_send_rc tr (emm_sap_t.EMMAS_SECURITY_REQ m) ≠ RETURNerror) :
    ∃ rc s1, _security_t3460_handler env s p = Except.ok s1 ∧
      s1.trace = s.trace ++
        [Event.emm_sap_send (security_command d c.security false) rc,
         Event.nas_timer_restart c.T3460.id c.T3460.id] ∧
      s1.heap p
        = HeapCell.live { d with retransmission_count := d.retransmission_count + 1 } ∧
      s1.emm_data.ctx d.ue_id = some c ∧
      (∀ u, security_of s1 u = security_of s u) := by
  have hmod : (d.retransmission_count + 1) % 4294967296 = d.retransmission_count + 1 := by
    unfold SECURITY_COUNTER_MAX at hcount
    omega
  unfold _security_t3460_handler
  simp only [hp, hmod, hcount, if_true]
  rw [request_accepted_restart env _ p false
    { d with retransmission_count := d.retransmission_count + 1 } c
    (by simp [set_data]) hue (by simpa [set_data] using hc) (hcmd _ _) harmed]
  refine ⟨env.emm_sap_send_rc s.trace (security_command d c.security false), _, rfl,
    ?_, ?_, ?_, ?_⟩
  · simp [record, set_ctx, set_data, security_command]
  · simp [record, set_ctx, set_data]
  · simp [record, set_ctx, set_data]
  · intro u
    by_cases hu : u = d.ue_id
    · subst hu; simp [security_of, record, set_ctx, set_data, hc]
    · simp [security_of, record, set_ctx, set_data, Function.update, hu]

theorem handler_aborts (env : Collaborators) (s : NasState) (p : Nat)
    (d : security_data_t) (c : emm_data_context_t)
    (hp : s.heap p = HeapCell.live d) (hue : 0 < d.ue_id)
    (hc : s.emm_data.ctx d.ue_id = some c) (harmed : c.T3460.id ≠ NAS_TIMER_INACTIVE_ID)
    (hcount : d.retransmission_count + 1 = SECURITY_COUNTER_MAX) :
    ∃ rc s1, _security_t3460_handler env s p = Except.ok s1 ∧
      s1.trace = s.trace ++
        [Event.nas_timer_stop c.T3460.id, Event.FREE_CHECK p,
         Event.emm_sap_send (emm_sap_t.EMMREG_COMMON_PROC_REJ d.ue_id none) rc] ∧
      s1.heap p = HeapCell.freed ∧
      s1.emm_data.ctx d.ue_id
        = some { c with T3460 := { c.T3460 with id := NAS_TIMER_INACTIVE_ID } } ∧
      (∀ u, security_of s1 u = security_of s u) := by
  have hmod : (d.retransmission_count + 1) % 4294967296 = d.retransmission_count + 1 := by
    unfold SECURITY_COUNTER_MAX at hcount
    omega
  have hlt : ¬ (d.retransmission_count + 1 < SECURITY_COUNTER_MAX) := by omega
  unfold _security_t3460_handler
  simp only [hp, hmod, hlt, if_false]
  obtain ⟨rc, s1, habort, htr, hheap, hctx, hsec⟩ := abort_armed env
    (set_data s p
      { d with retransmission_count := d.retransmission_count + 1, notify_failure := true })
    p { d with retransmission_count := d.retransmission_count + 1, notify_failure := true } c
    (by simp [set_data]) hue (by simpa [set_data] using hc) harmed rfl
  rw [habort]
  exact ⟨rc, s1, rfl, htr, hheap, hctx, hsec⟩

theorem expiries_succ_of_ok (env : Collaborators) (s sn : NasState) (p n : Nat)
    (h : expiries env s p n = Except.ok sn) :
    expiries env s p (n + 1) = _security_t3460_handler env sn p := by
  show (match expiries env s p n with
    | Except.ok s1 => _security_t3460_handler env s1 p
    | Except.error e => Except.error e) = _
  rw [h]

theorem expiries_retransmit (env : Collaborators) (s : NasState) (p : Nat)
    (d : security_data_t) (c : emm_data_context_t)
    (hp : s.heap p = HeapCell.live d) (hcount : d.retransmission_count = 0)
    (hue : 0 < d.ue_id) (hc : s.emm_data.ctx d.ue_id = some c)
    (harmed : c.T3460.id ≠ NAS_TIMER_INACTIVE_ID)
    (hcmd : ∀ tr m, env.emm_sap_send_rc tr (emm_sap_t.EMMAS_SECURITY_REQ m) ≠ RETURNerror)
    (k : Nat) (hk : k ≤ 4) :
    ∃ sk, expiries env s p k = Except.ok sk ∧
      sk.heap p = HeapCell.live { d with retransmission_count := k } ∧
      sk.emm_data.ctx d.ue_id = some c ∧
      commands_sent sk.trace = commands_sent s.trace + k ∧
      (∀ u, security_of sk u = security_of s u) := by
  induction k with
  | zero =>
    refine ⟨s, rfl, ?_, hc, rfl, fun u => rfl⟩
    rw [hp, ← hcount]
  | succ n ih =>
    obtain ⟨sn, hn, hheap, hctx, hsent, hsec⟩ := ih (by omega)
    obtain ⟨rc, s1, hh, htr, hheap1, hctx1, hsec1⟩ := handler_retransmits env sn p
      { d with retransmission_count := n } c hheap hue hctx harmed
      (by show n + 1 < SECURITY_COUNTER_MAX; unfold SECURITY_COUNTER_MAX; omega) hcmd
    refine ⟨s1, ?_, hheap1, hctx1, ?_, fun u => (hsec1 u).trans (hsec u)⟩
    · rw [expiries_succ_of_ok env s sn p n hn]
      exact hh
    · rw [htr, commands_sent_append, hsent]
      simp [commands_sent, security_command]
      omega

/-- C10: from a state in which the Procedure State `p` is live with
    `retransmission_count = 0`, T3460 of its subscriber is armed and every
    Security Mode Command is accepted, each of the first four expiries of T3460
    sends exactly one Security Mode Command, restarts the timer and leaves the
    Procedure State live with the counter advanced by one; the fifth expiry
    sends no command, stops the timer, releases the Procedure State and emits
    one `EMMREG_COMMON_PROC_REJ`.  The five expiries send four commands in all,
    so that with the initial one at most five are sent for the procedure. -/
theorem retransmission_is_bounded (env : Collaborators) (s : NasState) (p : Nat)
    (d : security_data_t) (c : emm_data_context_t)
    (hp : s.heap p = HeapCell.live d) (hcount : d.retransmission_count = 0)
    (hue : 0 < d.ue_id) (hc : s.emm_data.ctx d.ue_id = some c)
    (harmed : c.T3460.id ≠ NAS_TIMER_INACTIVE_ID)
    (hcmd : ∀ tr m, env.emm_sap_send_rc tr (emm_sap_t.EMMAS_SECURITY_REQ m) ≠ RETURNerror) :
    (∀ k, k < SECURITY_COUNTER_MAX - 1 →
      ∃ sk sk1 rc,
        expiries env s p k = Except.ok sk ∧
        expiries env s p (k + 1) = Except.ok sk1 ∧
        sk1.trace = sk.trace ++
          [Event.emm_sap_send (security_command d c.security false) rc,
           Event.nas_timer_restart c.T3460.id c.T3460.id] ∧
        sk1.heap p = HeapCell.live { d with retransmission_count := k + 1 } ∧
        sk1.emm_data.ctx d.ue_id = some c) ∧
    (∃ s4 s5 rc,
      expiries env s p (SECURITY_COUNTER_MAX - 1) = Except.ok s4 ∧
      expiries env s p SECURITY_COUNTER_MAX = Except.ok s5 ∧
      s5.trace = s4.trace ++
        [Event.nas_timer_stop c.T3460.id, Event.FREE_CHECK p,
         Event.emm_sap_send (emm_sap_t.EMMREG_COMMON_PROC_REJ d.ue_id none) rc] ∧
      s5.heap p = HeapCell.freed ∧
      s5.emm_data.ctx d.ue_id
        = some { c with T3460 := { c.T3460 with id := NAS_TIMER_INACTIVE_ID } } ∧
      commands_sent s5.trace = commands_sent s.trace + (SECURITY_COUNTER_MAX - 1)) := by
  constructor
  · intro k hk
    have hk4 : k < 4 := hk
    obtain ⟨sk, hsk, hheap, hctx, -, -⟩ :=
      expiries_retransmit env s p d c hp hcount hue hc harmed hcmd k (by omega)
    obtain ⟨rc, s1, hh, htr, hheap1, hctx1, -⟩ := handler_retransmits env sk p
      { d with retransmission_count := k } c hheap hue hctx harmed
      (by show k + 1 < SECURITY_COUNTER_MAX; unfold SECURITY_COUNTER_MAX; omega) hcmd
    refine ⟨sk, s1, rc, hsk, ?_, htr, hheap1, hctx1⟩
    rw [expiries_succ_of_ok env s sk p k hsk]
    exact hh
  · obtain ⟨s4, hs4, hheap, hctx, hsent, -⟩ :=
      expiries_retransmit env s p d c hp hcount hue hc harmed hcmd 4 (le_refl 4)
    obtain ⟨rc, s5, hh, htr, hheap5, hctx5, -⟩ := handler_aborts env s4 p
      { d with retransmission_count := 4 } c hheap hue hctx harmed rfl
    refine ⟨s4, s5, rc, hs4, ?_, htr, hheap5, hctx5, ?_⟩
    · show expiries env s p (4 + 1) = Except.ok s5
      rw [expiries_succ_of_ok env s s4 p 4 hs4]
      exact hh
    · rw [htr, commands_sent_append, hsent]
      simp [commands_sent, SECURITY_COUNTER_MAX]

/-- C10 at a concrete input: the example store after a first start for
    subscriber 1, in which one command has been sent; after five expiries five
    commands have been sent in all. -/
theorem retransmission_is_bounded_witness :
    example_pending.heap 0 = HeapCell.live example_data ∧
    example_pending.emm_data.ctx 1 = some example_pending_context ∧
    commands_sent example_pending.trace = 1 ∧
    (∀ k, k < SECURITY_COUNTER_MAX - 1 →
      ∃ sk sk1 rc,
        expiries example_env example_pending 0 k = Except.ok sk ∧
        expiries example_env example_pending 0 (k + 1) = Except.ok sk1 ∧
        sk1.trace = sk.trace ++
          [Event.emm_sap_send
             (security_command example_data example_pending_context.security false) rc,
           Event.nas_timer_restart 0 0] ∧
        sk1.heap 0 = HeapCell.live { example_data with retransmission_count := k + 1 } ∧
        sk1.emm_data.ctx 1 = some example_pending_context) ∧
    (∃ s4 s5 rc,
      expiries example_env example_pending 0 (SECURITY_COUNTER_MAX - 1) = Except.ok s4 ∧
      expiries example_env example_pending 0 SECURITY_COUNTER_MAX = Except.ok s5 ∧
      s5.trace = s4.trace ++
        [Event.nas_timer_stop 0, Event.FREE_CHECK 0,
         Event.emm_sap_send (emm_sap_t.EMMREG_COMMON_PROC_REJ 1 none) rc] ∧
      s5.heap 0 = HeapCell.freed ∧
      s5.emm_data.ctx 1
        = some { example_pending_context with
                 T3460 := { example_pending_context.T3460 with id := NAS_TIMER_INACTIVE_ID } } ∧
      commands_sent s5.trace = commands_sent example_pending.trace + (SECURITY_COUNTER_MAX - 1)) :=
  ⟨rfl, rfl, rfl,
   retransmission_is_bounded example_env example_pending 0 example_data
     example_pending_context rfl rfl (by decide) rfl (by decide)
     (fun _ _ => (by decide : RETURNok ≠ RETURNerror))⟩

/-! ## Completion and rejection -/

theorem emitted_append (a b : List Event) : emitted (a ++ b) = emitted a ++ emitted b := by
  simp [emitted, List.filterMap_append]

theorem releases_append (p : Nat) (a b : List Event) :
    releases p (a ++ b) = releases p a + releases p b := by
  simp [releases, List.countP_append]

theorem release_args_emitted (s : NasState) (ue_id : Nat) :
    emitted (release_args s ue_id).trace = emitted s.trace := by
  unfold release_args
  split
  · simp [FREE_CHECK, record, emitted_append]
    simp [emitted]
  · rfl

theorem release_args_ctx (s : NasState) (ue_id : Nat) :
    (release_args s ue_id).emm_data.ctx = s.emm_data.ctx := by
  rw [release_args_emm_data]

theorem release_args_registered (s : NasState) (ue_id p : Nat)
    (h : s.common_args ue_id = some p) :
    (release_args s ue_id).heap p = HeapCell.freed ∧
    (release_args s ue_id).trace = s.trace ++ [Event.FREE_CHECK p] := by
  unfold release_args emm_proc_common_get_args
  simp [h, FREE_CHECK, record]

theorem release_args_unregistered (s : NasState) (ue_id : Nat)
    (h : s.common_args ue_id = none) : release_args s ue_id = s := by
  unfold release_args emm_proc_common_get_args
  simp [h]

theorem stop_T3460_facts (s : NasState) (ue_id : Nat) (c : emm_data_context_t) :
    (stop_T3460 s ue_id c).2.trace = s.trace ++ [Event.nas_timer_stop c.T3460.id] ∧
    (stop_T3460 s ue_id c).2.emm_data.ctx ue_id
      = some { c with T3460 := { c.T3460 with id := NAS_TIMER_INACTIVE_ID } } ∧
    (stop_T3460 s ue_id c).2.common_args = s.common_args ∧
    (stop_T3460 s ue_id c).2.heap = s.heap ∧
    (stop_T3460 s ue_id c).1
      = { c with T3460 := { c.T3460 with id := NAS_TIMER_INACTIVE_ID } } := by
  simp [stop_T3460, set_ctx, nas_timer_stop, record]

theorem release_args_facts (s : NasState) (ue_id : Nat) :
    (release_args s ue_id).emm_data = s.emm_data ∧
    (release_args s ue_id).common_args = s.common_args ∧
    (release_args s ue_id).trace
      = s.trace ++ (match s.common_args ue_id with
          | some p => [Event.FREE_CHECK p]
          | none => []) ∧
    (∀ p, s.common_args ue_id = some p → (release_args s ue_id).heap p = HeapCell.freed) ∧
    (∀ q, s.common_args ue_id ≠ some q → (release_args s ue_id).heap q = s.heap q) := by
  unfold release_args emm_proc_common_get_args
  cases h : s.common_args ue_id with
  | none => simp
  | some p =>
    simp only [FREE_CHECK, record, true_and]
    refine ⟨?_, ?_⟩
    · intro q hq
      have hpq : p = q := by simpa using hq
      subst hpq
      exact Function.update_same _ _ _
    · intro q hq
      have : q ≠ p := fun h => hq (by rw [h])
      simp [Function.update, this]

theorem complete_cases (s : NasState) (ue_id : Nat) :
    (∃ c sec, 0 < ue_id ∧ s.emm_data.ctx ue_id = some c ∧ c.security = some sec) ∨
    (∃ c, 0 < ue_id ∧ s.emm_data.ctx ue_id = some c ∧ c.security = none) ∨
    (ue_id = 0 ∨ s.emm_data.ctx ue_id = none) := by
  by_cases hue : 0 < ue_id
  · cases hc : s.emm_data.ctx ue_id with
    | none => exact Or.inr (Or.inr (Or.inr rfl))
    | some c =>
      cases hs : c.security with
      | none => exact Or.inr (Or.inl ⟨c, hue, rfl, hs⟩)
      | some sec => exact Or.inl ⟨c, sec, hue, rfl, hs⟩
  · exact Or.inr (Or.inr (Or.inl (by omega)))

theorem complete_with_security (env : Collaborators) (s : NasState) (ue_id : Nat)
    (c : emm_data_context_t) (sec : emm_security_context_t) (hue : 0 < ue_id)
    (hc : s.emm_data.ctx ue_id = some c) (hs : c.security = some sec) :
    emm_proc_security_mode_complete env s ue_id
      = emm_sap_send env (release_args (stop_T3460 s ue_id c).2 ue_id)
          (emm_sap_t.EMMREG_COMMON_PROC_CNF ue_id (some ue_id) c.is_attached) := by
  unfold emm_proc_security_mode_complete
  simp only [hue, gt_iff_lt, if_true, emm_data_context_get, hc, hs]

theorem complete_without_security (env : Collaborators) (s : NasState) (ue_id : Nat)
    (c : emm_data_context_t) (hue : 0 < ue_id)
    (hc : s.emm_data.ctx ue_id = some c) (hs : c.security = none) :
    emm_proc_security_mode_complete env s ue_id
      = emm_sap_send env (release_args (stop_T3460 s ue_id c).2 ue_id)
          (emm_sap_t.EMMREG_COMMON_PROC_REJ ue_id (some ue_id)) := by
  unfold emm_proc_security_mode_complete
  simp only [hue, gt_iff_lt, if_true, emm_data_context_get, hc, hs]

theorem complete_without_context (env : Collaborators) (s : NasState) (ue_id : Nat)
    (h : ue_id = 0 ∨ s.emm_data.ctx ue_id = none) :
    emm_proc_security_mode_complete env s ue_id
      = emm_sap_send env (release_args s ue_id)
          (emm_sap_t.EMMREG_COMMON_PROC_REJ ue_id none) := by
  unfold emm_proc_security_mode_complete
  rcases h with h | h
  · subst h; simp
  · simp [emm_data_context_get, h]

theorem emitted_release_stop (s : NasState) (ue_id : Nat) (c : emm_data_context_t) :
    emitted (release_args (stop_T3460 s ue_id c).2 ue_id).trace = emitted s.trace := by
  rw [release_args_emitted, (stop_T3460_facts s ue_id c).1, emitted_append]
  simp [emitted]

theorem releases_release_args (s : NasState) (ue_id p : Nat)
    (h : s.common_args ue_id = some p) :
    releases p (release_args s ue_id).trace = releases p s.trace + 1 := by
  rw [(release_args_facts s ue_id).2.2.1, h, releases_append]
  simp [releases]

/-- C11: `emm_proc_security_mode_complete` emits exactly one upper-layer event:
    `EMMREG_COMMON_PROC_CNF` with the subscriber id and the `is_attached` value
    of the context when a context with a security context exists, and
    `EMMREG_COMMON_PROC_REJ` with the subscriber id otherwise (id 0, no context,
    no security context); what it returns is the result of that send.  It stops
    T3460 when the context exists and releases the registered Procedure State
    when there is one. -/
theorem complete_emits_one_event (env : Collaborators) (s : NasState) (ue_id : Nat) :
    (∀ c sec, 0 < ue_id → s.emm_data.ctx ue_id = some c → c.security = some sec →
      emitted (emm_proc_security_mode_complete env s ue_id).2.trace
        = emitted s.trace ++
          [emm_sap_t.EMMREG_COMMON_PROC_CNF ue_id (some ue_id) c.is_attached]) ∧
    ((ue_id = 0 ∨ s.emm_data.ctx ue_id = none ∨
        ∃ c, s.emm_data.ctx ue_id = some c ∧ c.security = none) →
      ∃ ctx, emitted (emm_proc_security_mode_complete env s ue_id).2.trace
        = emitted s.trace ++ [emm_sap_t.EMMREG_COMMON_PROC_REJ ue_id ctx]) ∧
    (∃ sap, (emm_proc_security_mode_complete env s ue_id).2.trace.getLast?
      = some (Event.emm_sap_send sap (emm_proc_security_mode_complete env s ue_id).1)) ∧
    (∀ c, 0 < ue_id → s.emm_data.ctx ue_id = some c →
      Event.nas_timer_stop c.T3460.id ∈ (emm_proc_security_mode_complete env s ue_id).2.trace ∧
      (emm_proc_security_mode_complete env s ue_id).2.emm_data.ctx ue_id
        = some { c with T3460 := { c.T3460 with id := NAS_TIMER_INACTIVE_ID } }) ∧
    (∀ p, s.common_args ue_id = some p →
      (emm_proc_security_mode_complete env s ue_id).2.heap p = HeapCell.freed ∧
      releases p (emm_proc_security_mode_complete env s ue_id).2.trace
        = releases p s.trace + 1) := by
  have hsend : ∀ (t : NasState) (sap : emm_sap_t),
      (emm_sap_send env t sap).2.trace
        = t.trace ++ [Event.emm_sap_send sap (emm_sap_send env t sap).1] := fun t sap => rfl
  refine ⟨?_, ?_, ?_, ?_, ?_⟩
  · intro c sec hue hc hs
    rw [complete_with_security env s ue_id c sec hue hc hs, hsend, emitted_append,
      emitted_release_stop]
    simp [emitted]
  · intro h
    rcases h with h | h | ⟨c, hc, hs⟩
    · refine ⟨none, ?_⟩
      rw [complete_without_context env s ue_id (Or.inl h), hsend, emitted_append,
        release_args_emitted]
      simp [emitted]
    · refine ⟨none, ?_⟩
      rw [complete_without_context env s ue_id (Or.inr h), hsend, emitted_append,
        release_args_emitted]
      simp [emitted]
    · by_cases hue : 0 < ue_id
      · refine ⟨some ue_id, ?_⟩
        rw [complete_without_security env s ue_id c hue hc hs, hsend, emitted_append,
          emitted_release_stop]
        simp [emitted]
      · refine ⟨none, ?_⟩
        rw [complete_without_context env s ue_id (Or.inl (by omega)), hsend, emitted_append,
          release_args_emitted]
        simp [emitted]
  · rcases complete_cases s ue_id with ⟨c, sec, hue, hc, hs⟩ | ⟨c, hue, hc, hs⟩ | h
    · rw [complete_with_security env s ue_id c sec hue hc hs]
      exact ⟨emm_sap_t.EMMREG_COMMON_PROC_CNF ue_id (some ue_id) c.is_attached,
        by rw [hsend]; simp⟩
    · rw [complete_without_security env s ue_id c hue hc hs]
      exact ⟨emm_sap_t.EMMREG_COMMON_PROC_REJ ue_id (some ue_id), by rw [hsend]; simp⟩
    · rw [complete_without_context env s ue_id h]
      exact ⟨emm_sap_t.EMMREG_COMMON_PROC_REJ ue_id none, by rw [hsend]; simp⟩
  · intro c hue hc
    have hstop := stop_T3460_facts s ue_id c
    have hrel := release_args_facts (stop_T3460 s ue_id c).2 ue_id
    have key : ∀ sap,
        Event.nas_timer_stop c.T3460.id ∈
          (emm_sap_send env (release_args (stop_T3460 s ue_id c).2 ue_id) sap).2.trace ∧
        (emm_sap_send env (release_args (stop_T3460 s ue_id c).2 ue_id) sap).2.emm_data.ctx ue_id
          = some { c with T3460 := { c.T3460 with id := NAS_TIMER_INACTIVE_ID } } := by
      intro sap
      constructor
      · rw [hsend, hrel.2.2.1, hstop.1]
        simp
      · show (release_args (stop_T3460 s ue_id c).2 ue_id).emm_data.ctx ue_id = _
        rw [hrel.1, hstop.2.1]
    obtain ⟨sec, hs⟩ | hs : (∃ sec, c.security = some sec) ∨ c.security = none := by
      cases c.security <;> simp
    · rw [complete_with_security env s ue_id c sec hue hc hs]; exact key _
    · rw [complete_without_security env s ue_id c hue hc hs]; exact key _
  · intro p hargs
    have key : ∀ (t : NasState) sap, t.common_args ue_id = some p →
        (emm_sap_send env (release_args t ue_id) sap).2.heap p = HeapCell.freed ∧
        releases p (emm_sap_send env (release_args t ue_id) sap).2.trace
          = releases p t.trace + 1 := by
      intro t sap ht
      constructor
      · exact (release_args_facts t ue_id).2.2.2.1 p ht
      · rw [hsend, releases_append, releases_release_args t ue_id p ht]
        simp [releases]
    rcases complete_cases s ue_id with ⟨c, sec, hue, hc, hs⟩ | ⟨c, hue, hc, hs⟩ | h
    · rw [complete_with_security env s ue_id c sec hue hc hs]
      have h2 := key (stop_T3460 s ue_id c).2
        (emm_sap_t.EMMREG_COMMON_PROC_CNF ue_id (some ue_id) c.is_attached)
        (by rw [(stop_T3460_facts s ue_id c).2.2.1]; exact hargs)
      rw [(stop_T3460_facts s ue_id c).1, releases_append] at h2
      refine ⟨h2.1, h2.2.trans ?_⟩
      simp [releases]
    · rw [complete_without_security env s ue_id c hue hc hs]
      have h2 := key (stop_T3460 s ue_id c).2
        (emm_sap_t.EMMREG_COMMON_PROC_REJ ue_id (some ue_id))
        (by rw [(stop_T3460_facts s ue_id c).2.2.1]; exact hargs)
      rw [(stop_T3460_facts s ue_id c).1, releases_append] at h2
      refine ⟨h2.1, h2.2.trans ?_⟩
      simp [releases]
    · rw [complete_without_context env s ue_id h]
      exact key s _ hargs

/-- C11 at concrete inputs: subscriber 1 of the example store after a first
    start (context with security context, Procedure State 0 registered, T3460
    armed with handle 0) and subscriber 9 of the example store (no context). -/
theorem complete_emits_one_event_witness :
    emitted (emm_proc_security_mode_complete example_env example_pending 1).2.trace
      = emitted example_pending.trace ++ [emm_sap_t.EMMREG_COMMON_PROC_CNF 1 (some 1) 0] ∧
    (∃ ctx, emitted (emm_proc_security_mode_complete example_env example_state 9).2.trace
      = emitted example_state.trace ++ [emm_sap_t.EMMREG_COMMON_PROC_REJ 9 ctx]) ∧
    (Event.nas_timer_stop 0 ∈
        (emm_proc_security_mode_complete example_env example_pending 1).2.trace ∧
      (emm_proc_security_mode_complete example_env example_pending 1).2.emm_data.ctx 1
        = some { example_pending_context with
                 T3460 := { example_pending_context.T3460 with
                            id := NAS_TIMER_INACTIVE_ID } }) ∧
    ((emm_proc_security_mode_complete example_env example_pending 1).2.heap 0
        = HeapCell.freed ∧
      releases 0 (emm_proc_security_mode_complete example_env example_pending 1).2.trace
        = releases 0 example_pending.trace + 1) :=
  ⟨(complete_emits_one_event example_env example_pending 1).1 example_pending_context _
      (by decide) rfl rfl,
   (complete_emits_one_event example_env example_state 9).2.1 (Or.inr (Or.inl rfl)),
   (complete_emits_one_event example_env example_pending 1).2.2.2.1 example_pending_context
      (by decide) rfl,
   (complete_emits_one_event example_env example_pending 1).2.2.2.2 0 rfl⟩

theorem reject_with_context (env : Collaborators) (s : NasState) (ue_id : Nat)
    (c : emm_data_context_t) (hue : 0 < ue_id) (hc : s.emm_data.ctx ue_id = some c) :
    emm_proc_security_mode_reject env s ue_id
      = Except.ok (emm_sap_send env
          (match c.security with
            | some sec =>
              set_ctx (release_args (stop_T3460 s ue_id c).2 ue_id) ue_id
                { c with
                  security := some { sec with type := emm_ksi_t.EMM_KSI_NOT_AVAILABLE },
                  T3460 := { c.T3460 with id := NAS_TIMER_INACTIVE_ID } }
            | none => release_args (stop_T3460 s ue_id c).2 ue_id)
          (emm_sap_t.EMMREG_COMMON_PROC_REJ ue_id (some ue_id))) := by
  unfold emm_proc_security_mode_reject
  simp only [hue, gt_iff_lt, if_true, emm_data_context_get, hc]
  cases hs : c.security with
  | none => simp [stop_T3460, hs]
  | some sec => simp [stop_T3460, hs, nas_timer_stop]

theorem reject_without_context (env : Collaborators) (s : NasState) :
    emm_proc_security_mode_reject env s 0
      = Except.ok (emm_sap_send env (release_args s 0)
          (emm_sap_t.EMMREG_COMMON_PROC_REJ 0 none)) := by
  unfold emm_proc_security_mode_reject
  simp

theorem reject_asserts (env : Collaborators) (s : NasState) (ue_id : Nat)
    (hue : 0 < ue_id) (hc : s.emm_data.ctx ue_id = none) :
    emm_proc_security_mode_reject env s ue_id = Except.error Fatal.assertion_failed := by
  unfold emm_proc_security_mode_reject
  simp [hue, emm_data_context_get, hc]

/-- C12: for a subscriber that has a security context,
    `emm_proc_security_mode_reject` returns, sets the type of the security
    context to `EMM_KSI_NOT_AVAILABLE` whatever it was, stops T3460, releases
    the registered Procedure State if there is one, and leaves `eksi`,
    `dl_count`, `kasme`, `knas_int`, `knas_enc` and `selected_algorithms` as
    they were. -/
theorem reject_reverts_context_type (env : Collaborators) (s : NasState) (ue_id : Nat)
    (c : emm_data_context_t) (sec : emm_security_context_t) (hue : 0 < ue_id)
    (hc : s.emm_data.ctx ue_id = some c) (hs : c.security = some sec) :
    ∃ rc s1 sec1,
      emm_proc_security_mode_reject env s ue_id = Except.ok (rc, s1) ∧
      s1.emm_data.ctx ue_id = some
        { c with security := some sec1,
                 T3460 := { c.T3460 with id := NAS_TIMER_INACTIVE_ID } } ∧
      sec1.type = emm_ksi_t.EMM_KSI_NOT_AVAILABLE ∧
      sec1.eksi = sec.eksi ∧ sec1.dl_count = sec.dl_count ∧ sec1.kasme = sec.kasme ∧
      sec1.knas_int = sec.knas_int ∧ sec1.knas_enc = sec.knas_enc ∧
      sec1.selected_algorithms = sec.selected_algorithms ∧
      Event.nas_timer_stop c.T3460.id ∈ s1.trace ∧
      (∀ p, s.common_args ue_id = some p →
        s1.heap p = HeapCell.freed ∧ releases p s1.trace = releases p s.trace + 1) := by
  have hstop := stop_T3460_facts s ue_id c
  have hrel := release_args_facts (stop_T3460 s ue_id c).2 ue_id
  refine ⟨_, _, { sec with type := emm_ksi_t.EMM_KSI_NOT_AVAILABLE },
    (reject_with_context env s ue_id c hue hc).trans (by rw [hs]), ?_, rfl, rfl, rfl, rfl, rfl,
    rfl, rfl, ?_, ?_⟩
  · simp [emm_sap_send, record, set_ctx]
  · simp only [emm_sap_send, record, set_ctx, hrel.2.2.1, hstop.1]
    simp
  · intro p hargs
    have hargs2 : (stop_T3460 s ue_id c).2.common_args ue_id = some p := by
      rw [hstop.2.2.1]; exact hargs
    constructor
    · exact hrel.2.2.2.1 p hargs2
    · simp only [emm_sap_send, record, set_ctx, releases_append,
        releases_release_args _ ue_id p hargs2, hstop.1]
      simp [releases]

/-- C12 at a concrete input: subscriber 1 of the example store after a first
    start. -/
theorem reject_reverts_context_type_witness :
    ∃ rc s1 sec1,
      emm_proc_security_mode_reject example_env example_pending 1 = Except.ok (rc, s1) ∧
      s1.emm_data.ctx 1 = some
        { example_pending_context with
          security := some sec1,
          T3460 := { example_pending_context.T3460 with id := NAS_TIMER_INACTIVE_ID } } ∧
      sec1.type = emm_ksi_t.EMM_KSI_NOT_AVAILABLE ∧
      sec1.eksi = 5 ∧ sec1.dl_count = { overflow := 0, seq_num := 0 } ∧
      sec1.kasme = { length := 32, value := some (List.replicate 32 5) } ∧
      sec1.knas_int = { length := 16, value := some (List.replicate 16 2) } ∧
      sec1.knas_enc = { length := 16, value := some (List.replicate 16 1) } ∧
      sec1.selected_algorithms = { encryption := 1, integrity := 2 } ∧
      Event.nas_timer_stop 0 ∈ s1.trace ∧
      (∀ p, example_pending.common_args 1 = some p →
        s1.heap p = HeapCell.freed ∧
        releases p s1.trace = releases p example_pending.trace + 1) :=
  reject_reverts_context_type example_env example_pending 1 example_pending_context _
    (by decide) rfl rfl

/-- C13 as stated fails: subscriber 9 is non-zero and the example store holds no
    context for it; `DevAssert (emm_ctx)` ends the run, so that
    `emm_proc_security_mode_reject` emits no event and returns nothing. -/
theorem reject_without_context_asserts :
    example_state.emm_data.ctx 9 = none ∧
    emm_proc_security_mode_reject example_env example_state 9
      = Except.error Fatal.assertion_failed ∧
    ¬ ∃ rc s1, emm_proc_security_mode_reject example_env example_state 9
      = Except.ok (rc, s1) := by
  have h := reject_asserts example_env example_state 9 (by decide) rfl
  refine ⟨rfl, h, ?_⟩
  rintro ⟨rc, s1, h1⟩
  rw [h] at h1
  cases h1

/-- C13 (amended): for a subscriber id that is 0 or has a context in the store,
    with or without a security context, `emm_proc_security_mode_reject` emits
    exactly one `EMMREG_COMMON_PROC_REJ` event carrying that id and returns the
    result of that send; for a non-zero id with no context in the store
    `DevAssert (emm_ctx)` ends the run before any event is emitted. -/
theorem reject_emits_one_event (env : Collaborators) (s : NasState) (ue_id : Nat) :
    ((ue_id = 0 ∨ ∃ c, s.emm_data.ctx ue_id = some c) →
      ∃ rc s1 ctx,
        emm_proc_security_mode_reject env s ue_id = Except.ok (rc, s1) ∧
        emitted s1.trace = emitted s.trace ++ [emm_sap_t.EMMREG_COMMON_PROC_REJ ue_id ctx] ∧
        s1.trace.getLast?
          = some (Event.emm_sap_send (emm_sap_t.EMMREG_COMMON_PROC_REJ ue_id ctx) rc)) ∧
    (0 < ue_id → s.emm_data.ctx ue_id = none →
      emm_proc_security_mode_reject env s ue_id = Except.error Fatal.assertion_failed) := by
  refine ⟨?_, reject_asserts env s ue_id⟩
  intro h
  by_cases hue : 0 < ue_id
  · obtain ⟨c, hc⟩ : ∃ c, s.emm_data.ctx ue_id = some c := by
      rcases h with h | h
      · omega
      · exact h
    refine ⟨_, _, some ue_id, reject_with_context env s ue_id c hue hc, ?_, ?_⟩
    · cases c.security <;>
        simp [emm_sap_send, record, set_ctx, emitted_append, emitted_release_stop] <;>
        simp [emitted]
    · simp [emm_sap_send, record]
  · have h0 : ue_id = 0 := by omega
    subst h0
    refine ⟨_, _, none, reject_without_context env s, ?_, ?_⟩
    · simp [emm_sap_send, record, emitted_append, release_args_emitted]
      simp [emitted]
    · simp [emm_sap_send, record]

/-- C13 (amended) at concrete inputs: subscriber 2 of the example store (context
    without security context), subscriber 0, and subscriber 9 (no context). -/
theorem reject_emits_one_event_witness :
    (∃ rc s1 ctx,
      emm_proc_security_mode_reject example_env example_state 2 = Except.ok (rc, s1) ∧
      emitted s1.trace = emitted example_state.trace ++
        [emm_sap_t.EMMREG_COMMON_PROC_REJ 2 ctx] ∧
      s1.trace.getLast?
        = some (Event.emm_sap_send (emm_sap_t.EMMREG_COMMON_PROC_REJ 2 ctx) rc)) ∧
    (∃ rc s1 ctx,
      emm_proc_security_mode_reject example_env example_state 0 = Except.ok (rc, s1) ∧
      emitted s1.trace = emitted example_state.trace ++
        [emm_sap_t.EMMREG_COMMON_PROC_REJ 0 ctx] ∧
      s1.trace.getLast?
        = some (Event.emm_sap_send (emm_sap_t.EMMREG_COMMON_PROC_REJ 0 ctx) rc)) ∧
    emm_proc_security_mode_reject example_env example_state 9
      = Except.error Fatal.assertion_failed :=
  ⟨(reject_emits_one_event example_env example_state 2).1 (Or.inr ⟨_, rfl⟩),
   (reject_emits_one_event example_env example_state 0).1 (Or.inl rfl),
   (reject_emits_one_event example_env example_state 9).2 (by decide) rfl⟩

/-! ## Abort -/

/-- C14: for a Procedure State whose subscriber has a context, `_security_abort`
    stops T3460 if it is armed, releases the Procedure State, and then, if
    `notify_failure` was set, emits exactly one `EMMREG_COMMON_PROC_REJ` event
    carrying the subscriber id and returns the result of that send; if it was
    not set it emits no event and returns `RETURNok`.  For a null argument it
    does nothing and returns `RETURNerror`. -/
theorem abort_releases_and_notifies (env : Collaborators) (s : NasState) (p : Nat)
    (d : security_data_t) (c : emm_data_context_t)
    (hp : s.heap p = HeapCell.live d) (hue : 0 < d.ue_id)
    (hc : s.emm_data.ctx d.ue_id = some c) :
    (∃ rc s1,
      _security_abort env s (some p) = Except.ok (rc, s1) ∧
      s1.trace = s.trace ++
        (if c.T3460.id ≠ NAS_TIMER_INACTIVE_ID then [Event.nas_timer_stop c.T3460.id] else []) ++
        [Event.FREE_CHECK p] ++
        (if d.notify_failure = true then
          [Event.emm_sap_send (emm_sap_t.EMMREG_COMMON_PROC_REJ d.ue_id none) rc]
         else []) ∧
      emitted s1.trace = emitted s.trace ++
        (if d.notify_failure = true then [emm_sap_t.EMMREG_COMMON_PROC_REJ d.ue_id none]
         else []) ∧
      (d.notify_failure = false → rc = RETURNok) ∧
      s1.heap p = HeapCell.freed ∧
      s1.emm_data.ctx d.ue_id
        = some { c with T3460 := { c.T3460 with id := NAS_TIMER_INACTIVE_ID } }) ∧
    _security_abort env s none = Except.ok (RETURNerror, s) := by
  refine ⟨?_, rfl⟩
  unfold _security_abort
  simp only [hp, hue, gt_iff_lt, if_true, emm_data_context_get, hc]
  by_cases harmed : c.T3460.id = NAS_TIMER_INACTIVE_ID
  · have hceq : c = { c with T3460 := { c.T3460 with id := NAS_TIMER_INACTIVE_ID } } := by
      rw [← harmed]
    by_cases hn : d.notify_failure = true
    · simp only [harmed, ne_eq, not_true_eq_false, if_false, hn, if_true]
      refine ⟨_, _, rfl, ?_, ?_, ?_, ?_, ?_⟩
      · simp [emm_sap_send, FREE_CHECK, record]
      · simp [emm_sap_send, FREE_CHECK, record, emitted_append]
        simp [emitted]
      · intro h; simp at h
      · simp [emm_sap_send, FREE_CHECK, record]
      · simp only [emm_sap_send, FREE_CHECK, record]
        rw [hc]
        exact congrArg some hceq
    · simp only [harmed, ne_eq, not_true_eq_false, if_false, hn]
      refine ⟨_, _, rfl, ?_, ?_, ?_, ?_, ?_⟩
      · simp [FREE_CHECK, record]
      · simp [FREE_CHECK, record, emitted_append]
        simp [emitted]
      · intro _; rfl
      · simp [FREE_CHECK, record]
      · simp only [FREE_CHECK, record]
        rw [hc]
        exact congrArg some hceq
  · by_cases hn : d.notify_failure = true
    · simp only [harmed, ne_eq, not_false_eq_true, if_true, hn]
      refine ⟨_, _, rfl, ?_, ?_, ?_, ?_, ?_⟩
      · simp [emm_sap_send, FREE_CHECK, record, set_ctx, nas_timer_stop]
      · simp [emm_sap_send, FREE_CHECK, record, set_ctx, nas_timer_stop, emitted_append]
        simp [emitted]
      · intro h; simp at h
      · simp [emm_sap_send, FREE_CHECK, record, set_ctx, nas_timer_stop]
      · simp [emm_sap_send, FREE_CHECK, record, set_ctx, nas_timer_stop]
    · simp only [harmed, ne_eq, not_false_eq_true, if_true, hn]
      refine ⟨_, _, rfl, ?_, ?_, ?_, ?_, ?_⟩
      · simp [FREE_CHECK, record, set_ctx, nas_timer_stop]
      · simp [FREE_CHECK, record, set_ctx, nas_timer_stop, emitted_append]
        simp [emitted]
      · intro _; rfl
      · simp [FREE_CHECK, record, set_ctx, nas_timer_stop]
      · simp [FREE_CHECK, record, set_ctx, nas_timer_stop]

/-- C14 at a concrete input: the Procedure State 0 of the example store after a
    first start, whose `notify_failure` is not set and whose T3460 is armed with
    handle 0. -/
theorem abort_releases_and_notifies_witness :
    (∃ rc s1,
      _security_abort example_env example_pending (some 0) = Except.ok (rc, s1) ∧
      s1.trace = example_pending.trace ++
        (if example_pending_context.T3460.id ≠ NAS_TIMER_INACTIVE_ID then
          [Event.nas_timer_stop example_pending_context.T3460.id] else []) ++
        [Event.FREE_CHECK 0] ++
        (if example_data.notify_failure = true then
          [Event.emm_sap_send (emm_sap_t.EMMREG_COMMON_PROC_REJ example_data.ue_id none) rc]
         else []) ∧
      emitted s1.trace = emitted example_pending.trace ++
        (if example_data.notify_failure = true then
          [emm_sap_t.EMMREG_COMMON_PROC_REJ example_data.ue_id none]
         else []) ∧
      (example_data.notify_failure = false → rc = RETURNok) ∧
      s1.heap 0 = HeapCell.freed ∧
      s1.emm_data.ctx example_data.ue_id
        = some { example_pending_context with
                 T3460 := { example_pending_context.T3460 with
                            id := NAS_TIMER_INACTIVE_ID } }) ∧
    _security_abort example_env example_pending none
      = Except.ok (RETURNerror, example_pending) :=
  abort_releases_and_notifies example_env example_pending 0 example_data
    example_pending_context rfl (by decide) rfl

/-! ## Sequences of events: the timer and the Procedure State -/

/-- C15, the code at two failing sequences from the example store, in which no
    Procedure State exists and every T3460 is inactive.  After one start for
    subscriber 3 whose Security Mode Command the lower layer refuses, a
    Procedure State exists for subscriber 3 and its T3460 handle is
    `NAS_TIMER_INACTIVE_ID`.  With collaborators that all succeed, after two
    starts and one complete for subscriber 1 the Procedure State of the first
    start still exists and the T3460 handle is `NAS_TIMER_INACTIVE_ID`. -/
theorem procedure_state_outlives_timer :
    (∀ u, ¬ procedure_state_exists example_state u) ∧
    (∀ u, ¬ timer_armed example_state u) ∧
    run refusing_env example_state [Input.start 3 5 0x40 0x60]
      = Except.ok (state_after refusing_env example_state [Input.start 3 5 0x40 0x60]) ∧
    procedure_state_exists
      (state_after refusing_env example_state [Input.start 3 5 0x40 0x60]) 3 ∧
    ¬ timer_armed (state_after refusing_env example_state [Input.start 3 5 0x40 0x60]) 3 ∧
    run example_env example_state
        [Input.start 1 5 0x40 0x60, Input.start 1 5 0x40 0x60, Input.complete 1]
      = Except.ok (state_after example_env example_state
          [Input.start 1 5 0x40 0x60, Input.start 1 5 0x40 0x60, Input.complete 1]) ∧
    procedure_state_exists
      (state_after example_env example_state
        [Input.start 1 5 0x40 0x60, Input.start 1 5 0x40 0x60, Input.complete 1]) 1 ∧
    ¬ timer_armed
      (state_after example_env example_state
        [Input.start 1 5 0x40 0x60, Input.start 1 5 0x40 0x60, Input.complete 1]) 1 := by
  refine ⟨?_, ?_, rfl, ?_, ?_, rfl, ?_, ?_⟩
  · rintro u ⟨p, d, hp, -⟩
    cases hp
  · rintro u ⟨c, hc, hne⟩
    have h : ∀ c, example_state.emm_data.ctx u = some c → c.T3460.id = NAS_TIMER_INACTIVE_ID := by
      intro c hc
      simp only [example_state] at hc
      split_ifs at hc <;> (cases hc; rfl)
    exact hne (h c hc)
  · exact ⟨0, new_security_data 3 5 0x40 0x60 0 0 0 0 0 0
      (example_security emm_ksi_t.EMM_KSI_NATIVE), rfl, rfl⟩
  · rintro ⟨c, hc, hne⟩
    have h : (state_after refusing_env example_state [Input.start 3 5 0x40 0x60]).emm_data.ctx 3
        = some (example_context (some (example_security emm_ksi_t.EMM_KSI_NATIVE))) := rfl
    rw [h] at hc
    cases hc
    exact hne rfl
  · exact ⟨0, example_data, rfl, rfl⟩
  · rintro ⟨c, hc, hne⟩
    have h : (state_after example_env example_state
        [Input.start 1 5 0x40 0x60, Input.start 1 5 0x40 0x60, Input.complete 1]).emm_data.ctx 1
        = some { example_pending_context with
                 T3460 := { example_pending_context.T3460 with
                            id := NAS_TIMER_INACTIVE_ID } } := rfl
    rw [h] at hc
    cases hc
    exact hne rfl

/-! ## Complete and reject when T3460 is already inactive -/

theorem capability_bit_zero (id : Nat) : capability_bit 0 id = false := by
  rw [capability_bit_eq_false]
  show Int.land (Int.ofNat 0) (Int.ofNat (0x80 >>> id)) = 0
  simp [Int.land]

/-- C17: for a subscriber with a NoContext security context without key buffers,
    UE integrity capabilities that have the bit of integrity preference 0 set,
    UE ciphering capabilities 0, and collaborators that all succeed: start
    returns `RETURNok`, the selected integrity algorithm is preference 0 and the
    selected ciphering algorithm is 0, exactly one `EMMAS_SECURITY_REQ` is
    emitted and it is built with `is_new = true`; the complete that follows
    returns `RETURNok`, emits exactly one `EMMREG_COMMON_PROC_CNF` and leaves
    T3460 inactive. -/
theorem end_to_end_scenario (env : Collaborators) (s : NasState) (ue_id : Nat)
    (ksi eia ucs2 uea uia gea umts_present gprs_present : Int)
    (c : emm_data_context_t) (sec : emm_security_context_t)
    (hue : 0 < ue_id) (hc : s.emm_data.ctx ue_id = some c) (hs : c.security = some sec)
    (ht : sec.type = emm_ksi_t.EMM_KSI_NOT_AVAILABLE)
    (hki : sec.knas_int.value = none) (hke : sec.knas_enc.value = none)
    (hbit : Int.land eia
      (((0x80 >>> s.emm_data.conf.prefered_integrity_algorithm 0 : Nat) : Int)) ≠ 0)
    (hm : ∀ tr, env.malloc_ok tr = true)
    (hi : ∀ tr, env.common_initialize_rc tr ue_id = RETURNok)
    (hsend : ∀ tr sap, env.emm_sap_send_rc tr sap = RETURNok) :
    ∃ s1 sec1,
      emm_proc_security_mode_control env s ue_id ksi 0 eia ucs2 uea uia gea
        umts_present gprs_present = Except.ok (RETURNok, s1) ∧
      security_of s1 ue_id = some sec1 ∧
      sec1.selected_algorithms.integrity
        = (s.emm_data.conf.prefered_integrity_algorithm 0 : Int) ∧
      sec1.selected_algorithms.encryption = 0 ∧
      emitted s1.trace = emitted s.trace ++
        [security_command (new_security_data ue_id ksi 0 eia ucs2 uea uia gea umts_present
           gprs_present sec1) (some sec1) true,
         emm_sap_t.EMMREG_COMMON_PROC_REQ ue_id (some ue_id)] ∧
      commands_sent s1.trace = commands_sent s.trace + 1 ∧
      (emm_proc_security_mode_complete env s1 ue_id).1 = RETURNok ∧
      emitted (emm_proc_security_mode_complete env s1 ue_id).2.trace
        = emitted s1.trace ++
          [emm_sap_t.EMMREG_COMMON_PROC_CNF ue_id (some ue_id) c.is_attached] ∧
      ¬ timer_armed (emm_proc_security_mode_complete env s1 ue_id).2 ue_id := by
  have hok : RETURNok ≠ RETURNerror := by decide
  obtain ⟨rc, s1, rc_cmd, tev, id, sec1, c1, hstart, htr, hrc, -, htev, -, hctx, hs1, -, -, -,
      hint, henc, -, -, hatt⟩ :=
    first_start_success env s ue_id ksi 0 eia ucs2 uea uia gea umts_present gprs_present c sec
      hue hc hs ht hki hke hm hi (fun tr m => by rw [hsend]; exact hok)
  have hrc' : rc = RETURNok := by rw [hrc, hsend]
  subst hrc'
  have hcomplete := complete_with_security env s1 ue_id c1 sec1 hue hctx hs1
  refine ⟨s1, sec1, hstart, security_of_eq s1 ue_id c1 sec1 hctx hs1, ?_, ?_, ?_, ?_, ?_, ?_, ?_⟩
  · rw [hint]
    exact select_loop_first_match eia _ _ 0 ((capability_bit_eq_true _ _).2 hbit)
      (fun j hj => absurd hj (Fin.not_lt_zero j)) 8 (le_refl 8) (Nat.zero_le _)
  · rw [henc]
    exact select_loop_no_match 0 _ _ (fun i => capability_bit_zero _) 8
  · rw [htr, emitted_append]
    rcases htev with h | h <;> subst h <;> simp [emitted]
  · rw [htr, commands_sent_append]
    rcases htev with h | h <;> subst h <;> simp [commands_sent, security_command]
  · rw [hcomplete]
    exact hsend _ _
  · rw [hcomplete, ← hatt]
    show emitted ((release_args (stop_T3460 s1 ue_id c1).2 ue_id).trace ++ [_]) = _
    rw [emitted_append, emitted_release_stop]
    simp [emitted]
  · rintro ⟨c2, hc2, hne⟩
    rw [hcomplete] at hc2
    have h2 : (emm_sap_send env (release_args (stop_T3460 s1 ue_id c1).2 ue_id)
        (emm_sap_t.EMMREG_COMMON_PROC_CNF ue_id (some ue_id) c1.is_attached)).2.emm_data.ctx ue_id
        = some { c1 with T3460 := { c1.T3460 with id := NAS_TIMER_INACTIVE_ID } } := by
      show (release_args (stop_T3460 s1 ue_id c1).2 ue_id).emm_data.ctx ue_id = _
      rw [(release_args_facts _ ue_id).1, (stop_T3460_facts s1 ue_id c1).2.1]
    rw [h2] at hc2
    cases hc2
    exact hne rfl

/-- C17 at a concrete input: subscriber 1 of the example store, whose integrity
    preference 0 is algorithm 2 (bit 0x20), with UE integrity capabilities 0x60
    and UE ciphering capabilities 0. -/
theorem end_to_end_scenario_witness :
    ∃ s1 sec1,
      emm_proc_security_mode_control example_env example_state 1 5 0 0x60 0 0 0 0 0 0
        = Except.ok (RETURNok, s1) ∧
      security_of s1 1 = some sec1 ∧
      sec1.selected_algorithms.integrity = 2 ∧
      sec1.selected_algorithms.encryption = 0 ∧
      emitted s1.trace = emitted example_state.trace ++
        [security_command (new_security_data 1 5 0 0x60 0 0 0 0 0 0 sec1) (some sec1) true,
         emm_sap_t.EMMREG_COMMON_PROC_REQ 1 (some 1)] ∧
      commands_sent s1.trace = commands_sent example_state.trace + 1 ∧
      (emm_proc_security_mode_complete example_env s1 1).1 = RETURNok ∧
      emitted (emm_proc_security_mode_complete example_env s1 1).2.trace
        = emitted s1.trace ++ [emm_sap_t.EMMREG_COMMON_PROC_CNF 1 (some 1) 0] ∧
      ¬ timer_armed (emm_proc_security_mode_complete example_env s1 1).2 1 :=
  end_to_end_scenario example_env example_state 1 5 0x60 0 0 0 0 0 0
    (example_context (some (example_security emm_ksi_t.EMM_KSI_NOT_AVAILABLE)))
    (example_security emm_ksi_t.EMM_KSI_NOT_AVAILABLE) (by decide) rfl rfl rfl rfl rfl
    (by decide) (fun _ => rfl) (fun _ => rfl) (fun _ _ => rfl)

/-! ## Algorithm selection: totality and independence -/

theorem activate_returned (env : Collaborators) (s : NasState) (ue_id : Nat)
    (ksi eea eia : Int) (c : emm_data_context_t) (sec : emm_security_context_t)
    (rc : Int) (s1 : NasState)
    (h : activate env s ue_id ksi eea eia c sec = Activation.returned rc s1) :
    sec.knas_int.value ≠ none ∨ sec.knas_enc.value ≠ none := by
  by_contra hne
  push_neg at hne
  obtain ⟨hki, hke⟩ := hne
  unfold activate at h
  have hsel : (_security_select_algorithms s.emm_data.conf eia eea).1 ≠ RETURNerror := by
    simp [_security_select_algorithms, RETURNok, RETURNerror]
  simp only [hsel, if_false, hki, hke] at h
  cases h

/-- C18: `_security_select_algorithms` never fails: for all capability masks
    and preference lists it returns `RETURNok`, which differs from
    `RETURNerror`, together with a pair of algorithms; hence the return "Failed
    to select security algorithms" of `emm_proc_security_mode_control` is never
    taken: the first-time activation branch returns early only when a key
    buffer is already present. -/
theorem select_never_fails (conf : emm_conf_t) (ue_eia ue_eea : Int) :
    (∃ mme_eia mme_eea,
      _security_select_algorithms conf ue_eia ue_eea = (RETURNok, mme_eia, mme_eea)) ∧
    (_security_select_algorithms conf ue_eia ue_eea).1 ≠ RETURNerror ∧
    (∀ (env : Collaborators) (s : NasState) (ue_id : Nat) (ksi : Int)
        (c : emm_data_context_t) (sec : emm_security_context_t) (rc : Int) (s1 : NasState),
      s.emm_data.conf = conf →
      activate env s ue_id ksi ue_eea ue_eia c sec = Activation.returned rc s1 →
      sec.knas_int.value ≠ none ∨ sec.knas_enc.value ≠ none) := by
  refine ⟨⟨_, _, rfl⟩, ?_, ?_⟩
  · simp [_security_select_algorithms, RETURNok, RETURNerror]
  · intro env s ue_id ksi c sec rc s1 _ h
    exact activate_returned env s ue_id ksi ue_eea ue_eia c sec rc s1 h

/-- C18 at a concrete input: the selection on masks 0x60 and 0x40 returns
    `RETURNok`, and the activation of subscriber 4 of the example store, which
    returns early, does so because its integrity key buffer is present. -/
theorem select_never_fails_witness :
    (_security_select_algorithms example_conf 0x60 0x40).1 ≠ RETURNerror ∧
    ((example_security_with_keys emm_ksi_t.EMM_KSI_NOT_AVAILABLE).knas_int.value ≠ none ∨
      (example_security_with_keys emm_ksi_t.EMM_KSI_NOT_AVAILABLE).knas_enc.value ≠ none) :=
  ⟨(select_never_fails example_conf 0x60 0x40).2.1,
   (select_never_fails example_conf 0x60 0x40).2.2 example_env example_state 4 5
     (example_context (some (example_security_with_keys emm_ksi_t.EMM_KSI_NOT_AVAILABLE)))
     (example_security_with_keys emm_ksi_t.EMM_KSI_NOT_AVAILABLE) RETURNerror _ rfl rfl⟩

/-- C19: the integrity algorithm that `_security_select_algorithms` returns
    depends only on the UE integrity mask and the integrity preference list,
    and the ciphering algorithm only on the UE ciphering mask and the ciphering
    preference list: two calls that agree on the integrity inputs return the
    same integrity algorithm whatever their ciphering inputs, and
    symmetrically. -/
theorem select_outputs_do_not_interfere (conf conf2 : emm_conf_t)
    (ue_eia ue_eea ue_eia2 ue_eea2 : Int) :
    (conf.prefered_integrity_algorithm = conf2.prefered_integrity_algorithm →
      (_security_select_algorithms conf ue_eia ue_eea).2.1
        = (_security_select_algorithms conf2 ue_eia ue_eea2).2.1) ∧
    (conf.prefered_ciphering_algorithm = conf2.prefered_ciphering_algorithm →
      (_security_select_algorithms conf ue_eia ue_eea).2.2
        = (_security_select_algorithms conf2 ue_eia2 ue_eea).2.2) := by
  constructor
  · intro h
    simp only [_security_select_algorithms, h]
  · intro h
    simp only [_security_select_algorithms, h]

/-- C19 at a concrete input: the example configuration against one with the
    same integrity ranking and another ciphering ranking, with ciphering masks
    0x40 and 0x01 for the integrity output; and the example configuration with
    integrity masks 0x60 and 0x01 for the ciphering output. -/
theorem select_outputs_do_not_interfere_witness :
    (_security_select_algorithms example_conf 0x60 0x40).2.1
      = (_security_select_algorithms example_conf_other 0x60 0x01).2.1 ∧
    (_security_select_algorithms example_conf 0x60 0x40).2.2
      = (_security_select_algorithms example_conf 0x01 0x40).2.2 :=
  ⟨(select_outputs_do_not_interfere example_conf example_conf_other 0x60 0x40 0x01 0x01).1 rfl,
   (select_outputs_do_not_interfere example_conf example_conf 0x60 0x40 0x01 0x01).2 rfl⟩

/-! ## Key buffers already present -/

theorem start_cipher_buffer_present (env : Collaborators) (s : NasState) (ue_id : Nat)
    (ksi eea eia ucs2 uea uia gea umts_present gprs_present : Int)
    (c : emm_data_context_t) (sec : emm_security_context_t)
    (v : List Nat) (hue : 0 < ue_id) (hc : s.emm_data.ctx ue_id = some c)
    (hs : c.security = some sec) (ht : sec.type = emm_ksi_t.EMM_KSI_NOT_AVAILABLE)
    (hki : sec.knas_int.value = none) (hke : sec.knas_enc.value = some v) :
    ∃ s1 sec1,
      emm_proc_security_mode_control env s ue_id ksi eea eia ucs2 uea uia gea
        umts_present gprs_present = Except.ok (RETURNerror, s1) ∧
      security_of s1 ue_id = some sec1 ∧
      sec1.type = emm_ksi_t.EMM_KSI_NATIVE ∧ sec1.eksi = ksi ∧
      sec1.dl_count = { overflow := 0, seq_num := 0 } ∧
      sec1.knas_enc = sec.knas_enc ∧
      s1.trace = s.trace ++
        [Event.derive_key_nas nas_alg_type_t.NAS_INT_ALG
           (_security_select_algorithms s.emm_data.conf eia eea).2.1 c.vector.kasme] ∧
      s1.heap = s.heap ∧ s1.common_args = s.common_args ∧ s1.next_ptr = s.next_ptr := by
  unfold emm_proc_security_mode_control security_mode_control_begin activate
  have hsel : (_security_select_algorithms s.emm_data.conf eia eea).1 ≠ RETURNerror := by
    simp [_security_select_algorithms, RETURNok, RETURNerror]
  simp only [hue, emm_data_context_get, hc, hs, ht, if_true, hsel, if_false, hki, hke]
  refine ⟨_,
    { sec with
      type := emm_ksi_t.EMM_KSI_NATIVE, eksi := ksi,
      dl_count := { overflow := 0, seq_num := 0 },
      kasme := { length := 32, value := some (c.vector.kasme.take 32) },
      knas_int := { length := AUTH_KNAS_INT_SIZE,
                    value := some (env.derive_key_nas nas_alg_type_t.NAS_INT_ALG
                      (_security_select_algorithms s.emm_data.conf eia eea).2.1
                      c.vector.kasme) },
      selected_algorithms :=
        { encryption := (_security_select_algorithms s.emm_data.conf eia eea).2.2,
          integrity := (_security_select_algorithms s.emm_data.conf eia eea).2.1 } },
    rfl, ?_, rfl, rfl, rfl, rfl, ?_, rfl, rfl, rfl⟩
  · simp [security_of, set_ctx, derive_key_nas, record]
  · simp [set_ctx, derive_key_nas, record]

/-- C20: a start call on a NoContext security context that finds an integrity
    key buffer or a cipher key buffer already present returns `RETURNerror`
    without allocating or registering a Procedure State and without emitting any
    event, and nothing is rolled back: the context is left with type
    `EMM_KSI_NATIVE`, `eksi` equal to the `ksi` argument and a zero downlink
    count. -/
theorem start_with_key_buffer_fails_without_rollback (env : Collaborators) (s : NasState)
    (ue_id : Nat) (ksi eea eia ucs2 uea uia gea umts_present gprs_present : Int)
    (c : emm_data_context_t) (sec : emm_security_context_t)
    (hue : 0 < ue_id) (hc : s.emm_data.ctx ue_id = some c) (hs : c.security = some sec)
    (ht : sec.type = emm_ksi_t.EMM_KSI_NOT_AVAILABLE)
    (hkey : sec.knas_int.value ≠ none ∨ sec.knas_enc.value ≠ none) :
    ∃ s1 sec1,
      emm_proc_security_mode_control env s ue_id ksi eea eia ucs2 uea uia gea
        umts_present gprs_present = Except.ok (RETURNerror, s1) ∧
      s1.heap = s.heap ∧ s1.common_args = s.common_args ∧ s1.next_ptr = s.next_ptr ∧
      emitted s1.trace = emitted s.trace ∧
      commands_sent s1.trace = commands_sent s.trace ∧
      security_of s1 ue_id = some sec1 ∧
      sec1.type = emm_ksi_t.EMM_KSI_NATIVE ∧ sec1.eksi = ksi ∧
      sec1.dl_count.overflow = 0 ∧ sec1.dl_count.seq_num = 0 := by
  cases hki : sec.knas_int.value with
  | some v =>
    obtain ⟨s1, sec1, h1, hsec1, ht1, hk1, hdl, -, -, htr, hheap, hargs, -, hnext⟩ :=
      start_integrity_buffer_present env s ue_id ksi eea eia ucs2 uea uia gea umts_present
        gprs_present c sec v hue hc hs ht hki
    exact ⟨s1, sec1, h1, hheap, hargs, hnext, by rw [htr], by rw [htr], hsec1, ht1, hk1,
      by rw [hdl], by rw [hdl]⟩
  | none =>
    obtain ⟨v, hke⟩ : ∃ v, sec.knas_enc.value = some v := by
      rcases hkey with h | h
      · exact absurd hki h
      · exact Option.ne_none_iff_exists'.mp h
    obtain ⟨s1, sec1, h1, hsec1, ht1, hk1, hdl, -, htr, hheap, hargs, hnext⟩ :=
      start_cipher_buffer_present env s ue_id ksi eea eia ucs2 uea uia gea umts_present
        gprs_present c sec v hue hc hs ht hki hke
    refine ⟨s1, sec1, h1, hheap, hargs, hnext, ?_, ?_, hsec1, ht1, hk1,
      by rw [hdl], by rw [hdl]⟩
    · rw [htr, emitted_append]; simp [emitted]
    · rw [htr, commands_sent_append]; simp [commands_sent]

/-- C20 at concrete inputs: subscriber 4 of the example store, NoContext with
    both key buffers allocated. -/
theorem start_with_key_buffer_fails_without_rollback_witness :
    ∃ s1 sec1,
      emm_proc_security_mode_control example_env example_state 4 5 0x40 0x60 0 0 0 0 0 0
        = Except.ok (RETURNerror, s1) ∧
      s1.heap = example_state.heap ∧ s1.common_args = example_state.common_args ∧
      s1.next_ptr = example_state.next_ptr ∧
      emitted s1.trace = emitted example_state.trace ∧
      commands_sent s1.trace = commands_sent example_state.trace ∧
      security_of s1 4 = some sec1 ∧
      sec1.type = emm_ksi_t.EMM_KSI_NATIVE ∧ sec1.eksi = 5 ∧
      sec1.dl_count.overflow = 0 ∧ sec1.dl_count.seq_num = 0 :=
  start_with_key_buffer_fails_without_rollback example_env example_state 4 5 0x40 0x60
    0 0 0 0 0 0
    (example_context (some (example_security_with_keys emm_ksi_t.EMM_KSI_NOT_AVAILABLE)))
    (example_security_with_keys emm_ksi_t.EMM_KSI_NOT_AVAILABLE) (by decide) rfl rfl rfl
    (Or.inl (by decide))

/-! ## Order of the collaborator calls -/

theorem request_emits (env : Collaborators) (s : NasState) (p : Nat) (is_new : Bool)
    (d : security_data_t) (c : emm_data_context_t)
    (hp : s.heap p = HeapCell.live d) (hue : 0 < d.ue_id)
    (hc : s.emm_data.ctx d.ue_id = some c) :
    ∃ rc s', _security_request env s p is_new = Except.ok (rc, s') ∧
      s.trace <+: s'.trace ∧
      emitted s'.trace = emitted s.trace ++ [security_command d c.security is_new] ∧
      s'.heap = s.heap ∧
      Event.emm_sap_send (security_command d c.security is_new) rc ∈ s'.trace ∧
      commands_sent s'.trace = commands_sent s.trace + 1 := by
  by_cases hrc : env.emm_sap_send_rc s.trace (security_command d c.security is_new) = RETURNerror
  · refine ⟨_, _, request_refused env s p is_new d c hp hue hc hrc, ?_, ?_, rfl, ?_, ?_⟩
    · exact List.prefix_append _ _
    · simp [record, emitted_append, emitted]
    · simp [record]
    · simp [record, commands_sent_append, commands_sent, security_command]
  · by_cases harmed : c.T3460.id = NAS_TIMER_INACTIVE_ID
    · refine ⟨_, _, request_accepted_start env s p is_new d c hp hue hc hrc harmed, ?_, ?_, rfl,
        ?_, ?_⟩
      · simp only [set_ctx, record, List.append_assoc]
        exact List.prefix_append _ _
      · simp [set_ctx, record, emitted_append, emitted]
      · simp [set_ctx, record]
      · simp [set_ctx, record, commands_sent_append, commands_sent, security_command]
    · refine ⟨_, _, request_accepted_restart env s p is_new d c hp hue hc hrc harmed, ?_, ?_,
        rfl, ?_, ?_⟩
      · simp only [set_ctx, record, List.append_assoc]
        exact List.prefix_append _ _
      · simp [set_ctx, record, emitted_append, emitted]
      · simp [set_ctx, record]
      · simp [set_ctx, record, commands_sent_append, commands_sent, security_command]

theorem end_trace_prefix (env : Collaborators) (s : NasState) (rc : Int) (is_new : Bool)
    (ue_id : Nat) (ksi eea eia ucs2 uea uia gea umts_present gprs_present : Int)
    (hue : 0 < ue_id) (sec : emm_security_context_t) (hsec : security_of s ue_id = some sec) :
    ∃ rc1 s1, security_mode_control_end env s rc is_new ue_id ksi eea eia ucs2 uea uia gea
        umts_present gprs_present = Except.ok (rc1, s1) ∧
      s.trace <+: s1.trace := by
  obtain ⟨c, hc, hcs⟩ := security_of_some s ue_id sec hsec
  unfold security_mode_control_end MALLOC_CHECK
  by_cases hm : env.malloc_ok s.trace = true
  · simp only [hm, if_true]
    unfold emm_proc_common_initialize
    by_cases hi : env.common_initialize_rc
        (record
          { s with heap := Function.update s.heap s.next_ptr (HeapCell.live fresh_data),
                   next_ptr := s.next_ptr + 1 }
          (Event.MALLOC_CHECK (some s.next_ptr))).trace ue_id = RETURNok
    · simp only [hi, if_true, ne_eq, not_true_eq_false, if_false]
      simp only [record, emm_data_context_get, hc, Option.bind, hcs]
      obtain ⟨r1, s', hreq, hpre, -⟩ := request_emits env
        (set_data
          { emm_data := s.emm_data,
            heap := Function.update s.heap s.next_ptr (HeapCell.live fresh_data),
            next_ptr := s.next_ptr + 1,
            common_args := Function.update s.common_args ue_id (some s.next_ptr),
            timer_next := s.timer_next,
            trace := s.trace ++ [Event.MALLOC_CHECK (some s.next_ptr)] ++
              [Event.emm_proc_common_initialize ue_id s.next_ptr RETURNok] }
          s.next_ptr
          (new_security_data ue_id ksi eea eia ucs2 uea uia gea umts_present gprs_present sec))
        s.next_ptr is_new
        (new_security_data ue_id ksi eea eia ucs2 uea uia gea umts_present gprs_present sec) c
        (by simp [set_data]) hue (by simpa [set_data, new_security_data] using hc)
      rw [hreq]
      have hpre' : s.trace <+: s'.trace := by
        refine List.IsPrefix.trans ?_ hpre
        simp only [set_data, List.append_assoc]
        exact List.prefix_append _ _
      by_cases hr : r1 = RETURNerror
      · simp only [hr, not_true_eq_false, if_false]
        exact ⟨_, _, rfl, hpre'⟩
      · simp only [hr, not_false_eq_true, if_true]
        refine ⟨_, _, rfl, hpre'.trans ?_⟩
        simp only [emm_sap_send, record]
        exact List.prefix_append _ _
    · simp only [hi, if_false, ne_eq, not_false_eq_true, if_true]
      refine ⟨_, _, rfl, ?_⟩
      simp only [FREE_CHECK, record, List.append_assoc]
      exact List.prefix_append _ _
  · simp only [hm]
    exact ⟨_, _, rfl, List.prefix_append _ _⟩

/-- C21: in every first-time activation that runs to its end (NoContext, no key
    buffer present), start calls `derive_key_nas` exactly twice: first with
    (`NAS_INT_ALG`, the selected integrity algorithm, the `kasme` of the vector),
    then with (`NAS_ENC_ALG`, the selected ciphering algorithm, the same
    `kasme`), the algorithms being those `_security_select_algorithms` returned;
    the two calls are the first that start makes, so that every
    `EMMAS_SECURITY_REQ` of the call comes after them. -/
theorem keys_are_derived_after_selection_and_before_command (env : Collaborators)
    (s : NasState) (ue_id : Nat)
    (ksi eea eia ucs2 uea uia gea umts_present gprs_present : Int)
    (c : emm_data_context_t) (sec : emm_security_context_t)
    (hue : 0 < ue_id) (hc : s.emm_data.ctx ue_id = some c) (hs : c.security = some sec)
    (ht : sec.type = emm_ksi_t.EMM_KSI_NOT_AVAILABLE)
    (hki : sec.knas_int.value = none) (hke : sec.knas_enc.value = none) :
    ∃ rc s1 rest sec1,
      emm_proc_security_mode_control env s ue_id ksi eea eia ucs2 uea uia gea
        umts_present gprs_present = Except.ok (rc, s1) ∧
      s1.trace = s.trace ++
        [Event.derive_key_nas nas_alg_type_t.NAS_INT_ALG
           (_security_select_algorithms s.emm_data.conf eia eea).2.1 c.vector.kasme,
         Event.derive_key_nas nas_alg_type_t.NAS_ENC_ALG
           (_security_select_algorithms s.emm_data.conf eia eea).2.2 c.vector.kasme] ++
        rest ∧
      (∀ tag, key_derivations tag rest = 0) ∧
      commands_sent s1.trace = commands_sent s.trace + commands_sent rest ∧
      security_of s1 ue_id = some sec1 ∧
      sec1.selected_algorithms.integrity
        = (_security_select_algorithms s.emm_data.conf eia eea).2.1 ∧
      sec1.selected_algorithms.encryption
        = (_security_select_algorithms s.emm_data.conf eia eea).2.2 := by
  obtain ⟨s0, hbegin, hsec0, htr0, -⟩ :=
    begin_first_activation env s ue_id ksi eea eia c sec hue hc hs ht hki hke
  obtain ⟨rc, s1, hend, hframe, hder⟩ := end_frame env s0 RETURNok true ue_id ksi eea eia ucs2
    uea uia gea umts_present gprs_present hue _ hsec0
  obtain ⟨rc2, s2, hend2, rest, hrest⟩ := end_trace_prefix env s0 RETURNok true ue_id ksi eea
    eia ucs2 uea uia gea umts_present gprs_present hue _ hsec0
  rw [hend] at hend2
  injection hend2 with hend2
  injection hend2 with hrc2 hs2
  subst hrc2 hs2
  refine ⟨rc, s1, rest, _, ?_, ?_, ?_, ?_, (hframe ue_id).trans hsec0, rfl, rfl⟩
  · unfold emm_proc_security_mode_control
    rw [hbegin]
    exact hend
  · rw [← hrest, htr0]
  · intro tag
    have h := hder tag
    rw [← hrest, key_derivations_append] at h
    omega
  · rw [← hrest, htr0, commands_sent_append, commands_sent_append]
    simp [commands_sent]

/-- C21 at a concrete input: subscriber 1 of the example store. -/
theorem keys_are_derived_after_selection_and_before_command_witness :
    ∃ rc s1 rest sec1,
      emm_proc_security_mode_control example_env example_state 1 5 0x40 0x60 0 0 0 0 0 0
        = Except.ok (rc, s1) ∧
      s1.trace = example_state.trace ++
        [Event.derive_key_nas nas_alg_type_t.NAS_INT_ALG
           (_security_select_algorithms example_conf 0x60 0x40).2.1 (List.replicate 32 5),
         Event.derive_key_nas nas_alg_type_t.NAS_ENC_ALG
           (_security_select_algorithms example_conf 0x60 0x40).2.2 (List.replicate 32 5)] ++
        rest ∧
      (∀ tag, key_derivations tag rest = 0) ∧
      commands_sent s1.trace = commands_sent example_state.trace + commands_sent rest ∧
      security_of s1 1 = some sec1 ∧
      sec1.selected_algorithms.integrity
        = (_security_select_algorithms example_conf 0x60 0x40).2.1 ∧
      sec1.selected_algorithms.encryption
        = (_security_select_algorithms example_conf 0x60 0x40).2.2 :=
  keys_are_derived_after_selection_and_before_command example_env example_state 1 5 0x40 0x60
    0 0 0 0 0 0
    (example_context (some (example_security emm_ksi_t.EMM_KSI_NOT_AVAILABLE)))
    (example_security emm_ksi_t.EMM_KSI_NOT_AVAILABLE) (by decide) rfl rfl rfl rfl rfl

/-! ## The Procedure State that start sets up -/

theorem end_reaches_request (env : Collaborators) (s : NasState) (rc : Int) (is_new : Bool)
    (ue_id : Nat) (ksi eea eia ucs2 uea uia gea umts_present gprs_present : Int)
    (c : emm_data_context_t) (sec : emm_security_context_t)
    (hue : 0 < ue_id) (hc : s.emm_data.ctx ue_id = some c) (hs : c.security = some sec)
    (hm : env.malloc_ok s.trace = true)
    (hi : env.common_initialize_rc (s.trace ++ [Event.MALLOC_CHECK (some s.next_ptr)]) ue_id
      = RETURNok) :
    ∃ rc1 s1 rc_cmd,
      security_mode_control_end env s rc is_new ue_id ksi eea eia ucs2 uea uia gea
        umts_present gprs_present = Except.ok (rc1, s1) ∧
      s1.heap s.next_ptr = HeapCell.live (new_security_data ue_id ksi eea eia ucs2 uea uia gea
        umts_present gprs_present sec) ∧
      Event.emm_sap_send (security_command (new_security_data ue_id ksi eea eia ucs2 uea uia
        gea umts_present gprs_present sec) (some sec) is_new) rc_cmd ∈ s1.trace ∧
      commands_sent s1.trace = commands_sent s.trace + 1 := by
  by_cases hsend : env.emm_sap_send_rc
      (s.trace ++ [Event.MALLOC_CHECK (some s.next_ptr)] ++
        [Event.emm_proc_common_initialize ue_id s.next_ptr RETURNok])
      (security_command (new_security_data ue_id ksi eea eia ucs2 uea uia gea umts_present
        gprs_present sec) (some sec) is_new) = RETURNerror
  · obtain ⟨s1, hend, htr, -, hheap, -⟩ := end_command_refused env s rc is_new ue_id ksi eea
      eia ucs2 uea uia gea umts_present gprs_present c sec hue hc hs hm hi hsend
    refine ⟨_, s1, RETURNerror, hend, hheap, ?_, ?_⟩
    · rw [htr]; simp
    · rw [htr, commands_sent_append]
      simp [commands_sent, security_command]
  · obtain ⟨rc1, s1, rc_cmd, tev, id, hend, htr, -, htev, -, -, hheap, -⟩ :=
      end_success env s rc is_new ue_id ksi eea eia ucs2 uea uia gea umts_present gprs_present
        c sec hue hc hs hm hi hsend
    refine ⟨rc1, s1, rc_cmd, hend, hheap, ?_, ?_⟩
    · rw [htr]; simp
    · rw [htr, commands_sent_append]
      rcases htev with h | h <;> subst h <;> simp [commands_sent, security_command]

/-- C22: for every start call that reaches the Request step (the first part
    falls through, allocation and registration succeed), the Procedure State it
    created has `ue_id`, `ksi`, `eea`, `eia`, `ucs2`, `uea`, `uia` and `gea` equal
    to the arguments, `retransmission_count = 0`, `notify_failure = false` and
    `selected_eea`, `selected_eia` equal to the selected algorithms of the
    context at that moment; the one command of the call is built with
    `is_new = true` exactly when the context was NoContext on entry. -/
theorem start_sets_up_procedure_state (env : Collaborators) (s : NasState) (ue_id : Nat)
    (ksi eea eia ucs2 uea uia gea umts_present gprs_present : Int)
    (c : emm_data_context_t) (sec : emm_security_context_t)
    (hue : 0 < ue_id) (hc : s.emm_data.ctx ue_id = some c) (hs : c.security = some sec)
    (hreach : sec.type = emm_ksi_t.EMM_KSI_NOT_AVAILABLE →
      sec.knas_int.value = none ∧ sec.knas_enc.value = none)
    (hm : ∀ tr, env.malloc_ok tr = true)
    (hi : ∀ tr, env.common_initialize_rc tr ue_id = RETURNok) :
    ∃ rc s1 d sec1 rc_cmd,
      emm_proc_security_mode_control env s ue_id ksi eea eia ucs2 uea uia gea
        umts_present gprs_present = Except.ok (rc, s1) ∧
      s1.heap s.next_ptr = HeapCell.live d ∧
      security_of s1 ue_id = some sec1 ∧
      d.ue_id = ue_id ∧ d.ksi = ksi ∧ d.eea = eea ∧ d.eia = eia ∧ d.ucs2 = ucs2 ∧
      d.uea = uea ∧ d.uia = uia ∧ d.gea = gea ∧
      d.retransmission_count = 0 ∧ d.notify_failure = false ∧
      d.selected_eea = sec1.selected_algorithms.encryption ∧
      d.selected_eia = sec1.selected_algorithms.integrity ∧
      Event.emm_sap_send
        (security_command d (some sec1)
          (decide (sec.type = emm_ksi_t.EMM_KSI_NOT_AVAILABLE))) rc_cmd ∈ s1.trace ∧
      commands_sent s1.trace = commands_sent s.trace + 1 := by
  by_cases ht : sec.type = emm_ksi_t.EMM_KSI_NOT_AVAILABLE
  · obtain ⟨hki, hke⟩ := hreach ht
    obtain ⟨s0, hbegin, hsec0, htr0, -, -, hnext0, -, hc0⟩ :=
      begin_first_activation env s ue_id ksi eea eia c sec hue hc hs ht hki hke
    rw [hsec0] at hc0
    obtain ⟨rc1, s1, rc_cmd, hend, hheap, hmem, hsent⟩ :=
      end_reaches_request env s0 RETURNok true ue_id ksi eea eia ucs2 uea uia gea umts_present
        gprs_present _ _ hue hc0 rfl (hm _) (hi _)
    obtain ⟨rc2, s2, hend2, hframe, -⟩ := end_frame env s0 RETURNok true ue_id ksi eea eia
      ucs2 uea uia gea umts_present gprs_present hue _ hsec0
    rw [hend] at hend2
    injection hend2 with hend2
    injection hend2 with hrc2 hs2
    subst hrc2 hs2
    rw [hnext0] at hheap
    refine ⟨rc1, s1, _, _, rc_cmd, ?_, hheap, (hframe ue_id).trans hsec0, rfl, rfl, rfl, rfl,
      rfl, rfl, rfl, rfl, rfl, rfl, rfl, rfl, ?_, ?_⟩
    · unfold emm_proc_security_mode_control
      rw [hbegin]
      exact hend
    · simpa [ht] using hmem
    · rw [hsent, htr0, commands_sent_append]
      simp [commands_sent]
  · have htn : sec.type = emm_ksi_t.EMM_KSI_NATIVE := by
      cases hty : sec.type with
      | EMM_KSI_NOT_AVAILABLE => exact absurd hty ht
      | EMM_KSI_NATIVE => rfl
    obtain ⟨rc1, s1, rc_cmd, hend, hheap, hmem, hsent⟩ :=
      end_reaches_request env s RETURNerror false ue_id ksi eea eia ucs2 uea uia gea
        umts_present gprs_present c sec hue hc hs (hm _) (hi _)
    obtain ⟨rc2, s2, hend2, hframe, -⟩ := end_frame env s RETURNerror false ue_id ksi eea eia
      ucs2 uea uia gea umts_present gprs_present hue sec (security_of_eq s ue_id c sec hc hs)
    rw [hend] at hend2
    injection hend2 with hend2
    injection hend2 with hrc2 hs2
    subst hrc2 hs2
    refine ⟨rc1, s1, _, sec, rc_cmd, ?_, hheap,
      (hframe ue_id).trans (security_of_eq s ue_id c sec hc hs), rfl, rfl, rfl, rfl,
      rfl, rfl, rfl, rfl, rfl, rfl, rfl, rfl, ?_, hsent⟩
    · unfold emm_proc_security_mode_control
      rw [begin_native env s ue_id ksi eea eia c sec hue hc hs htn]
      exact hend
    · simpa [ht] using hmem

/-- C22 at concrete inputs: subscriber 1 of the example store (NoContext, command
    built with `is_new = true`) and subscriber 3 (Native, `is_new = false`). -/
theorem start_sets_up_procedure_state_witness :
    (∃ rc s1 d sec1 rc_cmd,
      emm_proc_security_mode_control example_env example_state 1 5 0x40 0x60 1 2 3 4 0 0
        = Except.ok (rc, s1) ∧
      s1.heap example_state.next_ptr = HeapCell.live d ∧
      security_of s1 1 = some sec1 ∧
      d.ue_id = 1 ∧ d.ksi = 5 ∧ d.eea = 0x40 ∧ d.eia = 0x60 ∧ d.ucs2 = 1 ∧
      d.uea = 2 ∧ d.uia = 3 ∧ d.gea = 4 ∧
      d.retransmission_count = 0 ∧ d.notify_failure = false ∧
      d.selected_eea = sec1.selected_algorithms.encryption ∧
      d.selected_eia = sec1.selected_algorithms.integrity ∧
      Event.emm_sap_send (security_command d (some sec1) true) rc_cmd ∈ s1.trace ∧
      commands_sent s1.trace = commands_sent example_state.trace + 1) ∧
    (∃ rc s1 d sec1 rc_cmd,
      emm_proc_security_mode_control example_env example_state 3 5 0x40 0x60 1 2 3 4 0 0
        = Except.ok (rc, s1) ∧
      s1.heap example_state.next_ptr = HeapCell.live d ∧
      security_of s1 3 = some sec1 ∧
      d.ue_id = 3 ∧ d.ksi = 5 ∧ d.eea = 0x40 ∧ d.eia = 0x60 ∧ d.ucs2 = 1 ∧
      d.uea = 2 ∧ d.uia = 3 ∧ d.gea = 4 ∧
      d.retransmission_count = 0 ∧ d.notify_failure = false ∧
      d.selected_eea = sec1.selected_algorithms.encryption ∧
      d.selected_eia = sec1.selected_algorithms.integrity ∧
      Event.emm_sap_send (security_command d (some sec1) false) rc_cmd ∈ s1.trace ∧
      commands_sent s1.trace = commands_sent example_state.trace + 1) :=
  ⟨start_sets_up_procedure_state example_env example_state 1 5 0x40 0x60 1 2 3 4 0 0
     (example_context (some (example_security emm_ksi_t.EMM_KSI_NOT_AVAILABLE)))
     (example_security emm_ksi_t.EMM_KSI_NOT_AVAILABLE) (by decide) rfl rfl
     (fun _ => ⟨rfl, rfl⟩) (fun _ => rfl) (fun _ => rfl),
   start_sets_up_procedure_state example_env example_state 3 5 0x40 0x60 1 2 3 4 0 0
     (example_context (some (example_security emm_ksi_t.EMM_KSI_NATIVE)))
     (example_security emm_ksi_t.EMM_KSI_NATIVE) (by decide) rfl rfl
     (fun h => absurd h (by decide)) (fun _ => rfl) (fun _ => rfl)⟩

/-! ## The Request step -/

/-- C23: for a Procedure State whose subscriber has a context, and for either
    value of `is_new`, `_security_request` emits exactly one event, an
    `EMMAS_SECURITY_REQ` whose `ue_id`, `ksi`, `eea`, `eia`, `ucs2`, `uea`, `uia`,
    `gea`, presence flags, `selected_eea` and `selected_eia` are the fields of
    the Procedure State and whose snapshot is built from the security context
    of the subscriber with the given `is_new`; it leaves every Procedure State
    as it was, and the command does not depend on `retransmission_count`, so
    that a retransmission carries the values of the initial command. -/
theorem request_emits_one_command (env : Collaborators) (s : NasState) (p : Nat)
    (is_new : Bool) (d : security_data_t) (c : emm_data_context_t)
    (hp : s.heap p = HeapCell.live d) (hue : 0 < d.ue_id)
    (hc : s.emm_data.ctx d.ue_id = some c) :
    ∃ rc s1,
      _security_request env s p is_new = Except.ok (rc, s1) ∧
      emitted s1.trace = emitted s.trace ++
        [emm_sap_t.EMMAS_SECURITY_REQ
          { ue_id := d.ue_id, ksi := d.ksi, eea := d.eea, eia := d.eia, ucs2 := d.ucs2,
            uea := d.uea, uia := d.uia, gea := d.gea, umts_present := d.umts_present,
            gprs_present := d.gprs_present, selected_eea := d.selected_eea,
            selected_eia := d.selected_eia,
            sctx := { security := c.security, is_new := is_new, is_ciphered := false } }] ∧
      commands_sent s1.trace = commands_sent s.trace + 1 ∧
      s1.heap = s.heap ∧
      (∀ n, security_command { d with retransmission_count := n } c.security is_new
        = security_command d c.security is_new) := by
  obtain ⟨rc, s1, hreq, -, hemit, hheap, -, hsent⟩ := request_emits env s p is_new d c hp hue hc
  exact ⟨rc, s1, hreq, hemit, hsent, hheap, fun _ => rfl⟩

/-- C23 at a concrete input: the Procedure State 0 of the example store after a
    first start, retransmitted with `is_new = false`. -/
theorem request_emits_one_command_witness :
    ∃ rc s1,
      _security_request example_env example_pending 0 false = Except.ok (rc, s1) ∧
      emitted s1.trace = emitted example_pending.trace ++
        [emm_sap_t.EMMAS_SECURITY_REQ
          { ue_id := 1, ksi := 5, eea := 0x40, eia := 0x60, ucs2 := 0,
            uea := 0, uia := 0, gea := 0, umts_present := 0,
            gprs_present := 0, selected_eea := 1, selected_eia := 2,
            sctx := { security := example_pending_context.security, is_new := false,
                      is_ciphered := false } }] ∧
      commands_sent s1.trace = commands_sent example_pending.trace + 1 ∧
      s1.heap = example_pending.heap ∧
      (∀ n, security_command { example_data with retransmission_count := n }
          example_pending_context.security false
        = security_command example_data example_pending_context.security false) :=
  request_emits_one_command example_env example_pending 0 false example_data
    example_pending_context rfl (by decide) rfl

/-- C24: for a Procedure State whose subscriber has a context, when the send of
    `_security_request` is accepted and T3460 is inactive the timer is started
    with the T3460 duration of the context and this Procedure State as handler
    argument; when the send is accepted and T3460 is armed the timer is
    restarted and no timer is started; when the send returns `RETURNerror` no
    timer call is made, the contexts are left as they were and `RETURNerror` is
    returned. -/
theorem request_starts_or_restarts_timer (env : Collaborators) (s : NasState) (p : Nat)
    (is_new : Bool) (d : security_data_t) (c : emm_data_context_t)
    (hp : s.heap p = HeapCell.live d) (hue : 0 < d.ue_id)
    (hc : s.emm_data.ctx d.ue_id = some c) :
    (env.emm_sap_send_rc s.trace (security_command d c.security is_new) ≠ RETURNerror →
      c.T3460.id = NAS_TIMER_INACTIVE_ID →
      ∃ s1 id,
        _security_request env s p is_new = Except.ok
          (env.emm_sap_send_rc s.trace (security_command d c.security is_new), s1) ∧
        s1.trace = s.trace ++
          [Event.emm_sap_send (security_command d c.security is_new)
             (env.emm_sap_send_rc s.trace (security_command d c.security is_new)),
           Event.nas_timer_start c.T3460.sec p id] ∧
        id ≠ NAS_TIMER_INACTIVE_ID ∧
        s1.emm_data.ctx d.ue_id = some { c with T3460 := { c.T3460 with id := id } }) ∧
    (env.emm_sap_send_rc s.trace (security_command d c.security is_new) ≠ RETURNerror →
      c.T3460.id ≠ NAS_TIMER_INACTIVE_ID →
      ∃ s1 id,
        _security_request env s p is_new = Except.ok
          (env.emm_sap_send_rc s.trace (security_command d c.security is_new), s1) ∧
        s1.trace = s.trace ++
          [Event.emm_sap_send (security_command d c.security is_new)
             (env.emm_sap_send_rc s.trace (security_command d c.security is_new)),
           Event.nas_timer_restart c.T3460.id id] ∧
        id ≠ NAS_TIMER_INACTIVE_ID ∧
        s1.emm_data.ctx d.ue_id = some { c with T3460 := { c.T3460 with id := id } }) ∧
    (env.emm_sap_send_rc s.trace (security_command d c.security is_new) = RETURNerror →
      ∃ s1,
        _security_request env s p is_new = Except.ok (RETURNerror, s1) ∧
        s1.trace = s.trace ++
          [Event.emm_sap_send (security_command d c.security is_new) RETURNerror] ∧
        s1.emm_data = s.emm_data) := by
  refine ⟨?_, ?_, ?_⟩
  · intro hrc hidle
    refine ⟨_, (s.timer_next : Int),
      request_accepted_start env s p is_new d c hp hue hc hrc hidle, ?_, ?_, ?_⟩
    · simp [set_ctx, record]
    · simp [NAS_TIMER_INACTIVE_ID]
    · simp [set_ctx, record]
  · intro hrc harmed
    refine ⟨_, c.T3460.id,
      request_accepted_restart env s p is_new d c hp hue hc hrc harmed, ?_, harmed, ?_⟩
    · simp [set_ctx, record]
    · simp [set_ctx, record]
  · intro hrc
    exact ⟨_, request_refused env s p is_new d c hp hue hc hrc, by simp [record], rfl⟩

/-- C24 at concrete inputs: the Procedure State 0 of the example store after a
    first start, whose T3460 is armed, with an accepting and with a refusing
    lower layer. -/
theorem request_starts_or_restarts_timer_witness :
    (∃ s1 id,
      _security_request example_env example_pending 0 false = Except.ok
        (example_env.emm_sap_send_rc example_pending.trace
          (security_command example_data example_pending_context.security false), s1) ∧
      s1.trace = example_pending.trace ++
        [Event.emm_sap_send
           (security_command example_data example_pending_context.security false)
           (example_env.emm_sap_send_rc example_pending.trace
             (security_command example_data example_pending_context.security false)),
         Event.nas_timer_restart example_pending_context.T3460.id id] ∧
      id ≠ NAS_TIMER_INACTIVE_ID ∧
      s1.emm_data.ctx example_data.ue_id
        = some { example_pending_context with
                 T3460 := { example_pending_context.T3460 with id := id } }) ∧
    (∃ s1,
      _security_request refusing_env example_pending 0 false = Except.ok (RETURNerror, s1) ∧
      s1.trace = example_pending.trace ++
        [Event.emm_sap_send
           (security_command example_data example_pending_context.security false)
           RETURNerror] ∧
      s1.emm_data = example_pending.emm_data) :=
  ⟨(request_starts_or_restarts_timer example_env example_pending 0 false example_data
      example_pending_context rfl (by decide) rfl).2.1 (by decide) (by decide),
   (request_starts_or_restarts_timer refusing_env example_pending 0 false example_data
      example_pending_context rfl (by decide) rfl).2.2 rfl⟩

/-! ## One expiry of T3460, in general -/

theorem abort_frame (env : Collaborators) (s : NasState) (p : Nat)
    (d : security_data_t) (c : emm_data_context_t)
    (hp : s.heap p = HeapCell.live d) (hue : 0 < d.ue_id)
    (hc : s.emm_data.ctx d.ue_id = some c) :
    ∃ rc s1, _security_abort env s (some p) = Except.ok (rc, s1) ∧
      (∀ u, security_of s1 u = security_of s u) ∧
      (∀ tag, key_derivations tag s1.trace = key_derivations tag s.trace) ∧
      s1.heap p = HeapCell.freed ∧
      releases p s1.trace = releases p s.trace + 1 ∧
      commands_sent s1.trace = commands_sent s.trace ∧
      emitted s1.trace = emitted s.trace ++
        (if d.notify_failure then [emm_sap_t.EMMREG_COMMON_PROC_REJ d.ue_id none] else []) := by
  unfold _security_abort
  simp only [hp, hue, if_true, emm_data_context_get, hc]
  by_cases harmed : c.T3460.id = NAS_TIMER_INACTIVE_ID <;>
  by_cases hn : d.notify_failure = true
  all_goals
    simp only [harmed, hn, ne_eq, not_true_eq_false, not_false_eq_true, if_true, if_false]
    refine ⟨_, _, rfl, ?_, ?_, ?_, ?_, ?_, ?_⟩
    · intro u
      by_cases hu : u = d.ue_id
      · subst hu
        simp [security_of, emm_sap_send, FREE_CHECK, record, set_ctx, nas_timer_stop, hc]
      · simp [security_of, emm_sap_send, FREE_CHECK, record, set_ctx, nas_timer_stop,
          Function.update, hu]
    · intro tag
      simp [key_derivations, emm_sap_send, FREE_CHECK, record, set_ctx, nas_timer_stop]
    · simp [emm_sap_send, FREE_CHECK, record, set_ctx, nas_timer_stop]
    · simp [releases, emm_sap_send, FREE_CHECK, record, set_ctx, nas_timer_stop]
    · simp [commands_sent, emm_sap_send, FREE_CHECK, record, set_ctx, nas_timer_stop]
    · simp [emitted, emm_sap_send, FREE_CHECK, record, set_ctx, nas_timer_stop]

theorem handler_cases (env : Collaborators) (s : NasState) (p : Nat)
    (d : security_data_t) (c : emm_data_context_t)
    (hp : s.heap p = HeapCell.live d) (hue : 0 < d.ue_id)
    (hc : s.emm_data.ctx d.ue_id = some c) :
    ((d.retransmission_count + 1) % 4294967296 < SECURITY_COUNTER_MAX →
      ∃ rc s1,
        _security_request env
          (set_data s p
            { d with retransmission_count := (d.retransmission_count + 1) % 4294967296 })
          p false = Except.ok (rc, s1) ∧
        _security_t3460_handler env s p = Except.ok s1 ∧
        s1.heap p = HeapCell.live
          { d with retransmission_count := (d.retransmission_count + 1) % 4294967296 } ∧
        (∀ u, security_of s1 u = security_of s u) ∧
        (∀ tag, key_derivations tag s1.trace = key_derivations tag s.trace) ∧
        emitted s1.trace = emitted s.trace ++ [security_command d c.security false]) ∧
    (¬ (d.retransmission_count + 1) % 4294967296 < SECURITY_COUNTER_MAX →
      ∃ rc s1,
        _security_abort env
          (set_data s p
            { d with retransmission_count := (d.retransmission_count + 1) % 4294967296,
                     notify_failure := true })
          (some p) = Except.ok (rc, s1) ∧
        _security_t3460_handler env s p = Except.ok s1 ∧
        s1.heap p = HeapCell.freed ∧
        (∀ u, security_of s1 u = security_of s u) ∧
        (∀ tag, key_derivations tag s1.trace = key_derivations tag s.trace) ∧
        emitted s1.trace
          = emitted s.trace ++ [emm_sap_t.EMMREG_COMMON_PROC_REJ d.ue_id none] ∧
        releases p s1.trace = releases p s.trace + 1 ∧
        commands_sent s1.trace = commands_sent s.trace) := by
  constructor
  · intro hlt
    obtain ⟨rc, s1, hreq, hsec, hheap, -, hkd⟩ := request_frame env
      (set_data s p
        { d with retransmission_count := (d.retransmission_count + 1) % 4294967296 })
      p false { d with retransmission_count := (d.retransmission_count + 1) % 4294967296 } c
      (by simp [set_data]) hue (by simpa [set_data] using hc)
    obtain ⟨rc2, s2, hreq2, -, hemit, -, -, -⟩ := request_emits env
      (set_data s p
        { d with retransmission_count := (d.retransmission_count + 1) % 4294967296 })
      p false { d with retransmission_count := (d.retransmission_count + 1) % 4294967296 } c
      (by simp [set_data]) hue (by simpa [set_data] using hc)
    rw [hreq] at hreq2
    injection hreq2 with hreq2
    injection hreq2 with hrc hst
    subst hrc hst
    refine ⟨rc, s1, hreq, ?_, ?_, ?_, ?_, ?_⟩
    · unfold _security_t3460_handler
      simp only [hp, hlt, if_true, hreq]
    · rw [hheap]; simp [set_data]
    · intro u; rw [hsec u]; simp [security_of, set_data]
    · intro tag; rw [hkd tag]; simp [set_data]
    · rw [hemit]; simp [set_data, security_command]
  · intro hge
    obtain ⟨rc, s1, habort, hsec, hkd, hheap, hrel, hsent, hemit⟩ := abort_frame env
      (set_data s p
        { d with retransmission_count := (d.retransmission_count + 1) % 4294967296,
                 notify_failure := true })
      p { d with retransmission_count := (d.retransmission_count + 1) % 4294967296,
                 notify_failure := true } c
      (by simp [set_data]) hue (by simpa [set_data] using hc)
    refine ⟨rc, s1, habort, ?_, hheap, ?_, ?_, ?_, ?_, ?_⟩
    · unfold _security_t3460_handler
      simp only [hp, hge, if_false, habort]
    · intro u; rw [hsec u]; simp [security_of, set_data]
    · intro tag; rw [hkd tag]; simp [set_data]
    · rw [hemit]; simp [set_data]
    · rw [hrel]; simp [set_data]
    · rw [hsent]; simp [set_data]

/-- C25: for every Procedure State with `retransmission_count` = n, n below the
    largest `unsigned int`, whose subscriber has a context, one expiry of T3460
    sets `retransmission_count` to n + 1 and then: if n + 1 < 5 the expiry is the
    call of `_security_request` with `is_new = false` on the updated Procedure
    State, which derives no key, leaves every security context as it was, leaves
    `notify_failure` unchanged and emits the command again; otherwise
    `notify_failure` is set and the expiry is the call of `_security_abort` on
    that Procedure State, which releases it and emits `EMMREG_COMMON_PROC_REJ`. -/
theorem expiry_retransmits_or_aborts (env : Collaborators) (s : NasState) (p : Nat)
    (d : security_data_t) (c : emm_data_context_t)
    (hp : s.heap p = HeapCell.live d) (hue : 0 < d.ue_id)
    (hc : s.emm_data.ctx d.ue_id = some c)
    (hn : d.retransmission_count < 4294967295) :
    (d.retransmission_count + 1 < SECURITY_COUNTER_MAX →
      ∃ rc s1,
        _security_request env
          (set_data s p { d with retransmission_count := d.retransmission_count + 1 })
          p false = Except.ok (rc, s1) ∧
        _security_t3460_handler env s p = Except.ok s1 ∧
        s1.heap p = HeapCell.live
          { d with retransmission_count := d.retransmission_count + 1 } ∧
        (∀ u, security_of s1 u = security_of s u) ∧
        (∀ tag, key_derivations tag s1.trace = key_derivations tag s.trace) ∧
        emitted s1.trace = emitted s.trace ++ [security_command d c.security false]) ∧
    (¬ d.retransmission_count + 1 < SECURITY_COUNTER_MAX →
      ∃ rc s1,
        _security_abort env
          (set_data s p
            { d with retransmission_count := d.retransmission_count + 1,
                     notify_failure := true })
          (some p) = Except.ok (rc, s1) ∧
        _security_t3460_handler env s p = Except.ok s1 ∧
        s1.heap p = HeapCell.freed ∧
        (∀ u, security_of s1 u = security_of s u) ∧
        (∀ tag, key_derivations tag s1.trace = key_derivations tag s.trace) ∧
        emitted s1.trace
          = emitted s.trace ++ [emm_sap_t.EMMREG_COMMON_PROC_REJ d.ue_id none] ∧
        releases p s1.trace = releases p s.trace + 1 ∧
        commands_sent s1.trace = commands_sent s.trace) := by
  have hmod : (d.retransmission_count + 1) % 4294967296 = d.retransmission_count + 1 := by
    omega
  have h := handler_cases env s p d c hp hue hc
  rw [hmod] at h
  exact h

/-- C25 at concrete inputs: the first expiry for the Procedure State of
    `example_pending` retransmits, the expiry at count 4 aborts. -/
theorem expiry_retransmits_or_aborts_witness :
    (∃ rc s1,
      _security_request example_env
        (set_data example_pending 0 { example_data with retransmission_count := 1 })
        0 false = Except.ok (rc, s1) ∧
      _security_t3460_handler example_env example_pending 0 = Except.ok s1 ∧
      s1.heap 0 = HeapCell.live { example_data with retransmission_count := 1 } ∧
      (∀ u, security_of s1 u = security_of example_pending u) ∧
      (∀ tag, key_derivations tag s1.trace = key_derivations tag example_pending.trace) ∧
      emitted s1.trace = emitted example_pending.trace ++
        [security_command example_data example_pending_context.security false]) ∧
    (∃ rc s1,
      _security_abort example_env
        (set_data example_pending_at_four 0
          { example_data with retransmission_count := 5, notify_failure := true })
        (some 0) = Except.ok (rc, s1) ∧
      _security_t3460_handler example_env example_pending_at_four 0 = Except.ok s1 ∧
      s1.heap 0 = HeapCell.freed ∧
      (∀ u, security_of s1 u = security_of example_pending_at_four u) ∧
      (∀ tag, key_derivations tag s1.trace
        = key_derivations tag example_pending_at_four.trace) ∧
      emitted s1.trace = emitted example_pending_at_four.trace ++
        [emm_sap_t.EMMREG_COMMON_PROC_REJ 1 none] ∧
      releases 0 s1.trace = releases 0 example_pending_at_four.trace + 1 ∧
      commands_sent s1.trace = commands_sent example_pending_at_four.trace) :=
  ⟨(expiry_retransmits_or_aborts example_env example_pending 0 example_data
      example_pending_context rfl (by decide) rfl (by decide)).1 (by decide),
   (expiry_retransmits_or_aborts example_env example_pending_at_four 0
      { example_data with retransmission_count := 4 } example_pending_context
      rfl (by decide) rfl (by decide)).2 (by decide)⟩

/-! ## The bit tested by the selector -/

theorem land_two_pow_ne_zero (m : Int) (k : Nat) :
    Int.land m ((2 ^ k : Nat) : Int) ≠ 0 ↔ Int.testBit m k = true := by
  cases m with
  | ofNat n =>
    show ((n &&& 2 ^ k : Nat) : Int) ≠ 0 ↔ n.testBit k = true
    rw [Nat.and_two_pow]
    cases n.testBit k <;> simp
  | negSucc n =>
    show ((Nat.ldiff (2 ^ k) n : Nat) : Int) ≠ 0 ↔ (!n.testBit k) = true
    constructor
    · intro h
      have h0 : Nat.ldiff (2 ^ k) n ≠ 0 := by exact_mod_cast h
      obtain ⟨i, hi⟩ := Nat.ne_zero_implies_bit_true h0
      rw [Nat.testBit_ldiff, Nat.testBit_two_pow] at hi
      simp only [Bool.and_eq_true, decide_eq_true_eq] at hi
      obtain ⟨hki, hn⟩ := hi
      subst hki
      exact hn
    · intro h
      have hb : (Nat.ldiff (2 ^ k) n).testBit k = true := by
        rw [Nat.testBit_ldiff, Nat.testBit_two_pow]
        simpa using h
      intro h0
      have h1 : Nat.ldiff (2 ^ k) n = 0 := by exact_mod_cast h0
      rw [h1] at hb
      simp at hb

theorem shift_eq_two_pow (id : Nat) (h : id ≤ 7) : 0x80 >>> id = 2 ^ (7 - id) := by
  interval_cases id <;> rfl

theorem capability_bit_eq_testBit (mask : Int) (id : Nat) (h : id ≤ 7) :
    capability_bit mask id = Int.testBit mask (7 - id) := by
  cases hb : Int.testBit mask (7 - id)
  · rw [capability_bit_eq_false, shift_eq_two_pow id h]
    by_contra hne
    rw [(land_two_pow_ne_zero mask (7 - id)).mp hne] at hb
    exact Bool.noConfusion hb
  · rw [capability_bit_eq_true, shift_eq_two_pow id h]
    exact (land_two_pow_ne_zero mask (7 - id)).mpr hb

theorem select_loop_congr (ue ue' : Int) (preference : Fin 8 → Nat) (out : Int)
    (h : ∀ i : Fin 8, capability_bit ue (preference i) = capability_bit ue' (preference i))
    (fuel : Nat) :
    select_loop ue preference out fuel = select_loop ue' preference out fuel := by
  induction fuel with
  | zero => rfl
  | succ n ih =>
    unfold select_loop
    split
    · rw [h, ih]
    · rfl

/-- C26: for every algorithm id in 0..7 and every capability mask, the test of
    the selector, `(mask & (0x80 >> id)) != 0`, holds exactly when bit `7 - id` of
    the mask is set; algorithm id 0 is tested against bit 7 (`0x80 >> 0` is 0x80)
    and id 7 against bit 0 (`0x80 >> 7` is 1); a mask that agrees with this one on
    bits 0..7 gives the same test, and, when every configured preference is in
    0..7, masks that agree on bits 0..7 select the same algorithms. -/
theorem selector_tests_bit_seven_minus_id (mask : Int) (id : Nat) (h : id ≤ 7) :
    (capability_bit mask id = true ↔ Int.land mask (((0x80 >>> id : Nat) : Int)) ≠ 0) ∧
    (Int.land mask (((0x80 >>> id : Nat) : Int)) ≠ 0 ↔ Int.testBit mask (7 - id) = true) ∧
    capability_bit mask id = Int.testBit mask (7 - id) ∧
    (0x80 >>> 0 = 0x80 ∧ capability_bit mask 0 = Int.testBit mask 7) ∧
    (0x80 >>> 7 = 1 ∧ capability_bit mask 7 = Int.testBit mask 0) ∧
    (∀ mask' : Int, (∀ j, j ≤ 7 → Int.testBit mask' j = Int.testBit mask j) →
      capability_bit mask' id = capability_bit mask id) ∧
    (∀ (conf : emm_conf_t) (eea mask' eea' : Int),
      (∀ i, conf.prefered_integrity_algorithm i ≤ 7) →
      (∀ i, conf.prefered_ciphering_algorithm i ≤ 7) →
      (∀ j, j ≤ 7 → Int.testBit mask' j = Int.testBit mask j) →
      (∀ j, j ≤ 7 → Int.testBit eea' j = Int.testBit eea j) →
      _security_select_algorithms conf mask' eea' = _security_select_algorithms conf mask eea) := by
  refine ⟨capability_bit_eq_true mask id, ?_, capability_bit_eq_testBit mask id h,
    ⟨rfl, capability_bit_eq_testBit mask 0 (by omega)⟩,
    ⟨rfl, capability_bit_eq_testBit mask 7 (by omega)⟩, ?_, ?_⟩
  · rw [← capability_bit_eq_true, capability_bit_eq_testBit mask id h]
  · intro mask' hagree
    rw [capability_bit_eq_testBit mask' id h, capability_bit_eq_testBit mask id h]
    exact hagree _ (by omega)
  · intro conf eea mask' eea' hpi hpc hm he
    unfold _security_select_algorithms
    rw [select_loop_congr mask' mask conf.prefered_integrity_algorithm _ (fun i => by
        rw [capability_bit_eq_testBit mask' _ (hpi i), capability_bit_eq_testBit mask _ (hpi i)]
        exact hm _ (by omega)) 8,
      select_loop_congr eea' eea conf.prefered_ciphering_algorithm _ (fun i => by
        rw [capability_bit_eq_testBit eea' _ (hpc i), capability_bit_eq_testBit eea _ (hpc i)]
        exact he _ (by omega)) 8]

/-- C26 at a concrete input: the mask 0x140, which has bits 8 and 6 set, and
    algorithm id 1, which is tested against bit 6. -/
theorem selector_tests_bit_seven_minus_id_witness :
    (1 : Nat) ≤ 7 ∧ capability_bit 0x140 1 = Int.testBit 0x140 (7 - 1) ∧
    (∀ mask' : Int, (∀ j, j ≤ 7 → Int.testBit mask' j = Int.testBit 0x140 j) →
      capability_bit mask' 1 = capability_bit 0x140 1) :=
  ⟨by decide, (selector_tests_bit_seven_minus_id 0x140 1 (by decide)).2.2.1,
    (selector_tests_bit_seven_minus_id 0x140 1 (by decide)).2.2.2.2.2.1⟩

/-! ## The command that start emits -/

theorem end_emits (env : Collaborators) (s : NasState) (rc : Int) (is_new : Bool)
    (ue_id : Nat) (ksi eea eia ucs2 uea uia gea umts_present gprs_present : Int)
    (c : emm_data_context_t) (sec : emm_security_context_t)
    (hue : 0 < ue_id) (hc : s.emm_data.ctx ue_id = some c) (hs : c.security = some sec)
    (hm : env.malloc_ok s.trace = true)
    (hi : env.common_initialize_rc (s.trace ++ [Event.MALLOC_CHECK (some s.next_ptr)]) ue_id
      = RETURNok) :
    ∃ rc1 s1 rest,
      security_mode_control_end env s rc is_new ue_id ksi eea eia ucs2 uea uia gea
        umts_present gprs_present = Except.ok (rc1, s1) ∧
      s1.heap s.next_ptr = HeapCell.live (new_security_data ue_id ksi eea eia ucs2 uea uia gea
        umts_present gprs_present sec) ∧
      emitted s1.trace = emitted s.trace ++
        security_command (new_security_data ue_id ksi eea eia ucs2 uea uia
          gea umts_present gprs_present sec) (some sec) is_new :: rest ∧
      (rest = [] ∨ rest = [emm_sap_t.EMMREG_COMMON_PROC_REQ ue_id (some ue_id)]) := by
  by_cases hsend : env.emm_sap_send_rc
      (s.trace ++ [Event.MALLOC_CHECK (some s.next_ptr)] ++
        [Event.emm_proc_common_initialize ue_id s.next_ptr RETURNok])
      (security_command (new_security_data ue_id ksi eea eia ucs2 uea uia gea umts_present
        gprs_present sec) (some sec) is_new) = RETURNerror
  · obtain ⟨s1, hend, htr, -, hheap, -⟩ := end_command_refused env s rc is_new ue_id ksi eea
      eia ucs2 uea uia gea umts_present gprs_present c sec hue hc hs hm hi hsend
    refine ⟨_, s1, [], hend, hheap, ?_, Or.inl rfl⟩
    rw [htr, emitted_append]
    simp [emitted]
  · obtain ⟨rc1, s1, rc_cmd, tev, id, hend, htr, -, htev, -, -, hheap, -⟩ :=
      end_success env s rc is_new ue_id ksi eea eia ucs2 uea uia gea umts_present gprs_present
        c sec hue hc hs hm hi hsend
    refine ⟨rc1, s1, [emm_sap_t.EMMREG_COMMON_PROC_REQ ue_id (some ue_id)], hend, hheap, ?_,
      Or.inr rfl⟩
    rw [htr, emitted_append]
    rcases htev with h | h <;> subst h <;> simp [emitted]

theorem start_emits (env : Collaborators) (s : NasState) (ue_id : Nat)
    (ksi eea eia ucs2 uea uia gea umts_present gprs_present : Int)
    (c : emm_data_context_t) (sec : emm_security_context_t)
    (hue : 0 < ue_id) (hc : s.emm_data.ctx ue_id = some c) (hs : c.security = some sec)
    (hreach : sec.type = emm_ksi_t.EMM_KSI_NOT_AVAILABLE →
      sec.knas_int.value = none ∧ sec.knas_enc.value = none)
    (hm : ∀ tr, env.malloc_ok tr = true)
    (hi : ∀ tr, env.common_initialize_rc tr ue_id = RETURNok) :
    ∃ rc s1 sec1 rest,
      emm_proc_security_mode_control env s ue_id ksi eea eia ucs2 uea uia gea
        umts_present gprs_present = Except.ok (rc, s1) ∧
      s1.heap s.next_ptr = HeapCell.live (new_security_data ue_id ksi eea eia ucs2 uea uia gea
        umts_present gprs_present sec1) ∧
      emitted s1.trace = emitted s.trace ++
        security_command (new_security_data ue_id ksi eea eia ucs2 uea uia
          gea umts_present gprs_present sec1) (some sec1)
          (decide (sec.type = emm_ksi_t.EMM_KSI_NOT_AVAILABLE)) :: rest ∧
      (rest = [] ∨ rest = [emm_sap_t.EMMREG_COMMON_PROC_REQ ue_id (some ue_id)]) ∧
      (sec.type = emm_ksi_t.EMM_KSI_NATIVE → sec1 = sec) := by
  by_cases ht : sec.type = emm_ksi_t.EMM_KSI_NOT_AVAILABLE
  · obtain ⟨hki, hke⟩ := hreach ht
    obtain ⟨s0, hbegin, hsec0, htr0, -, -, hnext0, -, hc0⟩ :=
      begin_first_activation env s ue_id ksi eea eia c sec hue hc hs ht hki hke
    rw [hsec0] at hc0
    obtain ⟨rc1, s1, rest, hend, hheap, hemit, hrest⟩ :=
      end_emits env s0 RETURNok true ue_id ksi eea eia ucs2 uea uia gea umts_present
        gprs_present _ _ hue hc0 rfl (hm _) (hi _)
    rw [hnext0] at hheap
    refine ⟨rc1, s1, _, rest, ?_, hheap, ?_, hrest, ?_⟩
    · unfold emm_proc_security_mode_control
      rw [hbegin]
      exact hend
    · rw [hemit, htr0, emitted_append]
      simp [emitted, ht]
    · intro htn
      rw [ht] at htn
      exact absurd htn (by decide)
  · have htn : sec.type = emm_ksi_t.EMM_KSI_NATIVE := by
      cases hty : sec.type with
      | EMM_KSI_NOT_AVAILABLE => exact absurd hty ht
      | EMM_KSI_NATIVE => rfl
    obtain ⟨rc1, s1, rest, hend, hheap, hemit, hrest⟩ :=
      end_emits env s RETURNerror false ue_id ksi eea eia ucs2 uea uia gea
        umts_present gprs_present c sec hue hc hs (hm _) (hi _)
    refine ⟨rc1, s1, sec, rest, ?_, hheap, ?_, hrest, fun _ => rfl⟩
    · unfold emm_proc_security_mode_control
      rw [begin_native env s ue_id ksi eea eia c sec hue hc hs htn]
      exact hend
    · simpa [ht] using hemit

theorem bitfield1_ne_zero (x : Int) : bitfield1 x ≠ 0 ↔ x % 2 = 1 := by
  unfold bitfield1
  split <;> omega

theorem bitfield1_mod (x : Int) : bitfield1 (x % 2) = bitfield1 x := by
  unfold bitfield1
  rw [Int.emod_emod_of_dvd x (dvd_refl 2)]

/-- C27: the presence flags are stored in 1-bit signed bit-fields of the
    Procedure State, so for every start call that reaches the Request step the
    flags replayed in its `EMMAS_SECURITY_REQ` event are those fields, which
    depend only on the lowest bit of the start arguments: a replayed flag is
    non-zero if and only if the argument is odd; the argument 2 is replayed as
    0, 'absent', and the argument 1 is replayed as -1. -/
theorem presence_flags_keep_only_lowest_bit (env : Collaborators) (s : NasState)
    (ue_id : Nat) (ksi eea eia ucs2 uea uia gea umts_present gprs_present : Int)
    (c : emm_data_context_t) (sec : emm_security_context_t)
    (hue : 0 < ue_id) (hc : s.emm_data.ctx ue_id = some c) (hs : c.security = some sec)
    (hreach : sec.type = emm_ksi_t.EMM_KSI_NOT_AVAILABLE →
      sec.knas_int.value = none ∧ sec.knas_enc.value = none)
    (hm : ∀ tr, env.malloc_ok tr = true)
    (hi : ∀ tr, env.common_initialize_rc tr ue_id = RETURNok) :
    ∃ rc s1 d m rest,
      emm_proc_security_mode_control env s ue_id ksi eea eia ucs2 uea uia gea
        umts_present gprs_present = Except.ok (rc, s1) ∧
      s1.heap s.next_ptr = HeapCell.live d ∧
      emitted s1.trace = emitted s.trace ++ emm_sap_t.EMMAS_SECURITY_REQ m :: rest ∧
      (rest = [] ∨ rest = [emm_sap_t.EMMREG_COMMON_PROC_REQ ue_id (some ue_id)]) ∧
      m.umts_present = d.umts_present ∧ m.gprs_present = d.gprs_present ∧
      d.umts_present = bitfield1 umts_present ∧ d.gprs_present = bitfield1 gprs_present ∧
      bitfield1 umts_present = bitfield1 (umts_present % 2) ∧
      bitfield1 gprs_present = bitfield1 (gprs_present % 2) ∧
      (m.umts_present ≠ 0 ↔ umts_present % 2 = 1) ∧
      (m.gprs_present ≠ 0 ↔ gprs_present % 2 = 1) ∧
      (umts_present = 2 → m.umts_present = 0) ∧ (gprs_present = 2 → m.gprs_present = 0) ∧
      (umts_present = 1 → m.umts_present = -1) ∧
      (gprs_present = 1 → m.gprs_present = -1) := by
  obtain ⟨rc, s1, sec1, rest, hstart, hheap, hemit, hrest, -⟩ :=
    start_emits env s ue_id ksi eea eia ucs2 uea uia gea umts_present gprs_present c sec
      hue hc hs hreach hm hi
  refine ⟨rc, s1, _, _, rest, hstart, hheap, hemit, hrest, rfl, rfl, rfl, rfl,
    (bitfield1_mod _).symm, (bitfield1_mod _).symm, bitfield1_ne_zero _, bitfield1_ne_zero _,
    ?_, ?_, ?_, ?_⟩
  · intro h; subst h; rfl
  · intro h; subst h; rfl
  · intro h; subst h; rfl
  · intro h; subst h; rfl

/-- C27 at a concrete input: a first start for subscriber 1 of the example store
    with `umts_present = 2` and `gprs_present = 1` replays `umts_present = 0` and
    `gprs_present = -1`. -/
theorem presence_flags_keep_only_lowest_bit_witness :
    ∃ rc s1 m rest,
      emm_proc_security_mode_control example_env example_state 1 5 0x40 0x60 0 0 0 0 2 1
        = Except.ok (rc, s1) ∧
      emitted s1.trace = emitted example_state.trace ++ emm_sap_t.EMMAS_SECURITY_REQ m :: rest ∧
      m.umts_present = 0 ∧ m.gprs_present = -1 := by
  obtain ⟨rc, s1, -, m, rest, hstart, -, hemit, -, -, -, -, -, -, -, -, -, hu, -, -, hg⟩ :=
    presence_flags_keep_only_lowest_bit example_env example_state 1 5 0x40 0x60 0 0 0 0 2 1
      (example_context (some (example_security emm_ksi_t.EMM_KSI_NOT_AVAILABLE)))
      (example_security emm_ksi_t.EMM_KSI_NOT_AVAILABLE) (by decide) rfl rfl
      (fun _ => ⟨rfl, rfl⟩) (fun _ => rfl) (fun _ => rfl)
  exact ⟨rc, s1, m, rest, hstart, hemit, hu rfl, hg rfl⟩

/-! ## Retry exhaustion and the security context -/

theorem handler_frame (env : Collaborators) (s : NasState) (p : Nat)
    (d : security_data_t) (c : emm_data_context_t)
    (hp : s.heap p = HeapCell.live d) (hue : 0 < d.ue_id)
    (hc : s.emm_data.ctx d.ue_id = some c) :
    ∃ s1, _security_t3460_handler env s p = Except.ok s1 ∧
      (∀ u, security_of s1 u = security_of s u) ∧
      (∀ tag, key_derivations tag s1.trace = key_derivations tag s.trace) := by
  by_cases hlt : (d.retransmission_count + 1) % 4294967296 < SECURITY_COUNTER_MAX
  · obtain ⟨-, s1, -, hh, -, hsec, hkd, -⟩ := (handler_cases env s p d c hp hue hc).1 hlt
    exact ⟨s1, hh, hsec, hkd⟩
  · obtain ⟨-, s1, -, hh, -, hsec, hkd, -⟩ := (handler_cases env s p d c hp hue hc).2 hlt
    exact ⟨s1, hh, hsec, hkd⟩

theorem exhaustion_after_first_start (env : Collaborators) (s : NasState) (ue_id : Nat)
    (ksi eea eia ucs2 uea uia gea umts_present gprs_present : Int)
    (c : emm_data_context_t) (sec : emm_security_context_t)
    (hue : 0 < ue_id) (hc : s.emm_data.ctx ue_id = some c) (hs : c.security = some sec)
    (ht : sec.type = emm_ksi_t.EMM_KSI_NOT_AVAILABLE)
    (hki : sec.knas_int.value = none) (hke : sec.knas_enc.value = none)
    (hm : ∀ tr, env.malloc_ok tr = true)
    (hi : ∀ tr, env.common_initialize_rc tr ue_id = RETURNok)
    (hcmd : ∀ tr m, env.emm_sap_send_rc tr (emm_sap_t.EMMAS_SECURITY_REQ m) ≠ RETURNerror) :
    ∃ rc1 s1 s6 sec1 c6,
      emm_proc_security_mode_control env s ue_id ksi eea eia ucs2 uea uia gea
        umts_present gprs_present = Except.ok (rc1, s1) ∧
      expiries env s1 s.next_ptr SECURITY_COUNTER_MAX = Except.ok s6 ∧
      s6.heap s.next_ptr = HeapCell.freed ∧
      security_of s1 ue_id = some sec1 ∧
      s6.emm_data.ctx ue_id = some c6 ∧ c6.security = some sec1 ∧
      c6.T3460.id = NAS_TIMER_INACTIVE_ID ∧
      sec1.type = emm_ksi_t.EMM_KSI_NATIVE ∧
      sec1.selected_algorithms.integrity
        = (_security_select_algorithms s.emm_data.conf eia eea).2.1 ∧
      sec1.selected_algorithms.encryption
        = (_security_select_algorithms s.emm_data.conf eia eea).2.2 := by
  obtain ⟨rc1, s1, -, -, id, sec1, c1, hstart, -, -, -, -, hid, hctx1, hsec1, hT, -, htype,
    hint, henc, hheap1, -, -⟩ :=
    first_start_success env s ue_id ksi eea eia ucs2 uea uia gea umts_present gprs_present
      c sec hue hc hs ht hki hke hm hi hcmd
  have harmed : c1.T3460.id ≠ NAS_TIMER_INACTIVE_ID := by rw [hT]; exact hid
  obtain ⟨s5, hexp4, hheap5, hctx5, -, -⟩ := expiries_retransmit env s1 s.next_ptr
    (new_security_data ue_id ksi eea eia ucs2 uea uia gea umts_present gprs_present sec1) c1
    hheap1 rfl hue hctx1 harmed hcmd 4 (le_refl 4)
  obtain ⟨-, s6, hh, -, hheap6, hctx6, -⟩ := handler_aborts env s5 s.next_ptr
    { new_security_data ue_id ksi eea eia ucs2 uea uia gea umts_present gprs_present sec1 with
      retransmission_count := 4 } c1 hheap5 hue hctx5 harmed rfl
  refine ⟨rc1, s1, s6, sec1, _, hstart, ?_, hheap6, security_of_eq s1 ue_id c1 sec1 hctx1 hsec1,
    hctx6, hsec1, rfl, htype, hint, henc⟩
  show expiries env s1 s.next_ptr (4 + 1) = Except.ok s6
  rw [expiries_succ_of_ok env s1 s5 s.next_ptr 4 hexp4]
  exact hh

theorem native_start_reuses_selection (env : Collaborators) (s : NasState) (ue_id : Nat)
    (ksi eea eia ucs2 uea uia gea umts_present gprs_present : Int)
    (c : emm_data_context_t) (sec : emm_security_context_t)
    (hue : 0 < ue_id) (hc : s.emm_data.ctx ue_id = some c) (hs : c.security = some sec)
    (ht : sec.type = emm_ksi_t.EMM_KSI_NATIVE)
    (hm : ∀ tr, env.malloc_ok tr = true)
    (hi : ∀ tr, env.common_initialize_rc tr ue_id = RETURNok) :
    ∃ rc s1 d rest,
      emm_proc_security_mode_control env s ue_id ksi eea eia ucs2 uea uia gea
        umts_present gprs_present = Except.ok (rc, s1) ∧
      (∀ u, security_of s1 u = security_of s u) ∧
      (∀ tag, key_derivations tag s1.trace = key_derivations tag s.trace) ∧
      s1.heap s.next_ptr = HeapCell.live d ∧
      d.selected_eea = sec.selected_algorithms.encryption ∧
      d.selected_eia = sec.selected_algorithms.integrity ∧
      emitted s1.trace = emitted s.trace ++ security_command d (some sec) false :: rest := by
  obtain ⟨rc, s1, sec1, rest, hstart, hheap, hemit, -, hsame⟩ :=
    start_emits env s ue_id ksi eea eia ucs2 uea uia gea umts_present gprs_present c sec
      hue hc hs (fun h => absurd (ht.symm.trans h) (by decide)) hm hi
  obtain ⟨rc2, s2, hstart2, hsec, hkd⟩ := start_native_frame env s ue_id ksi eea eia ucs2 uea
    uia gea umts_present gprs_present sec hue (security_of_eq s ue_id c sec hc hs) ht
  rw [hstart] at hstart2
  injection hstart2 with hstart2
  injection hstart2 with hrc hst
  subst hrc hst
  have hsec1 := hsame ht
  subst hsec1
  refine ⟨rc, s1, _, rest, hstart, hsec, hkd, hheap, rfl, rfl, ?_⟩
  simpa [ht] using hemit

/-- C28: the T3460 handler and `_security_abort` run to the end on every
    Procedure State whose subscriber has a context and leave the security
    context of every subscriber, with its `type`, `eksi`, `dl_count`, `kasme`,
    `knas_int`, `knas_enc` and `selected_algorithms`, as it was; so after a
    first-time start followed by five expiries of T3460 the Procedure State is
    released and the context is still `EMM_KSI_NATIVE`, and a later start on
    that subscriber, whatever its arguments, derives no key, leaves the context
    as it was and sets up its Procedure State and its command with the
    algorithms selected by the first start. -/
theorem exhaustion_keeps_security_context (env : Collaborators) (s : NasState) (ue_id : Nat)
    (ksi eea eia ucs2 uea uia gea umts_present gprs_present : Int)
    (ksi2 eea2 eia2 ucs2b uea2 uia2 gea2 umts_present2 gprs_present2 : Int)
    (c : emm_data_context_t) (sec : emm_security_context_t)
    (hue : 0 < ue_id) (hc : s.emm_data.ctx ue_id = some c) (hs : c.security = some sec)
    (ht : sec.type = emm_ksi_t.EMM_KSI_NOT_AVAILABLE)
    (hki : sec.knas_int.value = none) (hke : sec.knas_enc.value = none)
    (hm : ∀ tr, env.malloc_ok tr = true)
    (hi : ∀ tr, env.common_initialize_rc tr ue_id = RETURNok)
    (hcmd : ∀ tr m, env.emm_sap_send_rc tr (emm_sap_t.EMMAS_SECURITY_REQ m) ≠ RETURNerror) :
    (∀ (t : NasState) (p : Nat) (d : security_data_t) (c1 : emm_data_context_t),
      t.heap p = HeapCell.live d → 0 < d.ue_id → t.emm_data.ctx d.ue_id = some c1 →
      (∃ t1, _security_t3460_handler env t p = Except.ok t1 ∧
        ∀ u, security_of t1 u = security_of t u) ∧
      (∃ rc t2, _security_abort env t (some p) = Except.ok (rc, t2) ∧
        ∀ u, security_of t2 u = security_of t u)) ∧
    ∃ rc1 s1 s6 sec1 rc2 s7 d rest,
      emm_proc_security_mode_control env s ue_id ksi eea eia ucs2 uea uia gea
        umts_present gprs_present = Except.ok (rc1, s1) ∧
      security_of s1 ue_id = some sec1 ∧
      expiries env s1 s.next_ptr SECURITY_COUNTER_MAX = Except.ok s6 ∧
      s6.heap s.next_ptr = HeapCell.freed ∧
      security_of s6 ue_id = some sec1 ∧
      sec1.type = emm_ksi_t.EMM_KSI_NATIVE ∧
      sec1.selected_algorithms.integrity
        = (_security_select_algorithms s.emm_data.conf eia eea).2.1 ∧
      sec1.selected_algorithms.encryption
        = (_security_select_algorithms s.emm_data.conf eia eea).2.2 ∧
      emm_proc_security_mode_control env s6 ue_id ksi2 eea2 eia2 ucs2b uea2 uia2 gea2
        umts_present2 gprs_present2 = Except.ok (rc2, s7) ∧
      (∀ tag, key_derivations tag s7.trace = key_derivations tag s6.trace) ∧
      security_of s7 ue_id = some sec1 ∧
      s7.heap s6.next_ptr = HeapCell.live d ∧
      d.selected_eia = (_security_select_algorithms s.emm_data.conf eia eea).2.1 ∧
      d.selected_eea = (_security_select_algorithms s.emm_data.conf eia eea).2.2 ∧
      emitted s7.trace = emitted s6.trace ++ security_command d (some sec1) false :: rest := by
  constructor
  · intro t p d c1 hp hd hc1
    obtain ⟨t1, hh, hsec, -⟩ := handler_frame env t p d c1 hp hd hc1
    obtain ⟨rc, t2, ha, hsec2, -⟩ := abort_frame env t p d c1 hp hd hc1
    exact ⟨⟨t1, hh, hsec⟩, ⟨rc, t2, ha, hsec2⟩⟩
  · obtain ⟨rc1, s1, s6, sec1, c6, hstart, hexp, hfreed, hsec1, hctx6, hsec6, -, htype, hint,
      henc⟩ := exhaustion_after_first_start env s ue_id ksi eea eia ucs2 uea uia gea
        umts_present gprs_present c sec hue hc hs ht hki hke hm hi hcmd
    obtain ⟨rc2, s7, d, rest, hstart2, hframe, hkd, hheap7, heea, heia, hemit⟩ :=
      native_start_reuses_selection env s6 ue_id ksi2 eea2 eia2 ucs2b uea2 uia2 gea2
        umts_present2 gprs_present2 c6 sec1 hue hctx6 hsec6 htype hm hi
    have hsec6b : security_of s6 ue_id = some sec1 := security_of_eq s6 ue_id c6 sec1 hctx6 hsec6
    exact ⟨rc1, s1, s6, sec1, rc2, s7, d, rest, hstart, hsec1, hexp, hfreed, hsec6b, htype, hint,
      henc, hstart2, hkd, (hframe ue_id).trans hsec6b, hheap7, heia.trans hint,
      heea.trans henc, hemit⟩

/-- C28 at a concrete input: a first start for subscriber 1 of the example
    store, five expiries of T3460, then a start with other capabilities. -/
theorem exhaustion_keeps_security_context_witness :
    ∃ rc1 s1 s6 sec1 rc2 s7 d rest,
      emm_proc_security_mode_control example_env example_state 1 5 0x40 0x60 0 0 0 0 0 0
        = Except.ok (rc1, s1) ∧
      security_of s1 1 = some sec1 ∧
      expiries example_env s1 example_state.next_ptr SECURITY_COUNTER_MAX = Except.ok s6 ∧
      s6.heap example_state.next_ptr = HeapCell.freed ∧
      security_of s6 1 = some sec1 ∧
      sec1.type = emm_ksi_t.EMM_KSI_NATIVE ∧
      sec1.selected_algorithms.integrity
        = (_security_select_algorithms example_state.emm_data.conf 0x60 0x40).2.1 ∧
      sec1.selected_algorithms.encryption
        = (_security_select_algorithms example_state.emm_data.conf 0x60 0x40).2.2 ∧
      emm_proc_security_mode_control example_env s6 1 6 0x20 0x10 0 0 0 0 0 0
        = Except.ok (rc2, s7) ∧
      (∀ tag, key_derivations tag s7.trace = key_derivations tag s6.trace) ∧
      security_of s7 1 = some sec1 ∧
      s7.heap s6.next_ptr = HeapCell.live d ∧
      d.selected_eia = (_security_select_algorithms example_state.emm_data.conf 0x60 0x40).2.1 ∧
      d.selected_eea = (_security_select_algorithms example_state.emm_data.conf 0x60 0x40).2.2 ∧
      emitted s7.trace = emitted s6.trace ++ security_command d (some sec1) false :: rest :=
  (exhaustion_keeps_security_context example_env example_state 1 5 0x40 0x60 0 0 0 0 0 0
    6 0x20 0x10 0 0 0 0 0 0
    (example_context (some (example_security emm_ksi_t.EMM_KSI_NOT_AVAILABLE)))
    (example_security emm_ksi_t.EMM_KSI_NOT_AVAILABLE) (by decide) rfl rfl rfl rfl rfl
    (fun _ => rfl) (fun _ => rfl) (fun _ _ => (by decide : RETURNok ≠ RETURNerror))).2

end SecurityModeControl
